import Mathlib

set_option maxRecDepth 100000

set_option maxHeartbeats 2000000

/-!
Verification of the target-name normalization pipeline of this repository
(`library/transforms.py`).  The Python code is shallowly embedded: strings are
lists of characters, `re` patterns are transcribed into a small regex AST that
is executed by a fuel-bounded backtracking matcher with Python (leftmost,
greedy, first-alternative-preferred) semantics, and each Python function of the
pipeline becomes a Lean definition of the same name.

Modelling notes for external (non-repository) behaviour:
* `unicodedata.normalize("NFKC", ...)` (Python stdlib) is modelled as a
  character-level compatibility mapping covering the character repertoire this
  program manipulates (superscript/subscript digits, the micro sign, NBSP);
  all other characters are left unchanged.
* `str.lower` / `str.upper` and `re.IGNORECASE` case folding are modelled for
  ASCII and Greek letters (the alphabets appearing in the program's data).
* The optional `hgvs` parser dependency is modelled as absent
  (`_HGVS_PARSER = None`), which is the `except`-branch default of the source.
* `\s`, `\d`, word characters and `str.isalpha`/`str.isdigit` are modelled over
  the same repertoire (ASCII plus common Unicode spaces plus Greek letters).
-/

namespace Chembl

/-- Python strings are modelled as lists of characters. -/
abbrev Str := List Char

/-- Convert a Lean string literal to the model representation. -/
def toL (s : String) : Str := s.data

/-- Characters treated as whitespace by the model of Python's `\s`,
`str.strip` and `str.split`. -/
def isPySpace (c : Char) : Bool :=
  c = ' ' ∨ c = '\t' ∨ c = '\n' ∨ c = '\r' ∨ c = '\x0b' ∨ c = '\x0c' ∨
  c = '\xa0' ∨ c = ' ' ∨ (' ' ≤ c ∧ c ≤ ' ') ∨
  c = ' ' ∨ c = ' ' ∨ c = ' ' ∨ c = ' ' ∨ c = '　' ∨
  c = '\u0085'

/-- ASCII uppercase test (`A`–`Z`). -/
def isAsciiUpper (c : Char) : Bool := 'A' ≤ c ∧ c ≤ 'Z'

/-- ASCII lowercase test (`a`–`z`). -/
def isAsciiLower (c : Char) : Bool := 'a' ≤ c ∧ c ≤ 'z'

/-- Greek capital letters Α–Ρ, Σ–Ω with their lowercase forms; model of the
case mapping used by Python's `str.lower` for the Greek block. -/
def greekUpperToLower : List (Char × Char) :=
  [('Α', 'α'), ('Β', 'β'), ('Γ', 'γ'), ('Δ', 'δ'), ('Ε', 'ε'), ('Ζ', 'ζ'),
   ('Η', 'η'), ('Θ', 'θ'), ('Ι', 'ι'), ('Κ', 'κ'), ('Λ', 'λ'), ('Μ', 'μ'),
   ('Ν', 'ν'), ('Ξ', 'ξ'), ('Ο', 'ο'), ('Π', 'π'), ('Ρ', 'ρ'), ('Σ', 'σ'),
   ('Τ', 'τ'), ('Υ', 'υ'), ('Φ', 'φ'), ('Χ', 'χ'), ('Ψ', 'ψ'), ('Ω', 'ω')]

/-- Character lookup in an association list, defaulting to the key itself. -/
def lookupD (tbl : List (Char × Char)) (c : Char) : Char :=
  match tbl.find? (fun p => p.1 = c) with
  | some p => p.2
  | none => c

/-- Model of Python `str.lower` at character level: ASCII `A`–`Z` plus Greek
capitals; other characters are unchanged. -/
def pyLowerChar (c : Char) : Char :=
  if isAsciiUpper c then Char.ofNat (c.toNat + 32) else lookupD greekUpperToLower c

/-- Model of Python `str.upper` at character level (inverse direction). -/
def pyUpperChar (c : Char) : Char :=
  if isAsciiLower c then Char.ofNat (c.toNat - 32)
  else lookupD (greekUpperToLower.map (fun p => (p.2, p.1))) c

/-- Model of Python `str.lower`. -/
def pyLower (s : Str) : Str := s.map pyLowerChar

/-- Model of Python `str.upper`. -/
def pyUpper (s : Str) : Str := s.map pyUpperChar

/-- Word characters for `\b` in the model: ASCII alphanumerics, underscore and
Greek letters. -/
def isWordChar (c : Char) : Bool :=
  c.isAlpha ∨ c.isDigit ∨ c = '_' ∨ ('Α' ≤ c ∧ c ≤ 'ω')

/-- Model of Python `str.strip()` (strip whitespace at both ends). -/
def pyStrip (s : Str) : Str :=
  ((s.dropWhile isPySpace).reverse.dropWhile isPySpace).reverse

/-- Slice `s[a:b]` of a string. -/
def strSlice (s : Str) (a b : Nat) : Str := (s.drop a).take (b - a)

/-- Model of Python's substring containment `needle in hay`. -/
def isSubstr : Str → Str → Bool
  | _, [] => true
  | hay, needle =>
    match hay with
    | [] => decide (needle = [])
    | _ :: t => needle.isPrefixOf hay ∨ isSubstr t needle

/-- Model of Python `str.startswith`. -/
def strStartsWith (s pre : Str) : Bool := pre.isPrefixOf s

/-- Model of Python `str.replace(pat, new)` (all non-overlapping occurrences,
left to right); `pat` is assumed non-empty, as at every call site. -/
def pyReplaceAux : Nat → Str → Str → Str → Str
  | 0, s, _, _ => s
  | _ + 1, [], _, _ => []
  | fuel + 1, c :: rest, pat, new =>
    if pat.isPrefixOf (c :: rest) then
      new ++ pyReplaceAux fuel ((c :: rest).drop pat.length) pat new
    else
      c :: pyReplaceAux fuel rest pat new

/-- Model of Python `str.replace`. -/
def pyReplace (s pat new : Str) : Str :=
  if pat = [] then s else pyReplaceAux s.length s pat new

/-- Model of Python `str.split()` (split on whitespace runs, dropping empty
pieces). -/
def wsSplit (s : Str) : List Str :=
  let step := fun c (p : Str × List Str) =>
    if isPySpace c then (([] : Str), if p.1 = [] then p.2 else p.1 :: p.2)
    else (c :: p.1, p.2)
  let r := s.foldr step ([], [])
  if r.1 = [] then r.2 else r.1 :: r.2

/-- Model of `"x".join(parts)` with a single-character separator. -/
def joinSep (sep : Char) : List Str → Str
  | [] => []
  | [x] => x
  | x :: rest => x ++ sep :: joinSep sep rest

/-- Items of a regex character class. -/
inductive CI where
  | ch (c : Char)
  | rng (a b : Char)
  | digit
  | nondigit
  | space
  deriving Repr, DecidableEq

/-- Regex abstract syntax, covering the constructs used by the source
patterns.  `lb` is a lookbehind given as class items in reverse order. -/
inductive RE where
  | eps
  | ch (c : Char)
  | cls (neg : Bool) (items : List CI)
  | dot
  | cat (a b : RE)
  | alt (a b : RE)
  | star (a : RE)
  | lstar (a : RE)
  | grp (i : Nat) (a : RE)
  | bnd
  | la (neg : Bool) (a : RE)
  | lb (neg : Bool) (ritems : List CI)
  | bos
  | eos
  deriving Repr

/-- Raw (case-sensitive) test of one class item. -/
def ciTest : CI → Char → Bool
  | CI.ch c, x => x = c
  | CI.rng a b, x => a ≤ x ∧ x ≤ b
  | CI.digit, x => x.isDigit
  | CI.nondigit, x => ¬ x.isDigit
  | CI.space, x => isPySpace x

/-- Class-item test honouring `re.IGNORECASE` (a character matches if itself or
one of its case variants does). -/
def ciMatch (ic : Bool) (i : CI) (x : Char) : Bool :=
  ciTest i x ∨ (ic ∧ (ciTest i (pyLowerChar x) ∨ ciTest i (pyUpperChar x)))

/-- Literal-character test honouring `re.IGNORECASE`. -/
def chMatch (ic : Bool) (c x : Char) : Bool :=
  x = c ∨ (ic ∧ pyLowerChar x = pyLowerChar c)

/-- Class test: does `x` match `[items]` / `[^items]`. -/
def clsMatch (ic : Bool) (neg : Bool) (items : List CI) (x : Char) : Bool :=
  (items.any (fun i => ciMatch ic i x)) ≠ neg

/-- Capture-group store: `caps.get? (i-1)` is the span of group `i`. -/
abbrev Caps := List (Option (Nat × Nat))

/-- Word-boundary test between a reversed left context and the remainder. -/
def atBoundary (l r : Str) : Bool :=
  (match l with | [] => false | c :: _ => isWordChar c) ≠
  (match r with | [] => false | c :: _ => isWordChar c)

/-- Lookbehind test: the reversed left context starts with the given
(reversed) class items. -/
def lbTest (ic : Bool) : List CI → Str → Bool
  | [], _ => true
  | _ :: _, [] => false
  | i :: is, c :: l => ciMatch ic i c ∧ lbTest ic is l

/-- Backtracking matcher in continuation-passing style.  Arguments: fuel,
ignore-case flag, regex, reversed left context, remaining input, current
position, captures, success continuation.  Alternatives are tried left to
right and `star` is greedy, matching Python's backtracking semantics; a
starred body that matches without consuming input stops the iteration. -/
def reRun : Nat → Bool → RE → Str → Str → Nat → Caps →
    (Str → Str → Nat → Caps → Option (Nat × Caps)) → Option (Nat × Caps)
  | 0, _, _, _, _, _, _, _ => none
  | fuel + 1, ic, re, l, r, p, caps, k =>
    match re with
    | RE.eps => k l r p caps
    | RE.ch c =>
      match r with
      | [] => none
      | x :: r' => if chMatch ic c x then k (x :: l) r' (p + 1) caps else none
    | RE.cls neg items =>
      match r with
      | [] => none
      | x :: r' => if clsMatch ic neg items x then k (x :: l) r' (p + 1) caps else none
    | RE.dot =>
      match r with
      | [] => none
      | x :: r' => if x = '\n' then none else k (x :: l) r' (p + 1) caps
    | RE.cat a b =>
      reRun fuel ic a l r p caps (fun l' r' p' caps' => reRun fuel ic b l' r' p' caps' k)
    | RE.alt a b =>
      (reRun fuel ic a l r p caps k).orElse (fun _ => reRun fuel ic b l r p caps k)
    | RE.star a =>
      (reRun fuel ic a l r p caps (fun l' r' p' caps' =>
        if p < p' then reRun fuel ic (RE.star a) l' r' p' caps' k
        else k l' r' p' caps')).orElse (fun _ => k l r p caps)
    | RE.lstar a =>
      (k l r p caps).orElse (fun _ =>
        reRun fuel ic a l r p caps (fun l' r' p' caps' =>
          if p < p' then reRun fuel ic (RE.lstar a) l' r' p' caps' k else none))
    | RE.grp i a =>
      reRun fuel ic a l r p caps (fun l' r' p' caps' =>
        k l' r' p' (caps'.set (i - 1) (some (p, p'))))
    | RE.bnd => if atBoundary l r then k l r p caps else none
    | RE.la neg a =>
      let res := reRun fuel ic a l r p caps (fun _ _ p' caps' => some (p', caps'))
      if res.isSome ≠ neg then k l r p caps else none
    | RE.lb neg ritems => if lbTest ic ritems l ≠ neg then k l r p caps else none
    | RE.bos => if p = 0 then k l r p caps else none
    | RE.eos => match r with | [] => k l r p caps | _ :: _ => none

/-- Fuel bound: generous for the pattern sizes and input lengths in play. -/
def bigFuel (r : Str) : Nat := 8000 + 8 * r.length

/-- A compiled pattern: AST, `re.IGNORECASE` flag, number of capture groups. -/
structure PyPattern where
  re : RE
  ig : Bool
  ng : Nat

/-- A match object: the subject string, the span of group 0, captures. -/
structure PyMatch where
  str : Str
  start : Nat
  stop : Nat
  caps : Caps
  deriving Repr

/-- Model of `match.group(0)`. -/
def PyMatch.group0 (m : PyMatch) : Str := strSlice m.str m.start m.stop

/-- Model of `match.group(i)` for `i ≥ 1` (`none` when the group did not
participate in the match). -/
def PyMatch.group (m : PyMatch) (i : Nat) : Option Str :=
  match m.caps.get? (i - 1) with
  | some (some (a, b)) => some (strSlice m.str a b)
  | _ => none

/-- Group text defaulting to the empty string. -/
def PyMatch.groupD (m : PyMatch) (i : Nat) : Str := (m.group i).getD []

/-- Attempt a match anchored at the given split of the subject. -/
def matchAtPos (pat : PyPattern) (l r : Str) (p : Nat) : Option (Nat × Caps) :=
  reRun (bigFuel r) pat.ig pat.re l r p (List.replicate pat.ng none)
    (fun _ _ p' caps' => some (p', caps'))

/-- Attempt a match anchored at the split that must consume the whole rest of
the subject (model of `re.fullmatch`). -/
def matchAllAtPos (pat : PyPattern) (l r : Str) (p : Nat) : Option (Nat × Caps) :=
  reRun (bigFuel r) pat.ig pat.re l r p (List.replicate pat.ng none)
    (fun _ r' p' caps' => match r' with | [] => some (p', caps') | _ :: _ => none)

/-- Leftmost search from a split (model of `re.search` scanning). -/
def searchAux (pat : PyPattern) (s : Str) (fuel : Nat) : Str → Str → Nat → Option PyMatch :=
  Nat.rec
    (fun l r p =>
      match matchAtPos pat l r p with
      | some (e, caps) => some ⟨s, p, e, caps⟩
      | none => none)
    (fun _ ih l r p =>
      match matchAtPos pat l r p with
      | some (e, caps) => some ⟨s, p, e, caps⟩
      | none =>
        match r with
        | [] => none
        | x :: r' => ih (x :: l) r' (p + 1))
    fuel

/-- Model of `pattern.search(s)`. -/
def pySearch (pat : PyPattern) (s : Str) : Option PyMatch :=
  searchAux pat s s.length [] s 0

/-- Model of `pattern.fullmatch(s)`. -/
def pyFullmatch (pat : PyPattern) (s : Str) : Option PyMatch :=
  match matchAllAtPos pat [] s 0 with
  | some (e, caps) => some ⟨s, 0, e, caps⟩
  | none => none

/-- Advance a split by `n` characters. -/
def advSplit : Nat → Str → Str → Str × Str
  | 0, l, r => (l, r)
  | _ + 1, l, [] => (l, [])
  | n + 1, l, x :: r => advSplit n (x :: l) r

/-- Model of `pattern.finditer(s)`: non-overlapping matches left to right,
advancing past each match (one character past an empty match). -/
def finditerAux (pat : PyPattern) (s : Str) : Nat → Str → Str → Nat → List PyMatch
  | 0, _, _, _ => []
  | fuel + 1, l, r, p =>
    match searchAux pat s (s.length - p) l r p with
    | none => []
    | some m =>
      let e := if m.start < m.stop then m.stop else m.stop + 1
      let (l', r') := advSplit (e - p) l r
      if r = [] then [m]
      else m :: finditerAux pat s fuel l' r' e

/-- Model of `pattern.finditer(s)` (and the scan underlying `sub`/`split`). -/
def pyFinditer (pat : PyPattern) (s : Str) : List PyMatch :=
  finditerAux pat s (s.length + 1) [] s 0

/-- Model of `pattern.sub(repl, s)` with a replacement function. -/
def subAux (s : Str) (repl : PyMatch → Str) : Nat → List PyMatch → Str
  | pos, [] => s.drop pos
  | pos, m :: ms => strSlice s pos m.start ++ repl m ++ subAux s repl m.stop ms

/-- Model of `pattern.sub(repl, s)`. -/
def pySub (pat : PyPattern) (repl : PyMatch → Str) (s : Str) : Str :=
  subAux s repl 0 (pyFinditer pat s)

/-- Model of `pattern.split(s)` for a pattern without capture groups. -/
def splitAux (s : Str) : Nat → List PyMatch → List Str
  | pos, [] => [s.drop pos]
  | pos, m :: ms => strSlice s pos m.start :: splitAux s m.stop ms

/-- Model of `pattern.split(s)`. -/
def pySplit (pat : PyPattern) (s : Str) : List Str :=
  splitAux s 0 (pyFinditer pat s)

/-- Model of `pattern.findall(s)` for a pattern without capture groups. -/
def pyFindall (pat : PyPattern) (s : Str) : List Str :=
  (pyFinditer pat s).map PyMatch.group0

/-- Template parts for `match.expand` and for transcribed rule callbacks:
literal text, a group reference, or `group(i) or group(j)` (Python `or`). -/
inductive TP where
  | lit (s : Str)
  | g (i : Nat)
  | gOr (i j : Nat)

/-- Evaluate one template part against a match. -/
def TP.eval (m : PyMatch) : TP → Str
  | TP.lit s => s
  | TP.g i => m.groupD i
  | TP.gOr i j =>
    match m.group i with
    | some s => if s = [] then m.groupD j else s
    | none => m.groupD j

/-- Model of `match.expand(template)` (and of f-string rule callbacks). -/
def PyMatch.expand (m : PyMatch) (t : List TP) : Str :=
  t.foldr (fun p acc => TP.eval m p ++ acc) []

/-- Concatenation of a list of regexes. -/
def cats (l : List RE) : RE := l.foldr RE.cat RE.eps

/-- Ordered alternation of a list of regexes (first alternative preferred). -/
def alts : List RE → RE
  | [] => RE.cls false []
  | [a] => a
  | a :: rest => RE.alt a (alts rest)

/-- Literal string regex. -/
def lit (s : String) : RE := cats (s.data.map RE.ch)

/-- Optional regex (`x?`, greedy). -/
def opt (a : RE) : RE := RE.alt a RE.eps

/-- One-or-more (`x+`, greedy). -/
def plus (a : RE) : RE := RE.cat a (RE.star a)

/-- Shorthand for `\s`. -/
def wsC : RE := RE.cls false [CI.space]

/-- Shorthand for `\s*`. -/
def wsS : RE := RE.star wsC

/-- Shorthand for `\s+`. -/
def wsP : RE := plus wsC

/-- Shorthand for `\d`. -/
def dC : RE := RE.cls false [CI.digit]

/-- Shorthand for `\d+`. -/
def dP : RE := plus dC

/-- Shorthand for an uncaptured `[a-z]` class. -/
def lcC : RE := RE.cls false [CI.rng 'a' 'z']

/-- Pattern with neither `IGNORECASE` nor capture groups. -/
def mkPat (re : RE) : PyPattern := ⟨re, false, 0⟩

/-- Pattern with capture groups. -/
def mkPatG (re : RE) (ng : Nat) : PyPattern := ⟨re, false, ng⟩

/-- `IGNORECASE` pattern. -/
def mkPatI (re : RE) : PyPattern := ⟨re, true, 0⟩

/-- `IGNORECASE` pattern with capture groups. -/
def mkPatIG (re : RE) (ng : Nat) : PyPattern := ⟨re, true, ng⟩

/-- Shorthand for `[0-9]`. -/
def n09 : RE := RE.cls false [CI.rng '0' '9']

/-- Shorthand for `[0-9]+`. -/
def n09P : RE := plus n09

/-- Shorthand for `[A-Z]` (used under `IGNORECASE`). -/
def AZc : RE := RE.cls false [CI.rng 'A' 'Z']

/-- Shorthand for `[a-z0-9]`. -/
def an09 : RE := RE.cls false [CI.rng 'a' 'z', CI.rng '0' '9']

/-- Greek letters and their ASCII names (`GREEK_LETTERS` of the source,
including the micro sign). -/
def GREEK_LETTERS : List (Char × Str) :=
  [('α', toL "alpha"), ('β', toL "beta"), ('γ', toL "gamma"), ('δ', toL "delta"),
   ('ε', toL "epsilon"), ('ζ', toL "zeta"), ('η', toL "eta"), ('θ', toL "theta"),
   ('ι', toL "iota"), ('κ', toL "kappa"), ('λ', toL "lambda"), ('μ', toL "mu"),
   ('µ', toL "mu"), ('ν', toL "nu"), ('ξ', toL "xi"), ('ο', toL "omicron"),
   ('π', toL "pi"), ('ρ', toL "rho"), ('σ', toL "sigma"), ('τ', toL "tau"),
   ('υ', toL "upsilon"), ('φ', toL "phi"), ('χ', toL "chi"), ('ψ', toL "psi"),
   ('ω', toL "omega")]

/-- Superscript and subscript digits (`SUPERSCRIPTS` of the source). -/
def SUPERSCRIPTS : List (Char × Str) :=
  [('¹', toL "1"), ('²', toL "2"), ('³', toL "3"), ('⁴', toL "4"), ('⁵', toL "5"),
   ('⁶', toL "6"), ('⁷', toL "7"), ('⁸', toL "8"), ('⁹', toL "9"), ('⁰', toL "0"),
   ('₁', toL "1"), ('₂', toL "2"), ('₃', toL "3"), ('₄', toL "4"), ('₅', toL "5"),
   ('₆', toL "6"), ('₇', toL "7"), ('₈', toL "8"), ('₉', toL "9"), ('₀', toL "0")]

/-- Stop words removed by `remove_weak_words` (`STOP_WORDS` of the source). -/
def STOP_WORDS : List Str :=
  [toL "protein", toL "receptor", toL "channel", toL "isoform", toL "fragment",
   toL "subunit", toL "chain", toL "precursor", toL "like", toL "putative",
   toL "probable", toL "predicted", toL "family"]

/-- Tokens resembling mutations but kept (`MUTATION_WHITELIST` of the source). -/
def MUTATION_WHITELIST : List Str :=
  [toL "m2", toL "h3", toL "d2", toL "p2x7", toL "p2x", toL "5-ht1a",
   toL "alpha1", toL "beta2"]

/-- Modelled from the spec: character-level model of the external
`unicodedata.normalize("NFKC", ...)` for the repertoire the program uses
(superscript/subscript digits to ASCII digits, micro sign to Greek mu,
no-break space to space); identity elsewhere. -/
def nfkcTable : List (Char × Char) :=
  [('¹', '1'), ('²', '2'), ('³', '3'), ('⁴', '4'), ('⁵', '5'), ('⁶', '6'),
   ('⁷', '7'), ('⁸', '8'), ('⁹', '9'), ('⁰', '0'),
   ('₁', '1'), ('₂', '2'), ('₃', '3'), ('₄', '4'), ('₅', '5'), ('₆', '6'),
   ('₇', '7'), ('₈', '8'), ('₉', '9'), ('₀', '0'),
   ('µ', 'μ'), ('\xa0', ' ')]

/-- Character-level NFKC model. -/
def nfkcChar (c : Char) : Char := lookupD nfkcTable c

/-- Typographic quote characters rewritten to an apostrophe
(`TYPO_QUOTES_RE` of the source, a single-character class substitution
rendered character-wise). -/
def quoteChar (c : Char) : Char :=
  if c = '“' ∨ c = '”' ∨ c = '«' ∨ c = '»' ∨ c = '„' ∨ c = '’' then '\'' else c

/-- Long dashes rewritten to a hyphen (`LONG_DASH_RE` of the source, a
single-character class substitution rendered character-wise). -/
def dashChar (c : Char) : Char := if c = '–' ∨ c = '—' then '-' else c

/-- Control characters removed by `CONTROL_CHARS_RE` (`[\u0000-\u001F\u007F]`,
a character-class deletion rendered character-wise). -/
def isControlChar (c : Char) : Bool := c.toNat ≤ 0x1F ∨ c.toNat = 0x7F

/-- Whitespace-run collapsing, the `MULTI_SPACE_RE.sub(" ", text)` step
(`[\s\t]+` replaced by a single space), rendered as a character scan; the
flag records whether the previous character was whitespace. -/
def collapseWs : Bool → Str → Str
  | _, [] => []
  | prev, c :: r =>
    if isPySpace c then (if prev then collapseWs true r else ' ' :: collapseWs true r)
    else c :: collapseWs false r

/-- Model of `sanitize_text`: remove control characters and the BOM, turn
NBSP into a space, collapse whitespace runs, trim. -/
def sanitize_text (s : Str) : Str :=
  let t := s.filter (fun c => ¬ isControlChar c)
  let t := t.filter (fun c => c ≠ '﻿')
  let t := t.map (fun c => if c = '\xa0' then ' ' else c)
  let t := collapseWs false t
  pyStrip t

/-- Model of `normalize_unicode`: NFKC folding, lowercasing, typographic
quotes to apostrophe, long dashes to hyphen. -/
def normalize_unicode (s : Str) : Str :=
  let t := s.map nfkcChar
  let t := pyLower t
  let t := t.map quoteChar
  t.map dashChar

/-- Character translation against a `str.maketrans`-style table mapping
characters to strings. -/
def pyTranslate (tbl : List (Char × Str)) (s : Str) : Str :=
  s.foldr
    (fun c acc =>
      (match tbl.find? (fun p => p.1 = c) with
       | some p => p.2
       | none => [c]) ++ acc) []

/-- Model of `replace_specials` with its default tables (the call form used
by the pipeline). -/
def replace_specials (s : Str) : Str :=
  pyTranslate (GREEK_LETTERS ++ SUPERSCRIPTS) s

/-- Roman numeral replacements (`ROMAN_NUMERALS` of the source, in its
insertion order). -/
def ROMAN_NUMERALS : List (Str × Str) :=
  [(toL "ii", toL "2"), (toL "iii", toL "3"), (toL "iv", toL "4"),
   (toL "vi", toL "6"), (toL "vii", toL "7"), (toL "viii", toL "8"),
   (toL "ix", toL "9"), (toL "xi", toL "11"), (toL "xii", toL "12"),
   (toL "xiii", toL "13"), (toL "xiv", toL "14"), (toL "xv", toL "15"),
   (toL "xvi", toL "16"), (toL "xvii", toL "17"), (toL "xviii", toL "18"),
   (toL "xix", toL "19"), (toL "xx", toL "20")]

/-- Pattern `\b(<numerals length-descending>)\b` built by
`replace_roman_numerals` (Python's stable sort by descending length). -/
def romanPat : PyPattern :=
  mkPatG
    (cats [RE.bnd,
      RE.grp 1 (alts
        [lit "xviii", lit "viii", lit "xiii", lit "xvii", lit "iii", lit "vii",
         lit "xii", lit "xiv", lit "xvi", lit "xix", lit "ii", lit "iv",
         lit "vi", lit "ix", lit "xi", lit "xv", lit "xx"]),
      RE.bnd]) 1

/-- Lookup in `ROMAN_NUMERALS` (the `ROMAN_NUMERALS[token]` access of the
replacement callback; a missing key cannot occur on a match). -/
def romanLookup (tok : Str) : Str :=
  match ROMAN_NUMERALS.find? (fun p => p.1 = tok) with
  | some p => p.2
  | none => tok

/-- Model of `replace_roman_numerals`. -/
def replace_roman_numerals (s : Str) : Str :=
  pySub romanPat (fun m => romanLookup m.group0) s

/-- Pattern `\(([^(]*)\)|\[([^\]]*)\]|\{([^}]*)\)` (`PAREN_RE` of the source;
note the third alternative closes with a literal `)`). -/
def PAREN_RE : PyPattern :=
  mkPatG
    (alts
      [cats [RE.ch '(', RE.grp 1 (RE.star (RE.cls true [CI.ch '('])), RE.ch ')'],
       cats [RE.ch '[', RE.grp 2 (RE.star (RE.cls true [CI.ch ']'])), RE.ch ']'],
       cats [RE.ch '{', RE.grp 3 (RE.star (RE.cls true [CI.ch '}'])), RE.ch ')']]) 3

/-- Pattern `(?:[\s\-_/:;]|^,|,(?!\d)|(?<=\D),|(?<!\d)\.(?!\d))+`
(`TOKEN_SPLIT_RE` of the source). -/
def TOKEN_SPLIT_RE : PyPattern :=
  mkPat (plus (alts
    [RE.cls false [CI.space, CI.ch '-', CI.ch '_', CI.ch '/', CI.ch ':', CI.ch ';'],
     cats [RE.bos, RE.ch ','],
     cats [RE.ch ',', RE.la true dC],
     cats [RE.lb false [CI.nondigit], RE.ch ','],
     cats [RE.lb true [CI.digit], RE.ch '.', RE.la true dC]]))

/-- Pattern `\s*-\s*` (`HYPHEN_SPACE_RE` of the source). -/
def HYPHEN_SPACE_RE : PyPattern := mkPat (cats [wsS, RE.ch '-', wsS])

/-- Pattern `\b[a-z0-9]+(?:-[a-z0-9]+)+\b` (`HYPHEN_TOKEN_RE` of the source). -/
def HYPHEN_TOKEN_RE : PyPattern :=
  mkPat (cats [RE.bnd, plus an09, plus (cats [RE.ch '-', plus an09]), RE.bnd])

/-- Pattern `^[a-z0-9]{1,3}$` (`SHORT_TOKEN_RE` of the source). -/
def SHORT_TOKEN_RE : PyPattern :=
  mkPat (cats [RE.bos, an09, opt an09, opt an09, RE.eos])

/-- Pattern `^(?:[a-z]\d(?:[a-z]\d+)?|5-?ht\d+[a-z]?)$` (`INDEX_TOKEN_RE`). -/
def INDEX_TOKEN_RE : PyPattern :=
  mkPat (cats [RE.bos,
    alts
      [cats [lcC, dC, opt (cats [lcC, dP])],
       cats [RE.ch '5', opt (RE.ch '-'), lit "ht", dP, opt lcC]],
    RE.eos])

/-- Pattern `\b(?:[a-z]\s+\d+|\d+\s+[a-z])\b` (`LETTER_DIGIT_SPLIT_RE`). -/
def LETTER_DIGIT_SPLIT_RE : PyPattern :=
  mkPat (cats [RE.bnd, alts [cats [lcC, wsP, dP], cats [dP, wsP, lcC]], RE.bnd])

/-- Pattern `\b([A-Z])(\d+)([A-Z])\b` with `IGNORECASE`
(`LETTER_DIGIT_LETTER_RE` of the source). -/
def LETTER_DIGIT_LETTER_RE : PyPattern :=
  mkPatIG (cats [RE.bnd, RE.grp 1 AZc, RE.grp 2 dP, RE.grp 3 AZc, RE.bnd]) 3

/-- Pattern `[ACGT]` of the nucleotide substitution notation. -/
def acgt : RE := RE.cls false [CI.ch 'A', CI.ch 'C', CI.ch 'G', CI.ch 'T']

/-- Mutation patterns (`MUTATION_PATTERNS` of the source, in order, all with
`IGNORECASE`); the boolean flags the entry that is `LETTER_DIGIT_LETTER_RE`
(the `pattern is LETTER_DIGIT_LETTER_RE` identity test of `find_mutations`). -/
def MUTATION_PATTERNS : List (PyPattern × Bool) :=
  [(mkPatI (cats [lit "p.", AZc, n09P, AZc]), false),
   (mkPatI (cats [lit "p.", AZc, n09P, alts [RE.ch '*', lit "Ter"]]), false),
   (mkPatI (cats [lit "p.", AZc, n09P, opt (cats [RE.ch '_', AZc, n09P]),
      lit "del"]), false),
   (mkPatI (cats [lit "p.", AZc, n09P, RE.ch '_', AZc, n09P, lit "ins",
      plus AZc]), false),
   (mkPatI (cats [lit "p.", AZc, n09P, opt (cats [RE.ch '_', AZc, n09P]),
      lit "dup"]), false),
   (mkPatI (cats [lit "p.", AZc, n09P, lit "fs",
      opt (cats [RE.ch '*', n09P])]), false),
   (mkPatI (cats [lit "p.Met1", RE.ch '?']), false),
   (mkPatI (cats [lit "p.", RE.ch '*', n09P, AZc]), false),
   (mkPatI (cats [lit "p.", AZc, n09P, opt (cats [RE.ch '_', AZc, n09P]),
      lit "delins", plus AZc]), false),
   (mkPatI (cats [lit "p.", AZc, lcC, lcC, n09P,
      alts [cats [AZc, lcC, lcC], RE.ch '*', lit "Ter"]]), false),
   (LETTER_DIGIT_LETTER_RE, true),
   (mkPatI (cats [RE.lb true [CI.ch '.', CI.ch 'p'], AZc, lcC, lcC, n09P,
      alts [cats [AZc, lcC, lcC], RE.ch '*', lit "Ter"], RE.bnd]), false),
   (mkPatI (cats [RE.bnd,
      RE.cls false [CI.ch 'p', CI.ch 'c', CI.ch 'g', CI.ch 'n', CI.ch 'm',
        CI.ch 'r'],
      RE.ch '.', n09P, opt (RE.cls false [CI.ch '+', CI.ch '-']), RE.star n09,
      opt (cats [RE.ch '_', opt (RE.cls false [CI.ch '+', CI.ch '-']), n09P]),
      alts [cats [acgt, RE.ch '>', acgt], lit "delins", lit "del", lit "ins",
        lit "dup", lit "inv", cats [lit "fs", opt (RE.ch '*'), RE.star n09]],
      RE.bnd]), false),
   (mkPatI (cats [RE.bnd, AZc, n09P, AZc,
      plus (cats [RE.ch '/', AZc, n09P, AZc]), RE.bnd]), false),
   (mkPatI (cats [RE.bnd, AZc, n09P, alts [lit "del", lit "ins", lit "dup"],
      RE.star AZc, RE.bnd]), false),
   (mkPatI (cats [RE.bnd, AZc, n09P, lit "fs", opt (RE.ch '*'), RE.star dC,
      RE.bnd]), false),
   (mkPatI (cats [alts [RE.ch 'Δ', lit "delta"], opt wsC, AZc, n09P]), false),
   (mkPatI (cats [RE.bnd, RE.grp 1 (alts [lit "mutant", lit "variant",
      lit "mut."]), RE.bnd]), false)]

/-- One group of the `PAREN_RE.sub` replacement closure of
`extract_parenthetical`: skip absent or empty captures, record the stripped
capture as a hint, and keep short or index-like tokens (the
`re.sub(r"[\s_\-]", "", token)` compaction is a character-class deletion
rendered as a filter). -/
def parenStep (acc : List Str × List Str) (g : Option Str) : List Str × List Str :=
  match g with
  | none => acc
  | some g0 =>
    if g0 = [] then acc
    else
      let token := pyStrip g0
      let compact := token.filter (fun c => ¬ (isPySpace c ∨ c = '_' ∨ c = '-'))
      if (pyFullmatch SHORT_TOKEN_RE compact).isSome ∨
         (pyFullmatch INDEX_TOKEN_RE compact).isSome then
        (acc.1 ++ [token], acc.2 ++ [pyStrip token])
      else (acc.1 ++ [token], acc.2)

/-- Model of `extract_parenthetical`: returns the text with bracketed
segments removed, the hints, and the tokens to keep. -/
def extract_parenthetical (s : Str) : Str × List Str × List Str :=
  let ms := pyFinditer PAREN_RE s
  let hk := ms.foldl
    (fun acc m => parenStep (parenStep (parenStep acc (m.group 1)) (m.group 2)) (m.group 3))
    ([], [])
  (pySub PAREN_RE (fun _ => []) s, hk.1, hk.2)

/-- Model of `pretoken_cleanup`: normalize spaces around hyphens. -/
def pretoken_cleanup (s : Str) : Str :=
  pySub HYPHEN_SPACE_RE (fun _ => toL "-") s

/-- Model of Python `str.isalpha` over the modelled repertoire (ASCII and
Greek letters). -/
def pyIsAlpha (s : Str) : Bool :=
  s ≠ [] ∧ s.all (fun c => c.isAlpha ∨ ('Α' ≤ c ∧ c ≤ 'ω'))

/-- Model of Python `str.isdigit` over the modelled repertoire (ASCII). -/
def pyIsDigit (s : Str) : Bool := s ≠ [] ∧ s.all Char.isDigit

/-- Model of `generate_letter_digit_variants`. -/
def generate_letter_digit_variants (tokens : List Str) : List (Str × Str) :=
  (List.range (tokens.length - 1)).foldl
    (fun variants i =>
      let left := tokens.getD i []
      let right := tokens.getD (i + 1) []
      if pyIsAlpha left ∧ pyIsDigit right then
        let base := left ++ ' ' :: right
        variants ++ [(left ++ right, base), (left ++ '-' :: right, base)]
      else variants) []

/-- Model of `detect_hyphen_variants`. -/
def detect_hyphen_variants (s : Str) : List (Str × Str) :=
  (pyFindall HYPHEN_TOKEN_RE s).foldl
    (fun variants token =>
      let base := token.map (fun c => if c = '-' then ' ' else c)
      variants ++ [(token, base), (token.filter (fun c => c ≠ '-'), base)]) []

/-- Model of `build_variant_strings`. -/
def build_variant_strings (base0 : Str) (substitutions : List (Str × Str))
    (extra : List Str) : List Str :=
  let base := pyStrip base0
  let variants : List Str :=
    if base ≠ [] ∧ (pySearch LETTER_DIGIT_SPLIT_RE base).isNone then [base] else []
  let variants := substitutions.foldl
    (fun vs vp =>
      (if base ≠ [] ∧ isSubstr base vp.2 then vs ++ [pyReplace base vp.2 vp.1] else vs)
        ++ [vp.1]) variants
  let variants := variants ++ extra
  variants.foldl
    (fun seen v =>
      let v := pyStrip v
      if v ≠ [] ∧ ¬ seen.contains v then seen ++ [v] else seen) []

/-- Model of `tokenize`. -/
def tokenize (s : Str) : List Str :=
  (pySplit TOKEN_SPLIT_RE s).filter (fun t => t ≠ [])

/-- Model of `remove_weak_words`: returns (kept, dropped). -/
def remove_weak_words (tokens : List Str) : List Str × List Str :=
  tokens.foldl
    (fun acc tok =>
      if STOP_WORDS.contains tok then (acc.1, acc.2 ++ [tok])
      else (acc.1 ++ [tok], acc.2)) ([], [])

/-- Inner accumulation step of `find_mutations` for one regex match. -/
def mutStep (allowed : List Str) (isLDL : Bool) (found : List Str)
    (m : PyMatch) : List Str :=
  if isLDL ∧ pyUpper (m.groupD 1) = pyUpper (m.groupD 3) then found
  else
    let token := m.group0
    let lower := pyLower token
    if allowed.contains lower then found
    else if found.any (fun f => isSubstr (pyLower f) lower) then found
    else
      let found := found.filter (fun f => ¬ isSubstr lower (pyLower f))
      if found.contains token then found else found ++ [token]

/-- Model of `find_mutations` (the optional `hgvs` supplementary detector is
absent, the source's `except`-branch default). -/
def find_mutations (text : Str) (whitelist : List Str) : List Str :=
  let allowed := MUTATION_WHITELIST ++ whitelist.map pyLower
  MUTATION_PATTERNS.foldl
    (fun found pb =>
      (pyFinditer pb.1 text).foldl (mutStep allowed pb.2) found) []

/-- Model of `mutation_token_set` (a set used only through membership,
represented as the list of its insertions). -/
def mutation_token_set (mutations : List Str) : List Str :=
  mutations.foldl
    (fun tokens mtext =>
      let norm := normalize_unicode mtext
      let norm := replace_specials norm
      let norm := replace_roman_numerals norm
      tokens ++ tokenize norm) []

/-- Receptor rewrite rules (`RECEPTOR_RULES` of the source): pattern, its
source text (recorded in `rules_applied`), replacement, candidate. -/
def RECEPTOR_RULES : List (PyPattern × Str × Str × Str) :=
  [(mkPat (cats [lit "beta2", wsP, lit "adrenergic", wsP, lit "receptor"]),
    toL "beta2\\s+adrenergic\\s+receptor", toL "beta2 adrenergic", toL "adrb2"),
   (mkPat (cats [lit "dopamine", wsP, lit "d2", wsP, lit "receptor"]),
    toL "dopamine\\s+d2\\s+receptor", toL "dopamine d2", toL "drd2"),
   (mkPat (cats [lit "serotonin", wsP, lit "5-ht1a", wsP, lit "receptor"]),
    toL "serotonin\\s+5-ht1a\\s+receptor", toL "5-ht1a serotonin", toL "htr1a"),
   (mkPat (cats [lit "histamine", wsP, lit "h3", wsP, lit "receptor"]),
    toL "histamine\\s+h3\\s+receptor", toL "histamine h3", toL "hrh3")]

/-- Model of `apply_receptor_rules`: returns (new text, candidates, applied
pattern sources). -/
def apply_receptor_rules (text : Str) : Str × List Str × List Str :=
  RECEPTOR_RULES.foldl
    (fun acc rule =>
      if (pySearch rule.1 acc.1).isSome then
        (pySub rule.1 (fun _ => rule.2.2.1) acc.1,
         acc.2.1 ++ [rule.2.2.2], acc.2.2 ++ [rule.2.1])
      else acc)
    (text, [], [])

/-- Value of a candidate rule: a fixed symbol list, or templates transcribing
an f-string callback over match groups. -/
inductive RuleVal where
  | fixed (vs : List Str)
  | tmpl (ts : List (List TP))

/-- Evaluate a rule value against a match (`val(m) if callable(val) else val`
of the source). -/
def RuleVal.eval (m : PyMatch) : RuleVal → List Str
  | RuleVal.fixed vs => vs
  | RuleVal.tmpl ts => ts.map (fun t => m.expand t)

def GENE_CANDIDATE_RULES : List (PyPattern × List TP) :=
  [
   -- pattern: histamine\s+h(\d+)  template: hrh\1
   (⟨cats [lit "histamine", wsP, RE.ch 'h', RE.grp 1 dP], false, 1⟩,
    [TP.lit (toL "hrh"), TP.g 1]),
   -- pattern: dopamine\s+d(\d+)  template: drd\1
   (⟨cats [lit "dopamine", wsP, RE.ch 'd', RE.grp 1 dP], false, 1⟩,
    [TP.lit (toL "drd"), TP.g 1]),
   -- pattern: adrenergic\s+beta(\d+)  template: adrb\1
   (⟨cats [lit "adrenergic", wsP, lit "beta", RE.grp 1 dP], false, 1⟩,
    [TP.lit (toL "adrb"), TP.g 1]),
   -- pattern: p2x(\d+)  template: p2rx\1
   (⟨cats [lit "p2x", RE.grp 1 dP], false, 1⟩,
    [TP.lit (toL "p2rx"), TP.g 1]),
   -- pattern: 5[- ]?ht(\d+[a-z]?)  template: htr\1
   (⟨cats [RE.ch '5', opt (RE.cls false [CI.ch '-', CI.ch ' ']), lit "ht", RE.grp 1 (cats [dP, opt lcC])], false, 1⟩,
    [TP.lit (toL "htr"), TP.g 1]),
   -- pattern: gaba\s+a\s+alpha(\d+)  template: gabra\1
   (⟨cats [lit "gaba", wsP, RE.ch 'a', wsP, lit "alpha", RE.grp 1 dP], false, 1⟩,
    [TP.lit (toL "gabra"), TP.g 1]),
   -- pattern: trp\s*([vmcak])\s*(\d+)  template: trp\1\2
   (⟨cats [lit "trp", wsS, RE.grp 1 (RE.cls false [CI.ch 'v', CI.ch 'm', CI.ch 'c', CI.ch 'a', CI.ch 'k']), wsS, RE.grp 2 dP], false, 2⟩,
    [TP.lit (toL "trp"), TP.g 1, TP.g 2]),
   -- pattern: glua(\d)  template: gria\1
   (⟨cats [lit "glua", RE.grp 1 dC], false, 1⟩,
    [TP.lit (toL "gria"), TP.g 1]),
   -- pattern: gluk(\d)  template: grik\1
   (⟨cats [lit "gluk", RE.grp 1 dC], false, 1⟩,
    [TP.lit (toL "grik"), TP.g 1]),
   -- pattern: nr(1|2[a-d]|3[a-b])  template: grin\1
   (⟨cats [lit "nr", RE.grp 1 (alts [RE.ch '1', cats [RE.ch '2', RE.cls false [CI.rng 'a' 'd']], cats [RE.ch '3', RE.cls false [CI.rng 'a' 'b']]])], false, 1⟩,
    [TP.lit (toL "grin"), TP.g 1]),
   -- pattern: mglur(\d)  template: grm\1
   (⟨cats [lit "mglur", RE.grp 1 dC], false, 1⟩,
    [TP.lit (toL "grm"), TP.g 1]),
   -- pattern: ccr\s*(\d+)  template: ccr\1
   (⟨cats [lit "ccr", wsS, RE.grp 1 dP], false, 1⟩,
    [TP.lit (toL "ccr"), TP.g 1]),
   -- pattern: cxcr\s*(\d+)  template: cxcr\1
   (⟨cats [lit "cxcr", wsS, RE.grp 1 dP], false, 1⟩,
    [TP.lit (toL "cxcr"), TP.g 1]),
   -- pattern: chemokine\s+cc\s*(\d+)  template: ccr\1
   (⟨cats [lit "chemokine", wsP, lit "cc", wsS, RE.grp 1 dP], false, 1⟩,
    [TP.lit (toL "ccr"), TP.g 1]),
   -- pattern: chemokine\s+cxc\s*(\d+)  template: cxcr\1
   (⟨cats [lit "chemokine", wsP, lit "cxc", wsS, RE.grp 1 dP], false, 1⟩,
    [TP.lit (toL "cxcr"), TP.g 1])
  ]

def ALIAS_CANDIDATE_RULES : List (PyPattern × List Str) :=
  [
   -- pattern: sdf[- ]?1
   (⟨cats [lit "sdf", opt (RE.cls false [CI.ch '-', CI.ch ' ']), RE.ch '1'], false, 0⟩, [toL "cxcr4"]),
   -- pattern: il[- ]?8
   (⟨cats [lit "il", opt (RE.cls false [CI.ch '-', CI.ch ' ']), RE.ch '8'], false, 0⟩, [toL "cxcr1", toL "cxcr2"]),
   -- pattern: rantes
   (⟨lit "rantes", false, 0⟩, [toL "ccr1", toL "ccr3", toL "ccr5"]),
   -- pattern: fractalkine
   (⟨lit "fractalkine", false, 0⟩, [toL "cx3cr1"])
  ]

/-- Entries 1.. of `RULES_GPCR` (table split for compilation). -/
def RULES_GPCR_c1 : List (PyPattern × RuleVal) :=
  [
   -- pattern: \badenosine\s+receptor\b
   (⟨cats [RE.bnd, lit "adenosine", wsP, lit "receptor", RE.bnd], false, 0⟩,
    RuleVal.fixed [toL "adora1", toL "adora2a", toL "adora2b", toL "adora3"]),
   -- pattern: \badenosine\s+a\s*1\b|\ba1\b(?=.*adenosine)
   (⟨cats [RE.bnd, RE.ch 'a', alts [cats [lit "denosine", wsP, RE.ch 'a', wsS, RE.ch '1', RE.bnd], cats [RE.ch '1', RE.bnd, RE.la false (cats [RE.star RE.dot, lit "adenosine"])]]], false, 0⟩,
    RuleVal.fixed [toL "a1", toL "adora1"]),
   -- pattern: \badenosine\s+a\s*2\s*a\b|\ba2a\b(?=.*adenosine)
   (⟨cats [RE.bnd, RE.ch 'a', alts [cats [lit "denosine", wsP, RE.ch 'a', wsS, RE.ch '2', wsS, RE.ch 'a', RE.bnd], cats [lit "2a", RE.bnd, RE.la false (cats [RE.star RE.dot, lit "adenosine"])]]], false, 0⟩,
    RuleVal.fixed [toL "a2a", toL "adora2a"]),
   -- pattern: \badenosine\s+a\s*2\s*b\b|\ba2b\b(?=.*adenosine)
   (⟨cats [RE.bnd, RE.ch 'a', alts [cats [lit "denosine", wsP, RE.ch 'a', wsS, RE.ch '2', wsS, RE.ch 'b', RE.bnd], cats [lit "2b", RE.bnd, RE.la false (cats [RE.star RE.dot, lit "adenosine"])]]], false, 0⟩,
    RuleVal.fixed [toL "a2b", toL "adora2b"]),
   -- pattern: \badenosine\s+a\s*3\b|\ba3\b(?=.*adenosine)
   (⟨cats [RE.bnd, RE.ch 'a', alts [cats [lit "denosine", wsP, RE.ch 'a', wsS, RE.ch '3', RE.bnd], cats [RE.ch '3', RE.bnd, RE.la false (cats [RE.star RE.dot, lit "adenosine"])]]], false, 0⟩,
    RuleVal.fixed [toL "a3", toL "adora3"]),
   -- pattern: \bnociceptin\s+receptor\b|\borphanin\s*fq\s+receptor\b|\bnop\b|\borl1\b
   (⟨cats [RE.bnd, alts [cats [lit "nociceptin", wsP, lit "receptor", RE.bnd], cats [lit "orphanin", wsS, lit "fq", wsP, lit "receptor", RE.bnd], cats [lit "nop", RE.bnd], cats [lit "orl1", RE.bnd]]], false, 0⟩,
    RuleVal.fixed [toL "nop", toL "orl1", toL "oprl1"]),
   -- pattern: \bneuropeptide\s*y\s+receptor\b|\bnpy\s+receptor\b
   (⟨cats [RE.bnd, RE.ch 'n', alts [cats [lit "europeptide", wsS, RE.ch 'y', wsP, lit "receptor", RE.bnd], cats [lit "py", wsP, lit "receptor", RE.bnd]]], false, 0⟩,
    RuleVal.fixed [toL "npy1r", toL "npy2r", toL "npy4r", toL "npy5r"]),
   -- pattern: \b(y\s*1|npy\s*1)\b
   (⟨cats [RE.bnd, RE.grp 1 (alts [cats [RE.ch 'y', wsS, RE.ch '1'], cats [lit "npy", wsS, RE.ch '1']]), RE.bnd], false, 1⟩,
    RuleVal.fixed [toL "y1", toL "npy1r"]),
   -- pattern: \b(y\s*2|npy\s*2)\b
   (⟨cats [RE.bnd, RE.grp 1 (alts [cats [RE.ch 'y', wsS, RE.ch '2'], cats [lit "npy", wsS, RE.ch '2']]), RE.bnd], false, 1⟩,
    RuleVal.fixed [toL "y2", toL "npy2r"]),
   -- pattern: \b(y\s*4|npy\s*4)\b
   (⟨cats [RE.bnd, RE.grp 1 (alts [cats [RE.ch 'y', wsS, RE.ch '4'], cats [lit "npy", wsS, RE.ch '4']]), RE.bnd], false, 1⟩,
    RuleVal.fixed [toL "y4", toL "npy4r"])
  ]

/-- Entries 11.. of `RULES_GPCR` (table split for compilation). -/
def RULES_GPCR_c2 : List (PyPattern × RuleVal) :=
  [
   -- pattern: \b(y\s*5|npy\s*5)\b
   (⟨cats [RE.bnd, RE.grp 1 (alts [cats [RE.ch 'y', wsS, RE.ch '5'], cats [lit "npy", wsS, RE.ch '5']]), RE.bnd], false, 1⟩,
    RuleVal.fixed [toL "y5", toL "npy5r"]),
   -- pattern: \bmelanocortin\s+receptor\b|\bmcr\b
   (⟨cats [RE.bnd, RE.ch 'm', alts [cats [lit "elanocortin", wsP, lit "receptor", RE.bnd], cats [lit "cr", RE.bnd]]], false, 0⟩,
    RuleVal.fixed [toL "mc1r", toL "mc2r", toL "mc3r", toL "mc4r", toL "mc5r"]),
   -- pattern: \bmc\s*([1-5])\s*r?\b|\bmelanocortin\s*-\s*([1-5])\s*receptor\b
   (⟨cats [RE.bnd, RE.ch 'm', alts [cats [RE.ch 'c', wsS, RE.grp 1 (RE.cls false [CI.rng '1' '5']), wsS, opt (RE.ch 'r'), RE.bnd], cats [lit "elanocortin", wsS, RE.ch '-', wsS, RE.grp 2 (RE.cls false [CI.rng '1' '5']), wsS, lit "receptor", RE.bnd]]], false, 2⟩,
    RuleVal.tmpl [[TP.lit (toL "mc"), TP.gOr 1 2, TP.lit (toL "r")]]),
   -- pattern: \bprostaglandin\s+receptor\b
   (⟨cats [RE.bnd, lit "prostaglandin", wsP, lit "receptor", RE.bnd], false, 0⟩,
    RuleVal.fixed [toL "ptger1", toL "ptger2", toL "ptger3", toL "ptger4", toL "ptgdr", toL "ptgdr2", toL "ptgfr", toL "ptgir", toL "tbxa2r"]),
   -- pattern: \bep\s*([1-4])\b
   (⟨cats [RE.bnd, lit "ep", wsS, RE.grp 1 (RE.cls false [CI.rng '1' '4']), RE.bnd], false, 1⟩,
    RuleVal.tmpl [[TP.lit (toL "ep"), TP.g 1], [TP.lit (toL "ptger"), TP.g 1]]),
   -- pattern: \bdp\s*1\b
   (⟨cats [RE.bnd, lit "dp", wsS, RE.ch '1', RE.bnd], false, 0⟩,
    RuleVal.fixed [toL "dp1", toL "ptgdr"]),
   -- pattern: \bdp\s*2\b|\bcrth2\b|\bgpr44\b
   (⟨cats [RE.bnd, alts [cats [lit "dp", wsS, RE.ch '2', RE.bnd], cats [lit "crth2", RE.bnd], cats [lit "gpr44", RE.bnd]]], false, 0⟩,
    RuleVal.fixed [toL "dp2", toL "crth2", toL "ptgdr2"]),
   -- pattern: \bfp\b|\bpgf\s*2\s*a\b
   (⟨cats [RE.bnd, alts [cats [lit "fp", RE.bnd], cats [lit "pgf", wsS, RE.ch '2', wsS, RE.ch 'a', RE.bnd]]], false, 0⟩,
    RuleVal.fixed [toL "fp", toL "ptgfr"]),
   -- pattern: \bip\b(?!(v|3))|\bprostacyclin\s+receptor\b
   (⟨cats [RE.bnd, alts [cats [lit "ip", RE.bnd, RE.la true (RE.grp 1 (RE.cls false [CI.ch 'v', CI.ch '3']))], cats [lit "prostacyclin", wsP, lit "receptor", RE.bnd]]], false, 1⟩,
    RuleVal.fixed [toL "ip", toL "ptgir"]),
   -- pattern: \btp\b|\bthromboxane\s+receptor\b
   (⟨cats [RE.bnd, RE.ch 't', alts [cats [RE.ch 'p', RE.bnd], cats [lit "hromboxane", wsP, lit "receptor", RE.bnd]]], false, 0⟩,
    RuleVal.fixed [toL "tp", toL "tbxa2r"])
  ]

/-- Full `RULES_GPCR` table of the source, in order. -/
def RULES_GPCR : List (PyPattern × RuleVal) :=
  RULES_GPCR_c1 ++ RULES_GPCR_c2

/-- Entries 1.. of `RULES_GPCR_EXTRA` (table split for compilation). -/
def RULES_GPCR_EXTRA_c1 : List (PyPattern × RuleVal) :=
  [
   -- pattern: \b(calcitonin|cgrp|amylin)\s+receptor\b(?!\s*\d)|\bcalcrl?\b
   (⟨cats [RE.bnd, alts [cats [RE.grp 1 (alts [lit "calcitonin", lit "cgrp", lit "amylin"]), wsP, lit "receptor", RE.bnd, RE.la true (cats [wsS, dC])], cats [lit "calcr", opt (RE.ch 'l'), RE.bnd]]], false, 1⟩,
    RuleVal.fixed [toL "calcr", toL "calcrl", toL "ramp1", toL "ramp2", toL "ramp3"]),
   -- pattern: \bcgrp\b
   (⟨cats [RE.bnd, lit "cgrp", RE.bnd], false, 0⟩,
    RuleVal.fixed [toL "calcrl", toL "ramp1", toL "ramp2", toL "ramp3"]),
   -- pattern: \bamylin\b
   (⟨cats [RE.bnd, lit "amylin", RE.bnd], false, 0⟩,
    RuleVal.fixed [toL "calcr", toL "ramp1", toL "ramp2", toL "ramp3"]),
   -- pattern: \bparathyroid\s+hormone\s+receptor\b(?!\s*\d)|\bpth\s*receptor\b(?!\s*\d)
   (⟨cats [RE.bnd, RE.ch 'p', alts [cats [lit "arathyroid", wsP, lit "hormone", wsP, lit "receptor", RE.bnd, RE.la true (cats [wsS, dC])], cats [lit "th", wsS, lit "receptor", RE.bnd, RE.la true (cats [wsS, dC])]]], false, 0⟩,
    RuleVal.fixed [toL "pth1r", toL "pth2r"]),
   -- pattern: \bpth\s*1\s*r?\b
   (⟨cats [RE.bnd, lit "pth", wsS, RE.ch '1', wsS, opt (RE.ch 'r'), RE.bnd], false, 0⟩,
    RuleVal.fixed [toL "pth1r"]),
   -- pattern: \bpth\s*2\s*r?\b
   (⟨cats [RE.bnd, lit "pth", wsS, RE.ch '2', wsS, opt (RE.ch 'r'), RE.bnd], false, 0⟩,
    RuleVal.fixed [toL "pth2r"]),
   -- pattern: \bneuropeptide\s*s\s+receptor\b(?!\s*\d)|\bnps\s*receptor\b(?!\s*\d)|\bnpsr1\b
   (⟨cats [RE.bnd, RE.ch 'n', alts [cats [lit "europeptide", wsS, RE.ch 's', wsP, lit "receptor", RE.bnd, RE.la true (cats [wsS, dC])], cats [lit "ps", wsS, lit "receptor", RE.bnd, RE.la true (cats [wsS, dC])], cats [lit "psr1", RE.bnd]]], false, 0⟩,
    RuleVal.fixed [toL "npsr1"]),
   -- pattern: \bneuropeptide\s*ff\s+receptor\b(?!\s*\d)|\bnpffr\b
   (⟨cats [RE.bnd, RE.ch 'n', alts [cats [lit "europeptide", wsS, lit "ff", wsP, lit "receptor", RE.bnd, RE.la true (cats [wsS, dC])], cats [lit "pffr", RE.bnd]]], false, 0⟩,
    RuleVal.fixed [toL "npffr1", toL "npffr2"]),
   -- pattern: \bnpffr\s*([12])\b
   (⟨cats [RE.bnd, lit "npffr", wsS, RE.grp 1 (RE.cls false [CI.ch '1', CI.ch '2']), RE.bnd], false, 1⟩,
    RuleVal.tmpl [[TP.lit (toL "npffr"), TP.g 1]]),
   -- pattern: \bneuropeptide\s*(b|w)\s+receptor\b(?!\s*\d)|\bnpbwr\b
   (⟨cats [RE.bnd, RE.ch 'n', alts [cats [lit "europeptide", wsS, RE.grp 1 (RE.cls false [CI.ch 'b', CI.ch 'w']), wsP, lit "receptor", RE.bnd, RE.la true (cats [wsS, dC])], cats [lit "pbwr", RE.bnd]]], false, 1⟩,
    RuleVal.fixed [toL "npbwr1", toL "npbwr2"])
  ]

/-- Entries 11.. of `RULES_GPCR_EXTRA` (table split for compilation). -/
def RULES_GPCR_EXTRA_c2 : List (PyPattern × RuleVal) :=
  [
   -- pattern: \bnpbwr\s*([12])\b
   (⟨cats [RE.bnd, lit "npbwr", wsS, RE.grp 1 (RE.cls false [CI.ch '1', CI.ch '2']), RE.bnd], false, 1⟩,
    RuleVal.tmpl [[TP.lit (toL "npbwr"), TP.g 1]]),
   -- pattern: \bneuromedin\s*u\s+receptor\b(?!\s*\d)|\bnmur\b
   (⟨cats [RE.bnd, RE.ch 'n', alts [cats [lit "euromedin", wsS, RE.ch 'u', wsP, lit "receptor", RE.bnd, RE.la true (cats [wsS, dC])], cats [lit "mur", RE.bnd]]], false, 0⟩,
    RuleVal.fixed [toL "nmur1", toL "nmur2"]),
   -- pattern: \bnmur\s*([12])\b
   (⟨cats [RE.bnd, lit "nmur", wsS, RE.grp 1 (RE.cls false [CI.ch '1', CI.ch '2']), RE.bnd], false, 1⟩,
    RuleVal.tmpl [[TP.lit (toL "nmur"), TP.g 1]]),
   -- pattern: \bkisspeptin\s+receptor\b|\bgpr54\b|\bkiss1r\b
   (⟨cats [RE.bnd, alts [cats [lit "kisspeptin", wsP, lit "receptor", RE.bnd], cats [lit "gpr54", RE.bnd], cats [lit "kiss1r", RE.bnd]]], false, 0⟩,
    RuleVal.fixed [toL "kiss1r", toL "gpr54"]),
   -- pattern: \bghrelin\s+receptor\b|\bghsr\b
   (⟨cats [RE.bnd, lit "gh", alts [cats [lit "relin", wsP, lit "receptor", RE.bnd], cats [lit "sr", RE.bnd]]], false, 0⟩,
    RuleVal.fixed [toL "ghsr"]),
   -- pattern: \bmotilin\s+receptor\b|\bmlnr\b|\bgpr38\b
   (⟨cats [RE.bnd, alts [cats [lit "motilin", wsP, lit "receptor", RE.bnd], cats [lit "mlnr", RE.bnd], cats [lit "gpr38", RE.bnd]]], false, 0⟩,
    RuleVal.fixed [toL "mlnr", toL "gpr38"]),
   -- pattern: \bprolactin-?releasing\s+peptide\s+receptor\b|\bprlhr\b|\bgpr10\b
   (⟨cats [RE.bnd, alts [cats [lit "prolactin", opt (RE.ch '-'), lit "releasing", wsP, lit "peptide", wsP, lit "receptor", RE.bnd], cats [lit "prlhr", RE.bnd], cats [lit "gpr10", RE.bnd]]], false, 0⟩,
    RuleVal.fixed [toL "prlhr", toL "gpr10"]),
   -- pattern: \bmelanin-?concentrating\s+hormone\s+receptor\b(?!\s*\d)|\bmchr\b
   (⟨cats [RE.bnd, RE.ch 'm', alts [cats [lit "elanin", opt (RE.ch '-'), lit "concentrating", wsP, lit "hormone", wsP, lit "receptor", RE.bnd, RE.la true (cats [wsS, dC])], cats [lit "chr", RE.bnd]]], false, 0⟩,
    RuleVal.fixed [toL "mchr1", toL "mchr2"]),
   -- pattern: \bmchr\s*([12])\b
   (⟨cats [RE.bnd, lit "mchr", wsS, RE.grp 1 (RE.cls false [CI.ch '1', CI.ch '2']), RE.bnd], false, 1⟩,
    RuleVal.tmpl [[TP.lit (toL "mchr"), TP.g 1]]),
   -- pattern: \bfractalkine\s+receptor\b(?!\s*\d)|\bcx3cr1\b
   (⟨cats [RE.bnd, alts [cats [lit "fractalkine", wsP, lit "receptor", RE.bnd, RE.la true (cats [wsS, dC])], cats [lit "cx3cr1", RE.bnd]]], false, 0⟩,
    RuleVal.fixed [toL "cx3cr1"])
  ]

/-- Entries 21.. of `RULES_GPCR_EXTRA` (table split for compilation). -/
def RULES_GPCR_EXTRA_c3 : List (PyPattern × RuleVal) :=
  [
   -- pattern: \bxcr\s*1\b|\bxcr1\b|\b(xc)\s*chemokine\s+receptor\s*1\b
   (⟨cats [RE.bnd, alts [cats [lit "xcr", wsS, RE.ch '1', RE.bnd], cats [lit "xcr1", RE.bnd], cats [RE.grp 1 (lit "xc"), wsS, lit "chemokine", wsP, lit "receptor", wsS, RE.ch '1', RE.bnd]]], false, 1⟩,
    RuleVal.fixed [toL "xcr1"]),
   -- pattern: \bplatelet-?activating\s+factor\s+receptor\b(?!\s*\d)|\bptafr\b
   (⟨cats [RE.bnd, RE.ch 'p', alts [cats [lit "latelet", opt (RE.ch '-'), lit "activating", wsP, lit "factor", wsP, lit "receptor", RE.bnd, RE.la true (cats [wsS, dC])], cats [lit "tafr", RE.bnd]]], false, 0⟩,
    RuleVal.fixed [toL "ptafr"]),
   -- pattern: \bformyl\s+peptide\s+receptor\b(?!\s*\d)|\bfpr\b
   (⟨cats [RE.bnd, RE.ch 'f', alts [cats [lit "ormyl", wsP, lit "peptide", wsP, lit "receptor", RE.bnd, RE.la true (cats [wsS, dC])], cats [lit "pr", RE.bnd]]], false, 0⟩,
    RuleVal.fixed [toL "fpr1", toL "fpr2", toL "fpr3"]),
   -- pattern: \bfpr\s*([1-3])\b
   (⟨cats [RE.bnd, lit "fpr", wsS, RE.grp 1 (RE.cls false [CI.rng '1' '3']), RE.bnd], false, 1⟩,
    RuleVal.tmpl [[TP.lit (toL "fpr"), TP.g 1]]),
   -- pattern: \balx\b
   (⟨cats [RE.bnd, lit "alx", RE.bnd], false, 0⟩,
    RuleVal.fixed [toL "fpr2"]),
   -- pattern: \bfree\s+fatty\s+acid\s+receptor\b(?!\s*\d)|\bffar\b
   (⟨cats [RE.bnd, RE.ch 'f', alts [cats [lit "ree", wsP, lit "fatty", wsP, lit "acid", wsP, lit "receptor", RE.bnd, RE.la true (cats [wsS, dC])], cats [lit "far", RE.bnd]]], false, 0⟩,
    RuleVal.fixed [toL "ffar1", toL "ffar2", toL "ffar3", toL "ffar4", toL "gpr84"]),
   -- pattern: \bffar\s*([1-4])\b
   (⟨cats [RE.bnd, lit "ffar", wsS, RE.grp 1 (RE.cls false [CI.rng '1' '4']), RE.bnd], false, 1⟩,
    RuleVal.tmpl [[TP.lit (toL "ffar"), TP.g 1]]),
   -- pattern: \bgpr\s*120\b
   (⟨cats [RE.bnd, lit "gpr", wsS, lit "120", RE.bnd], false, 0⟩,
    RuleVal.fixed [toL "ffar4", toL "gpr120"]),
   -- pattern: \bgpr\s*40\b
   (⟨cats [RE.bnd, lit "gpr", wsS, lit "40", RE.bnd], false, 0⟩,
    RuleVal.fixed [toL "ffar1", toL "gpr40"]),
   -- pattern: \bgpr\s*41\b
   (⟨cats [RE.bnd, lit "gpr", wsS, lit "41", RE.bnd], false, 0⟩,
    RuleVal.fixed [toL "ffar3", toL "gpr41"])
  ]

/-- Entries 31.. of `RULES_GPCR_EXTRA` (table split for compilation). -/
def RULES_GPCR_EXTRA_c4 : List (PyPattern × RuleVal) :=
  [
   -- pattern: \bgpr\s*43\b
   (⟨cats [RE.bnd, lit "gpr", wsS, lit "43", RE.bnd], false, 0⟩,
    RuleVal.fixed [toL "ffar2", toL "gpr43"]),
   -- pattern: \bgpr\s*84\b
   (⟨cats [RE.bnd, lit "gpr", wsS, lit "84", RE.bnd], false, 0⟩,
    RuleVal.fixed [toL "gpr84"]),
   -- pattern: \bhydroxycarboxylic\s+acid\s+receptor\b(?!\s*\d)|\bhcar\b
   (⟨cats [RE.bnd, RE.ch 'h', alts [cats [lit "ydroxycarboxylic", wsP, lit "acid", wsP, lit "receptor", RE.bnd, RE.la true (cats [wsS, dC])], cats [lit "car", RE.bnd]]], false, 0⟩,
    RuleVal.fixed [toL "hcar1", toL "hcar2", toL "hcar3"]),
   -- pattern: \bhcar\s*([1-3])\b
   (⟨cats [RE.bnd, lit "hcar", wsS, RE.grp 1 (RE.cls false [CI.rng '1' '3']), RE.bnd], false, 1⟩,
    RuleVal.tmpl [[TP.lit (toL "hcar"), TP.g 1]]),
   -- pattern: \bgpr\s*81\b
   (⟨cats [RE.bnd, lit "gpr", wsS, lit "81", RE.bnd], false, 0⟩,
    RuleVal.fixed [toL "hcar1", toL "gpr81"]),
   -- pattern: \bgpr\s*109\s*a\b|\bhcar2\b
   (⟨cats [RE.bnd, alts [cats [lit "gpr", wsS, lit "109", wsS, RE.ch 'a', RE.bnd], cats [lit "hcar2", RE.bnd]]], false, 0⟩,
    RuleVal.fixed [toL "hcar2", toL "gpr109a"]),
   -- pattern: \bgpr\s*109\s*b\b|\bhcar3\b
   (⟨cats [RE.bnd, alts [cats [lit "gpr", wsS, lit "109", wsS, RE.ch 'b', RE.bnd], cats [lit "hcar3", RE.bnd]]], false, 0⟩,
    RuleVal.fixed [toL "hcar3", toL "gpr109b"]),
   -- pattern: \btrace\s+amine-?associated\s+receptor\b(?!\s*\d)|\btaar\b
   (⟨cats [RE.bnd, RE.ch 't', alts [cats [lit "race", wsP, lit "amine", opt (RE.ch '-'), lit "associated", wsP, lit "receptor", RE.bnd, RE.la true (cats [wsS, dC])], cats [lit "aar", RE.bnd]]], false, 0⟩,
    RuleVal.fixed [toL "taar1", toL "taar2", toL "taar3", toL "taar4", toL "taar5", toL "taar6", toL "taar7", toL "taar8", toL "taar9"]),
   -- pattern: \btaar\s*([1-9])\b
   (⟨cats [RE.bnd, lit "taar", wsS, RE.grp 1 (RE.cls false [CI.rng '1' '9']), RE.bnd], false, 1⟩,
    RuleVal.tmpl [[TP.lit (toL "taar"), TP.g 1]]),
   -- pattern: \bbile\s+acid\s+receptor\b(?!\s*\d)|\btgr5\b|\bgpbar1\b
   (⟨cats [RE.bnd, alts [cats [lit "bile", wsP, lit "acid", wsP, lit "receptor", RE.bnd, RE.la true (cats [wsS, dC])], cats [lit "tgr5", RE.bnd], cats [lit "gpbar1", RE.bnd]]], false, 0⟩,
    RuleVal.fixed [toL "gpbar1", toL "tgr5"])
  ]

/-- Entries 41.. of `RULES_GPCR_EXTRA` (table split for compilation). -/
def RULES_GPCR_EXTRA_c5 : List (PyPattern × RuleVal) :=
  [
   -- pattern: \burotensin\s+ii\s+receptor\b|\buts2r\b
   (⟨cats [RE.bnd, RE.ch 'u', alts [cats [lit "rotensin", wsP, lit "ii", wsP, lit "receptor", RE.bnd], cats [lit "ts2r", RE.bnd]]], false, 0⟩,
    RuleVal.fixed [toL "uts2r"]),
   -- pattern: \bapelin\s+receptor\b|\baplnr\b|\bagtrl1\b
   (⟨cats [RE.bnd, RE.ch 'a', alts [cats [lit "pelin", wsP, lit "receptor", RE.bnd], cats [lit "plnr", RE.bnd], cats [lit "gtrl1", RE.bnd]]], false, 0⟩,
    RuleVal.fixed [toL "aplnr"])
  ]

/-- Full `RULES_GPCR_EXTRA` table of the source, in order. -/
def RULES_GPCR_EXTRA : List (PyPattern × RuleVal) :=
  RULES_GPCR_EXTRA_c1 ++ RULES_GPCR_EXTRA_c2 ++ RULES_GPCR_EXTRA_c3 ++ RULES_GPCR_EXTRA_c4 ++ RULES_GPCR_EXTRA_c5

/-- Entries 1.. of `RULES_CUSTOM` (table split for compilation). -/
def RULES_CUSTOM_c1 : List (PyPattern × RuleVal × Bool) :=
  [
   -- pattern: \b(h3r|h3\s*[- ]\s*receptor|histamine\s*[- ]\s*3\s*[- ]\s*receptor)\b
   (⟨cats [RE.bnd, RE.grp 1 (cats [RE.ch 'h', alts [lit "3r", cats [RE.ch '3', wsS, RE.cls false [CI.ch '-', CI.ch ' '], wsS, lit "receptor"], cats [lit "istamine", wsS, RE.cls false [CI.ch '-', CI.ch ' '], wsS, RE.ch '3', wsS, RE.cls false [CI.ch '-', CI.ch ' '], wsS, lit "receptor"]]]), RE.bnd], false, 1⟩,
    RuleVal.fixed [toL "h3r", toL "hrh3"], false),
   -- pattern: \b(h4r|h4\s*[- ]\s*receptor|histamine\s*[- ]\s*4\s*[- ]\s*receptor)\b
   (⟨cats [RE.bnd, RE.grp 1 (cats [RE.ch 'h', alts [lit "4r", cats [RE.ch '4', wsS, RE.cls false [CI.ch '-', CI.ch ' '], wsS, lit "receptor"], cats [lit "istamine", wsS, RE.cls false [CI.ch '-', CI.ch ' '], wsS, RE.ch '4', wsS, RE.cls false [CI.ch '-', CI.ch ' '], wsS, lit "receptor"]]]), RE.bnd], false, 1⟩,
    RuleVal.fixed [toL "h4r", toL "hrh4"], false),
   -- pattern: \b(chemoattractant\s*[- ]\s*receptor\s*[- ]\s*homologous\s*[- ]\s*molecule|crth2|gpr44|dp2|prostaglandin\s*[- ]\s*d2\s*[- ]\s*receptor\b.*(type|2)?)\b
   (⟨cats [RE.bnd, RE.grp 1 (alts [cats [lit "chemoattractant", wsS, RE.cls false [CI.ch '-', CI.ch ' '], wsS, lit "receptor", wsS, RE.cls false [CI.ch '-', CI.ch ' '], wsS, lit "homologous", wsS, RE.cls false [CI.ch '-', CI.ch ' '], wsS, lit "molecule"], lit "crth2", lit "gpr44", lit "dp2", cats [lit "prostaglandin", wsS, RE.cls false [CI.ch '-', CI.ch ' '], wsS, lit "d2", wsS, RE.cls false [CI.ch '-', CI.ch ' '], wsS, lit "receptor", RE.bnd, RE.star RE.dot, opt (RE.grp 2 (alts [lit "type", RE.ch '2']))]]), RE.bnd], false, 2⟩,
    RuleVal.fixed [toL "crth2", toL "gpr44", toL "ptgdr2", toL "dp2"], false),
   -- pattern: \b(prostanoid\s*[- ]\s*dp\s*[- ]\s*receptor|dp\s*[- ]\s*receptor|dp\b(?!\d))\b
   (⟨cats [RE.bnd, RE.grp 1 (alts [cats [lit "prostanoid", wsS, RE.cls false [CI.ch '-', CI.ch ' '], wsS, lit "dp", wsS, RE.cls false [CI.ch '-', CI.ch ' '], wsS, lit "receptor"], cats [lit "dp", wsS, RE.cls false [CI.ch '-', CI.ch ' '], wsS, lit "receptor"], cats [lit "dp", RE.bnd, RE.la true dC]]), RE.bnd], false, 1⟩,
    RuleVal.fixed [toL "dp1", toL "ptgdr"], false),
   -- pattern: \bprostaglandin\s*[- ]\s*d2\s*[- ]\s*receptor\b
   (⟨cats [RE.bnd, lit "prostaglandin", wsS, RE.cls false [CI.ch '-', CI.ch ' '], wsS, lit "d2", wsS, RE.cls false [CI.ch '-', CI.ch ' '], wsS, lit "receptor", RE.bnd], false, 0⟩,
    RuleVal.fixed [toL "dp1", toL "ptgdr", toL "dp2", toL "ptgdr2"], false),
   -- pattern: \bnpff2\s*[- ]\s*receptor\b
   (⟨cats [RE.bnd, lit "npff2", wsS, RE.cls false [CI.ch '-', CI.ch ' '], wsS, lit "receptor", RE.bnd], false, 0⟩,
    RuleVal.fixed [toL "npffr2"], false),
   -- pattern: \bnpff1\s*[- ]\s*receptor\b
   (⟨cats [RE.bnd, lit "npff1", wsS, RE.cls false [CI.ch '-', CI.ch ' '], wsS, lit "receptor", RE.bnd], false, 0⟩,
    RuleVal.fixed [toL "npffr1"], false),
   -- pattern: \b(sigma\s*[- ]\s*1\s*[- ]\s*opioid\s*[- ]\s*receptor|sigma1\s*[- ]\s*opioid\s*[- ]\s*receptor|sigma1\s*[- ]\s*receptor|sigma\s*[- ]\s*1\s*[- ]\s*receptor|sigma-?1\s*[- ]\s*receptor|sigma1-?receptor)\b
   (⟨cats [RE.bnd, RE.grp 1 (cats [lit "sigma", alts [cats [wsS, RE.cls false [CI.ch '-', CI.ch ' '], wsS, RE.ch '1', wsS, RE.cls false [CI.ch '-', CI.ch ' '], wsS, lit "opioid", wsS, RE.cls false [CI.ch '-', CI.ch ' '], wsS, lit "receptor"], cats [RE.ch '1', wsS, RE.cls false [CI.ch '-', CI.ch ' '], wsS, lit "opioid", wsS, RE.cls false [CI.ch '-', CI.ch ' '], wsS, lit "receptor"], cats [RE.ch '1', wsS, RE.cls false [CI.ch '-', CI.ch ' '], wsS, lit "receptor"], cats [wsS, RE.cls false [CI.ch '-', CI.ch ' '], wsS, RE.ch '1', wsS, RE.cls false [CI.ch '-', CI.ch ' '], wsS, lit "receptor"], cats [opt (RE.ch '-'), RE.ch '1', wsS, RE.cls false [CI.ch '-', CI.ch ' '], wsS, lit "receptor"], cats [RE.ch '1', opt (RE.ch '-'), lit "receptor"]]]), RE.bnd], false, 1⟩,
    RuleVal.fixed [toL "sigmar1"], false),
   -- pattern: \b(sigma\s*[- ]\s*2\s*[- ]\s*receptor|sigma2\s*[- ]\s*receptor|sigma-?2\s*[- ]\s*receptor|sigma\s*[- ]\s*receptor\s*[- ]\s*type\s*[- ]\s*2)\b
   (⟨cats [RE.bnd, RE.grp 1 (cats [lit "sigma", alts [cats [wsS, RE.cls false [CI.ch '-', CI.ch ' '], wsS, RE.ch '2', wsS, RE.cls false [CI.ch '-', CI.ch ' '], wsS, lit "receptor"], cats [RE.ch '2', wsS, RE.cls false [CI.ch '-', CI.ch ' '], wsS, lit "receptor"], cats [opt (RE.ch '-'), RE.ch '2', wsS, RE.cls false [CI.ch '-', CI.ch ' '], wsS, lit "receptor"], cats [wsS, RE.cls false [CI.ch '-', CI.ch ' '], wsS, lit "receptor", wsS, RE.cls false [CI.ch '-', CI.ch ' '], wsS, lit "type", wsS, RE.cls false [CI.ch '-', CI.ch ' '], wsS, RE.ch '2']]]), RE.bnd], false, 1⟩,
    RuleVal.fixed [toL "tmem97", toL "sigma2r"], false),
   -- pattern: \bsigma\s*[- ]\s*receptor\b
   (⟨cats [RE.bnd, lit "sigma", wsS, RE.cls false [CI.ch '-', CI.ch ' '], wsS, lit "receptor", RE.bnd], false, 0⟩,
    RuleVal.fixed [toL "sigmar1", toL "tmem97"], true)
  ]

/-- Entries 11.. of `RULES_CUSTOM` (table split for compilation). -/
def RULES_CUSTOM_c2 : List (PyPattern × RuleVal × Bool) :=
  [
   -- pattern: \b(imidazoline\s*[- ]\s*i\s*1\s*[- ]\s*receptor|imidazoline\s*[- ]\s*receptor\s*[- ]\s*1|i1\s*[- ]\s*imidazoline\s*[- ]\s*receptor|i1\s*[- ]\s*receptor\s*[- ]\s*imidazoline)\b
   (⟨cats [RE.bnd, RE.grp 1 (cats [RE.ch 'i', alts [cats [lit "midazoline", wsS, RE.cls false [CI.ch '-', CI.ch ' '], wsS, RE.ch 'i', wsS, RE.ch '1', wsS, RE.cls false [CI.ch '-', CI.ch ' '], wsS, lit "receptor"], cats [lit "midazoline", wsS, RE.cls false [CI.ch '-', CI.ch ' '], wsS, lit "receptor", wsS, RE.cls false [CI.ch '-', CI.ch ' '], wsS, RE.ch '1'], cats [RE.ch '1', wsS, RE.cls false [CI.ch '-', CI.ch ' '], wsS, lit "imidazoline", wsS, RE.cls false [CI.ch '-', CI.ch ' '], wsS, lit "receptor"], cats [RE.ch '1', wsS, RE.cls false [CI.ch '-', CI.ch ' '], wsS, lit "receptor", wsS, RE.cls false [CI.ch '-', CI.ch ' '], wsS, lit "imidazoline"]]]), RE.bnd], false, 1⟩,
    RuleVal.fixed [toL "i1r", toL "nisch"], true),
   -- pattern: \burotensin\s*[- ]\s*2\s*[- ]\s*receptor\b
   (⟨cats [RE.bnd, lit "urotensin", wsS, RE.cls false [CI.ch '-', CI.ch ' '], wsS, RE.ch '2', wsS, RE.cls false [CI.ch '-', CI.ch ' '], wsS, lit "receptor", RE.bnd], false, 0⟩,
    RuleVal.fixed [toL "uts2r"], false),
   -- pattern: \b(cyslt2\s*[- ]\s*receptor|cysteinyl\s*[- ]\s*leukotriene\s*[- ]\s*receptor\s*[- ]\s*2)\b
   (⟨cats [RE.bnd, RE.grp 1 (cats [lit "cys", alts [cats [lit "lt2", wsS, RE.cls false [CI.ch '-', CI.ch ' '], wsS, lit "receptor"], cats [lit "teinyl", wsS, RE.cls false [CI.ch '-', CI.ch ' '], wsS, lit "leukotriene", wsS, RE.cls false [CI.ch '-', CI.ch ' '], wsS, lit "receptor", wsS, RE.cls false [CI.ch '-', CI.ch ' '], wsS, RE.ch '2']]]), RE.bnd], false, 1⟩,
    RuleVal.fixed [toL "cysltr2"], false),
   -- pattern: \b(cyslt1\s*[- ]\s*receptor|cysteinyl\s*[- ]\s*leukotriene\s*[- ]\s*receptor\s*[- ]\s*1|leukotriene\s*[- ]\s*d4\s*[- ]\s*receptor|cysteinyl\s*[- ]\s*leukotriene\s*[- ]\s*d4\s*[- ]\s*receptor|ltd4\s*[- ]\s*receptor)\b
   (⟨cats [RE.bnd, RE.grp 1 (alts [cats [lit "cyslt1", wsS, RE.cls false [CI.ch '-', CI.ch ' '], wsS, lit "receptor"], cats [lit "cysteinyl", wsS, RE.cls false [CI.ch '-', CI.ch ' '], wsS, lit "leukotriene", wsS, RE.cls false [CI.ch '-', CI.ch ' '], wsS, lit "receptor", wsS, RE.cls false [CI.ch '-', CI.ch ' '], wsS, RE.ch '1'], cats [lit "leukotriene", wsS, RE.cls false [CI.ch '-', CI.ch ' '], wsS, lit "d4", wsS, RE.cls false [CI.ch '-', CI.ch ' '], wsS, lit "receptor"], cats [lit "cysteinyl", wsS, RE.cls false [CI.ch '-', CI.ch ' '], wsS, lit "leukotriene", wsS, RE.cls false [CI.ch '-', CI.ch ' '], wsS, lit "d4", wsS, RE.cls false [CI.ch '-', CI.ch ' '], wsS, lit "receptor"], cats [lit "ltd4", wsS, RE.cls false [CI.ch '-', CI.ch ' '], wsS, lit "receptor"]]), RE.bnd], false, 1⟩,
    RuleVal.fixed [toL "cysltr1"], false),
   -- pattern: \b(leukotriene\s*[- ]\s*b4\s*[- ]\s*receptor|ltb4\s*[- ]\s*receptor)\b
   (⟨cats [RE.bnd, RE.grp 1 (cats [RE.ch 'l', alts [cats [lit "eukotriene", wsS, RE.cls false [CI.ch '-', CI.ch ' '], wsS, lit "b4", wsS, RE.cls false [CI.ch '-', CI.ch ' '], wsS, lit "receptor"], cats [lit "tb4", wsS, RE.cls false [CI.ch '-', CI.ch ' '], wsS, lit "receptor"]]]), RE.bnd], false, 1⟩,
    RuleVal.fixed [toL "ltb4r", toL "ltb4r2"], false),
   -- pattern: \bp2y1\s*[- ]\s*receptor\b
   (⟨cats [RE.bnd, lit "p2y1", wsS, RE.cls false [CI.ch '-', CI.ch ' '], wsS, lit "receptor", RE.bnd], false, 0⟩,
    RuleVal.fixed [toL "p2ry1"], false),
   -- pattern: \bp2y2\s*[- ]\s*receptor\b
   (⟨cats [RE.bnd, lit "p2y2", wsS, RE.cls false [CI.ch '-', CI.ch ' '], wsS, lit "receptor", RE.bnd], false, 0⟩,
    RuleVal.fixed [toL "p2ry2"], false),
   -- pattern: \bp2y4\s*[- ]\s*receptor\b
   (⟨cats [RE.bnd, lit "p2y4", wsS, RE.cls false [CI.ch '-', CI.ch ' '], wsS, lit "receptor", RE.bnd], false, 0⟩,
    RuleVal.fixed [toL "p2ry4"], false),
   -- pattern: \bp2y6\s*[- ]\s*receptor\b
   (⟨cats [RE.bnd, lit "p2y6", wsS, RE.cls false [CI.ch '-', CI.ch ' '], wsS, lit "receptor", RE.bnd], false, 0⟩,
    RuleVal.fixed [toL "p2ry6"], false),
   -- pattern: \bp2y12\s*[- ]\s*receptor\b
   (⟨cats [RE.bnd, lit "p2y12", wsS, RE.cls false [CI.ch '-', CI.ch ' '], wsS, lit "receptor", RE.bnd], false, 0⟩,
    RuleVal.fixed [toL "p2ry12"], false)
  ]

/-- Entries 21.. of `RULES_CUSTOM` (table split for compilation). -/
def RULES_CUSTOM_c3 : List (PyPattern × RuleVal × Bool) :=
  [
   -- pattern: \bp2y14\s*[- ]\s*receptor\b
   (⟨cats [RE.bnd, lit "p2y14", wsS, RE.cls false [CI.ch '-', CI.ch ' '], wsS, lit "receptor", RE.bnd], false, 0⟩,
    RuleVal.fixed [toL "p2ry14"], false),
   -- pattern: \b(s1p5\s*[- ]\s*receptor|sphingosine\s*[- ]\s*1\s*[- ]\s*phosphate\s*[- ]\s*receptor\s*[- ]\s*5)\b
   (⟨cats [RE.bnd, RE.grp 1 (cats [RE.ch 's', alts [cats [lit "1p5", wsS, RE.cls false [CI.ch '-', CI.ch ' '], wsS, lit "receptor"], cats [lit "phingosine", wsS, RE.cls false [CI.ch '-', CI.ch ' '], wsS, RE.ch '1', wsS, RE.cls false [CI.ch '-', CI.ch ' '], wsS, lit "phosphate", wsS, RE.cls false [CI.ch '-', CI.ch ' '], wsS, lit "receptor", wsS, RE.cls false [CI.ch '-', CI.ch ' '], wsS, RE.ch '5']]]), RE.bnd], false, 1⟩,
    RuleVal.fixed [toL "s1pr5"], false),
   -- pattern: \b(s1p3\s*[- ]\s*receptor|sphingosine\s*[- ]\s*1\s*[- ]\s*phosphate\s*[- ]\s*receptor\s*[- ]\s*3)\b
   (⟨cats [RE.bnd, RE.grp 1 (cats [RE.ch 's', alts [cats [lit "1p3", wsS, RE.cls false [CI.ch '-', CI.ch ' '], wsS, lit "receptor"], cats [lit "phingosine", wsS, RE.cls false [CI.ch '-', CI.ch ' '], wsS, RE.ch '1', wsS, RE.cls false [CI.ch '-', CI.ch ' '], wsS, lit "phosphate", wsS, RE.cls false [CI.ch '-', CI.ch ' '], wsS, lit "receptor", wsS, RE.cls false [CI.ch '-', CI.ch ' '], wsS, RE.ch '3']]]), RE.bnd], false, 1⟩,
    RuleVal.fixed [toL "s1pr3"], false),
   -- pattern: \b(s1p1r\s*[- ]\s*receptor|s1p1\s*[- ]\s*receptor|sphingosine\s*[- ]\s*1\s*[- ]\s*phosphate\s*[- ]\s*receptor\s*[- ]\s*1)\b
   (⟨cats [RE.bnd, RE.grp 1 (cats [RE.ch 's', alts [cats [lit "1p1r", wsS, RE.cls false [CI.ch '-', CI.ch ' '], wsS, lit "receptor"], cats [lit "1p1", wsS, RE.cls false [CI.ch '-', CI.ch ' '], wsS, lit "receptor"], cats [lit "phingosine", wsS, RE.cls false [CI.ch '-', CI.ch ' '], wsS, RE.ch '1', wsS, RE.cls false [CI.ch '-', CI.ch ' '], wsS, lit "phosphate", wsS, RE.cls false [CI.ch '-', CI.ch ' '], wsS, lit "receptor", wsS, RE.cls false [CI.ch '-', CI.ch ' '], wsS, RE.ch '1']]]), RE.bnd], false, 1⟩,
    RuleVal.fixed [toL "s1pr1"], false),
   -- pattern: \bs1p\s*[- ]\s*receptor\b
   (⟨cats [RE.bnd, lit "s1p", wsS, RE.cls false [CI.ch '-', CI.ch ' '], wsS, lit "receptor", RE.bnd], false, 0⟩,
    RuleVal.fixed [toL "s1pr1"], true),
   -- pattern: \b(s1p4\s*[- ]\s*receptor|sphingosine\s*[- ]\s*1\s*[- ]\s*phosphate\s*[- ]\s*receptor\s*[- ]\s*4)\b
   (⟨cats [RE.bnd, RE.grp 1 (cats [RE.ch 's', alts [cats [lit "1p4", wsS, RE.cls false [CI.ch '-', CI.ch ' '], wsS, lit "receptor"], cats [lit "phingosine", wsS, RE.cls false [CI.ch '-', CI.ch ' '], wsS, RE.ch '1', wsS, RE.cls false [CI.ch '-', CI.ch ' '], wsS, lit "phosphate", wsS, RE.cls false [CI.ch '-', CI.ch ' '], wsS, lit "receptor", wsS, RE.cls false [CI.ch '-', CI.ch ' '], wsS, RE.ch '4']]]), RE.bnd], false, 1⟩,
    RuleVal.fixed [toL "s1pr4"], false),
   -- pattern: \b(s1p2\s*[- ]\s*receptor|sphingosine\s*[- ]\s*1\s*[- ]\s*phosphate\s*[- ]\s*receptor\s*[- ]\s*2)\b
   (⟨cats [RE.bnd, RE.grp 1 (cats [RE.ch 's', alts [cats [lit "1p2", wsS, RE.cls false [CI.ch '-', CI.ch ' '], wsS, lit "receptor"], cats [lit "phingosine", wsS, RE.cls false [CI.ch '-', CI.ch ' '], wsS, RE.ch '1', wsS, RE.cls false [CI.ch '-', CI.ch ' '], wsS, lit "phosphate", wsS, RE.cls false [CI.ch '-', CI.ch ' '], wsS, lit "receptor", wsS, RE.cls false [CI.ch '-', CI.ch ' '], wsS, RE.ch '2']]]), RE.bnd], false, 1⟩,
    RuleVal.fixed [toL "s1pr2"], false),
   -- pattern: \b(lpa1\s*[- ]\s*receptor)\b
   (⟨cats [RE.bnd, RE.grp 1 (cats [lit "lpa1", wsS, RE.cls false [CI.ch '-', CI.ch ' '], wsS, lit "receptor"]), RE.bnd], false, 1⟩,
    RuleVal.fixed [toL "lpar1"], false),
   -- pattern: \b(lpa5\s*[- ]\s*receptor)\b
   (⟨cats [RE.bnd, RE.grp 1 (cats [lit "lpa5", wsS, RE.cls false [CI.ch '-', CI.ch ' '], wsS, lit "receptor"]), RE.bnd], false, 1⟩,
    RuleVal.fixed [toL "lpar5"], false),
   -- pattern: \bgpr35\s*[- ]\s*receptor\b
   (⟨cats [RE.bnd, lit "gpr35", wsS, RE.cls false [CI.ch '-', CI.ch ' '], wsS, lit "receptor", RE.bnd], false, 0⟩,
    RuleVal.fixed [toL "gpr35"], false)
  ]

/-- Entries 31.. of `RULES_CUSTOM` (table split for compilation). -/
def RULES_CUSTOM_c4 : List (PyPattern × RuleVal × Bool) :=
  [
   -- pattern: \bgpr103\s*[- ]\s*receptor\b
   (⟨cats [RE.bnd, lit "gpr103", wsS, RE.cls false [CI.ch '-', CI.ch ' '], wsS, lit "receptor", RE.bnd], false, 0⟩,
    RuleVal.fixed [toL "gpr103", toL "qrfpr"], false),
   -- pattern: \bgpr10a\s*[- ]\s*receptor\b
   (⟨cats [RE.bnd, lit "gpr10a", wsS, RE.cls false [CI.ch '-', CI.ch ' '], wsS, lit "receptor", RE.bnd], false, 0⟩,
    RuleVal.fixed [toL "prlhr", toL "gpr10"], false),
   -- pattern: \bgpr154\s*[- ]\s*receptor\b
   (⟨cats [RE.bnd, lit "gpr154", wsS, RE.cls false [CI.ch '-', CI.ch ' '], wsS, lit "receptor", RE.bnd], false, 0⟩,
    RuleVal.fixed [toL "npsr1", toL "gpr154"], false),
   -- pattern: \bebi2\s*[- ]\s*receptor\b
   (⟨cats [RE.bnd, lit "ebi2", wsS, RE.cls false [CI.ch '-', CI.ch ' '], wsS, lit "receptor", RE.bnd], false, 0⟩,
    RuleVal.fixed [toL "gpr183", toL "ebi2"], false),
   -- pattern: \b(ffar1\s*[- ]\s*receptor|ffa1\s*[- ]\s*receptor)\b
   (⟨cats [RE.bnd, RE.grp 1 (cats [lit "ffa", alts [cats [lit "r1", wsS, RE.cls false [CI.ch '-', CI.ch ' '], wsS, lit "receptor"], cats [RE.ch '1', wsS, RE.cls false [CI.ch '-', CI.ch ' '], wsS, lit "receptor"]]]), RE.bnd], false, 1⟩,
    RuleVal.fixed [toL "ffar1", toL "gpr40"], false),
   -- pattern: \bffa2\s*[- ]\s*receptor\b
   (⟨cats [RE.bnd, lit "ffa2", wsS, RE.cls false [CI.ch '-', CI.ch ' '], wsS, lit "receptor", RE.bnd], false, 0⟩,
    RuleVal.fixed [toL "ffar2", toL "gpr43"], false),
   -- pattern: \b(oxe\s*[- ]\s*receptor|5\s*[- ]\s*oxo\s*[- ]\s*ete\s*[- ]\s*receptor)\b
   (⟨cats [RE.bnd, RE.grp 1 (alts [cats [lit "oxe", wsS, RE.cls false [CI.ch '-', CI.ch ' '], wsS, lit "receptor"], cats [RE.ch '5', wsS, RE.cls false [CI.ch '-', CI.ch ' '], wsS, lit "oxo", wsS, RE.cls false [CI.ch '-', CI.ch ' '], wsS, lit "ete", wsS, RE.cls false [CI.ch '-', CI.ch ' '], wsS, lit "receptor"]]), RE.bnd], false, 1⟩,
    RuleVal.fixed [toL "oxer1"], false),
   -- pattern: \b(grp109a\s*[- ]\s*receptor|hca2\s*[- ]\s*receptor|niacin\s*[- ]\s*receptor)\b
   (⟨cats [RE.bnd, RE.grp 1 (alts [cats [lit "grp109a", wsS, RE.cls false [CI.ch '-', CI.ch ' '], wsS, lit "receptor"], cats [lit "hca2", wsS, RE.cls false [CI.ch '-', CI.ch ' '], wsS, lit "receptor"], cats [lit "niacin", wsS, RE.cls false [CI.ch '-', CI.ch ' '], wsS, lit "receptor"]]), RE.bnd], false, 1⟩,
    RuleVal.fixed [toL "hcar2", toL "gpr109a"], false),
   -- pattern: \b(mu|mop|mu-?type|mu1|mu2)\s*[- ]\s*(opioid|receptor)\b|\b(opioid\s*[- ]\s*receptor\s*[- ]\s*mu(\s*1|\s*2)?)\b|\bmu\s*[- ]\s*opioid\s*[- ]\s*receptor\b
   (⟨cats [RE.bnd, alts [cats [RE.grp 1 (cats [RE.ch 'm', alts [RE.ch 'u', lit "op", cats [RE.ch 'u', opt (RE.ch '-'), lit "type"], lit "u1", lit "u2"]]), wsS, RE.cls false [CI.ch '-', CI.ch ' '], wsS, RE.grp 2 (alts [lit "opioid", lit "receptor"]), RE.bnd], cats [RE.grp 3 (cats [lit "opioid", wsS, RE.cls false [CI.ch '-', CI.ch ' '], wsS, lit "receptor", wsS, RE.cls false [CI.ch '-', CI.ch ' '], wsS, lit "mu", opt (RE.grp 4 (alts [cats [wsS, RE.ch '1'], cats [wsS, RE.ch '2']]))]), RE.bnd], cats [lit "mu", wsS, RE.cls false [CI.ch '-', CI.ch ' '], wsS, lit "opioid", wsS, RE.cls false [CI.ch '-', CI.ch ' '], wsS, lit "receptor", RE.bnd]]], false, 4⟩,
    RuleVal.fixed [toL "mor", toL "oprm1"], false),
   -- pattern: \b(kappa|kop|k-?opioid|kappa1)\s*[- ]\s*(opioid|receptor)\b|\bopioid\s*[- ]\s*receptor\s*[- ]\s*kappa\b
   (⟨cats [RE.bnd, alts [cats [RE.grp 1 (cats [RE.ch 'k', alts [lit "appa", lit "op", cats [opt (RE.ch '-'), lit "opioid"], lit "appa1"]]), wsS, RE.cls false [CI.ch '-', CI.ch ' '], wsS, RE.grp 2 (alts [lit "opioid", lit "receptor"]), RE.bnd], cats [lit "opioid", wsS, RE.cls false [CI.ch '-', CI.ch ' '], wsS, lit "receptor", wsS, RE.cls false [CI.ch '-', CI.ch ' '], wsS, lit "kappa", RE.bnd]]], false, 2⟩,
    RuleVal.fixed [toL "kor", toL "oprk1"], false)
  ]

/-- Entries 41.. of `RULES_CUSTOM` (table split for compilation). -/
def RULES_CUSTOM_c5 : List (PyPattern × RuleVal × Bool) :=
  [
   -- pattern: \b(delta)\s*[- ]\s*(opioid|receptor)\b|\bopioid\s*[- ]\s*receptor\s*[- ]\s*delta\b
   (⟨cats [RE.bnd, alts [cats [RE.grp 1 (lit "delta"), wsS, RE.cls false [CI.ch '-', CI.ch ' '], wsS, RE.grp 2 (alts [lit "opioid", lit "receptor"]), RE.bnd], cats [lit "opioid", wsS, RE.cls false [CI.ch '-', CI.ch ' '], wsS, lit "receptor", wsS, RE.cls false [CI.ch '-', CI.ch ' '], wsS, lit "delta", RE.bnd]]], false, 2⟩,
    RuleVal.fixed [toL "dor", toL "oprd1"], false),
   -- pattern: \b(nociceptin\s*[- ]\s*opioid\s*[- ]\s*receptor|nociceptin\s*[- ]\s*receptor|orphanin\s*[- ]\s*fq\s*[- ]\s*receptor|horl1\s*[- ]\s*receptor|orl1\s*[- ]\s*receptor)\b
   (⟨cats [RE.bnd, RE.grp 1 (alts [cats [lit "nociceptin", wsS, RE.cls false [CI.ch '-', CI.ch ' '], wsS, lit "opioid", wsS, RE.cls false [CI.ch '-', CI.ch ' '], wsS, lit "receptor"], cats [lit "nociceptin", wsS, RE.cls false [CI.ch '-', CI.ch ' '], wsS, lit "receptor"], cats [lit "orphanin", wsS, RE.cls false [CI.ch '-', CI.ch ' '], wsS, lit "fq", wsS, RE.cls false [CI.ch '-', CI.ch ' '], wsS, lit "receptor"], cats [lit "horl1", wsS, RE.cls false [CI.ch '-', CI.ch ' '], wsS, lit "receptor"], cats [lit "orl1", wsS, RE.cls false [CI.ch '-', CI.ch ' '], wsS, lit "receptor"]]), RE.bnd], false, 1⟩,
    RuleVal.fixed [toL "nop", toL "orl1", toL "oprl1"], false),
   -- pattern: \bopioid\s*[- ]\s*receptor(s)?\b
   (⟨cats [RE.bnd, lit "opioid", wsS, RE.cls false [CI.ch '-', CI.ch ' '], wsS, lit "receptor", opt (RE.grp 1 (RE.ch 's')), RE.bnd], false, 1⟩,
    RuleVal.fixed [toL "oprm1", toL "oprk1", toL "oprd1", toL "oprl1"], true),
   -- pattern: \b(machr1\s*[- ]\s*receptor|mch1\)\s*[- ]\s*receptor|mch1r\s*[- ]\s*receptor|mch1\s*[- ]\s*receptor|melanin\s*[- ]\s*concentrating\s*[- ]\s*hormone(\b|\s*[- ]\s*)1\s*[- ]\s*receptor|melanin\s*[- ]\s*-\s*[- ]\s*concentrating\s*[- ]\s*hormone(\b|\s*[- ]\s*)1\s*[- ]\s*receptor)\b
   (⟨cats [RE.bnd, RE.grp 1 (cats [RE.ch 'm', alts [cats [lit "achr1", wsS, RE.cls false [CI.ch '-', CI.ch ' '], wsS, lit "receptor"], cats [lit "ch1)", wsS, RE.cls false [CI.ch '-', CI.ch ' '], wsS, lit "receptor"], cats [lit "ch1r", wsS, RE.cls false [CI.ch '-', CI.ch ' '], wsS, lit "receptor"], cats [lit "ch1", wsS, RE.cls false [CI.ch '-', CI.ch ' '], wsS, lit "receptor"], cats [lit "elanin", wsS, RE.cls false [CI.ch '-', CI.ch ' '], wsS, lit "concentrating", wsS, RE.cls false [CI.ch '-', CI.ch ' '], wsS, lit "hormone", RE.grp 2 (alts [RE.bnd, cats [wsS, RE.cls false [CI.ch '-', CI.ch ' '], wsS]]), RE.ch '1', wsS, RE.cls false [CI.ch '-', CI.ch ' '], wsS, lit "receptor"], cats [lit "elanin", wsS, RE.cls false [CI.ch '-', CI.ch ' '], wsS, RE.ch '-', wsS, RE.cls false [CI.ch '-', CI.ch ' '], wsS, lit "concentrating", wsS, RE.cls false [CI.ch '-', CI.ch ' '], wsS, lit "hormone", RE.grp 3 (alts [RE.bnd, cats [wsS, RE.cls false [CI.ch '-', CI.ch ' '], wsS]]), RE.ch '1', wsS, RE.cls false [CI.ch '-', CI.ch ' '], wsS, lit "receptor"]]]), RE.bnd], false, 3⟩,
    RuleVal.fixed [toL "mchr1"], false),
   -- pattern: \b(ghsr1a\s*[- ]\s*receptor|growth\s*[- ]\s*hormone\s*[- ]\s*secretagogue\s*[- ]\s*receptor|ghs1a\s*[- ]\s*receptor|ghs\s*[- ]\s*receptor|grln\s*[- ]\s*receptor)\b
   (⟨cats [RE.bnd, RE.grp 1 (cats [RE.ch 'g', alts [cats [lit "hsr1a", wsS, RE.cls false [CI.ch '-', CI.ch ' '], wsS, lit "receptor"], cats [lit "rowth", wsS, RE.cls false [CI.ch '-', CI.ch ' '], wsS, lit "hormone", wsS, RE.cls false [CI.ch '-', CI.ch ' '], wsS, lit "secretagogue", wsS, RE.cls false [CI.ch '-', CI.ch ' '], wsS, lit "receptor"], cats [lit "hs1a", wsS, RE.cls false [CI.ch '-', CI.ch ' '], wsS, lit "receptor"], cats [lit "hs", wsS, RE.cls false [CI.ch '-', CI.ch ' '], wsS, lit "receptor"], cats [lit "rln", wsS, RE.cls false [CI.ch '-', CI.ch ' '], wsS, lit "receptor"]]]), RE.bnd], false, 1⟩,
    RuleVal.fixed [toL "ghsr", toL "ghsr1a"], false),
   -- pattern: \b(erbeta\s*[- ]\s*receptor|estrogen\s*[- ]\s*receptor(\b|\s*[- ]\s*)-?\s*[- ]\s*beta|estrogen\s*[- ]\s*receptor\s*[- ]\s*2)\b
   (⟨cats [RE.bnd, RE.grp 1 (cats [RE.ch 'e', alts [cats [lit "rbeta", wsS, RE.cls false [CI.ch '-', CI.ch ' '], wsS, lit "receptor"], cats [lit "strogen", wsS, RE.cls false [CI.ch '-', CI.ch ' '], wsS, lit "receptor", RE.grp 2 (alts [RE.bnd, cats [wsS, RE.cls false [CI.ch '-', CI.ch ' '], wsS]]), opt (RE.ch '-'), wsS, RE.cls false [CI.ch '-', CI.ch ' '], wsS, lit "beta"], cats [lit "strogen", wsS, RE.cls false [CI.ch '-', CI.ch ' '], wsS, lit "receptor", wsS, RE.cls false [CI.ch '-', CI.ch ' '], wsS, RE.ch '2']]]), RE.bnd], false, 2⟩,
    RuleVal.fixed [toL "er beta", toL "esr2"], false),
   -- pattern: \b(estrogen\s*[- ]\s*receptor(\b|\s*[- ]\s*)-?\s*[- ]\s*alpha|eralpha\s*[- ]\s*receptor)\b
   (⟨cats [RE.bnd, RE.grp 1 (cats [RE.ch 'e', alts [cats [lit "strogen", wsS, RE.cls false [CI.ch '-', CI.ch ' '], wsS, lit "receptor", RE.grp 2 (alts [RE.bnd, cats [wsS, RE.cls false [CI.ch '-', CI.ch ' '], wsS]]), opt (RE.ch '-'), wsS, RE.cls false [CI.ch '-', CI.ch ' '], wsS, lit "alpha"], cats [lit "ralpha", wsS, RE.cls false [CI.ch '-', CI.ch ' '], wsS, lit "receptor"]]]), RE.bnd], false, 2⟩,
    RuleVal.fixed [toL "er alpha", toL "esr1"], false),
   -- pattern: \bmuscarinic\s*[- ]\s*(acetylcholine\s*[- ]\s*)?receptor\s*[- ]\s*m3\b|\bmuscarinic\s*[- ]\s*m3\s*[- ]\s*receptor\b|\bm3\s*[- ]\s*muscarinic\s*[- ]\s*receptor\b
   (⟨cats [RE.bnd, RE.ch 'm', alts [cats [lit "uscarinic", wsS, RE.cls false [CI.ch '-', CI.ch ' '], wsS, opt (RE.grp 1 (cats [lit "acetylcholine", wsS, RE.cls false [CI.ch '-', CI.ch ' '], wsS])), lit "receptor", wsS, RE.cls false [CI.ch '-', CI.ch ' '], wsS, lit "m3", RE.bnd], cats [lit "uscarinic", wsS, RE.cls false [CI.ch '-', CI.ch ' '], wsS, lit "m3", wsS, RE.cls false [CI.ch '-', CI.ch ' '], wsS, lit "receptor", RE.bnd], cats [RE.ch '3', wsS, RE.cls false [CI.ch '-', CI.ch ' '], wsS, lit "muscarinic", wsS, RE.cls false [CI.ch '-', CI.ch ' '], wsS, lit "receptor", RE.bnd]]], false, 1⟩,
    RuleVal.fixed [toL "m3", toL "chrm3"], false),
   -- pattern: \bmuscarinic\s*[- ]\s*(acetylcholine\s*[- ]\s*)?receptor\s*[- ]\s*m2\b|\bmuscarinic\s*[- ]\s*m2\s*[- ]\s*receptor\b
   (⟨cats [RE.bnd, lit "muscarinic", alts [cats [wsS, RE.cls false [CI.ch '-', CI.ch ' '], wsS, opt (RE.grp 1 (cats [lit "acetylcholine", wsS, RE.cls false [CI.ch '-', CI.ch ' '], wsS])), lit "receptor", wsS, RE.cls false [CI.ch '-', CI.ch ' '], wsS, lit "m2", RE.bnd], cats [wsS, RE.cls false [CI.ch '-', CI.ch ' '], wsS, lit "m2", wsS, RE.cls false [CI.ch '-', CI.ch ' '], wsS, lit "receptor", RE.bnd]]], false, 1⟩,
    RuleVal.fixed [toL "m2", toL "chrm2"], false),
   -- pattern: \bmuscarinic\s*[- ]\s*(acetylcholine\s*[- ]\s*)?receptor\s*[- ]\s*m1\b|\bmuscarinic\s*[- ]\s*m1\s*[- ]\s*receptor\b
   (⟨cats [RE.bnd, lit "muscarinic", alts [cats [wsS, RE.cls false [CI.ch '-', CI.ch ' '], wsS, opt (RE.grp 1 (cats [lit "acetylcholine", wsS, RE.cls false [CI.ch '-', CI.ch ' '], wsS])), lit "receptor", wsS, RE.cls false [CI.ch '-', CI.ch ' '], wsS, lit "m1", RE.bnd], cats [wsS, RE.cls false [CI.ch '-', CI.ch ' '], wsS, lit "m1", wsS, RE.cls false [CI.ch '-', CI.ch ' '], wsS, lit "receptor", RE.bnd]]], false, 1⟩,
    RuleVal.fixed [toL "m1", toL "chrm1"], false)
  ]

/-- Entries 51.. of `RULES_CUSTOM` (table split for compilation). -/
def RULES_CUSTOM_c6 : List (PyPattern × RuleVal × Bool) :=
  [
   -- pattern: \bmuscarinic\s*[- ]\s*(acetylcholine\s*[- ]\s*)?receptor\s*[- ]\s*m4\b|\bmuscarinic\s*[- ]\s*m4\s*[- ]\s*receptor\b
   (⟨cats [RE.bnd, lit "muscarinic", alts [cats [wsS, RE.cls false [CI.ch '-', CI.ch ' '], wsS, opt (RE.grp 1 (cats [lit "acetylcholine", wsS, RE.cls false [CI.ch '-', CI.ch ' '], wsS])), lit "receptor", wsS, RE.cls false [CI.ch '-', CI.ch ' '], wsS, lit "m4", RE.bnd], cats [wsS, RE.cls false [CI.ch '-', CI.ch ' '], wsS, lit "m4", wsS, RE.cls false [CI.ch '-', CI.ch ' '], wsS, lit "receptor", RE.bnd]]], false, 1⟩,
    RuleVal.fixed [toL "m4", toL "chrm4"], false),
   -- pattern: \bmuscarinic\s*[- ]\s*(acetylcholine\s*[- ]\s*)?receptor\s*[- ]\s*m5\b|\bmuscarinic\s*[- ]\s*m5\s*[- ]\s*receptor\b
   (⟨cats [RE.bnd, lit "muscarinic", alts [cats [wsS, RE.cls false [CI.ch '-', CI.ch ' '], wsS, opt (RE.grp 1 (cats [lit "acetylcholine", wsS, RE.cls false [CI.ch '-', CI.ch ' '], wsS])), lit "receptor", wsS, RE.cls false [CI.ch '-', CI.ch ' '], wsS, lit "m5", RE.bnd], cats [wsS, RE.cls false [CI.ch '-', CI.ch ' '], wsS, lit "m5", wsS, RE.cls false [CI.ch '-', CI.ch ' '], wsS, lit "receptor", RE.bnd]]], false, 1⟩,
    RuleVal.fixed [toL "m5", toL "chrm5"], false),
   -- pattern: \b(a2b\s*[- ]\s*receptor|adenosine\s*[- ]\s*2b\s*[- ]\s*receptor)\b
   (⟨cats [RE.bnd, RE.grp 1 (cats [RE.ch 'a', alts [cats [lit "2b", wsS, RE.cls false [CI.ch '-', CI.ch ' '], wsS, lit "receptor"], cats [lit "denosine", wsS, RE.cls false [CI.ch '-', CI.ch ' '], wsS, lit "2b", wsS, RE.cls false [CI.ch '-', CI.ch ' '], wsS, lit "receptor"]]]), RE.bnd], false, 1⟩,
    RuleVal.fixed [toL "a2b", toL "adora2b"], false),
   -- pattern: \b(a2a\s*[- ]\s*receptor|adenosine\s*[- ]\s*2a\s*[- ]\s*receptor)\b
   (⟨cats [RE.bnd, RE.grp 1 (cats [RE.ch 'a', alts [cats [lit "2a", wsS, RE.cls false [CI.ch '-', CI.ch ' '], wsS, lit "receptor"], cats [lit "denosine", wsS, RE.cls false [CI.ch '-', CI.ch ' '], wsS, lit "2a", wsS, RE.cls false [CI.ch '-', CI.ch ' '], wsS, lit "receptor"]]]), RE.bnd], false, 1⟩,
    RuleVal.fixed [toL "a2a", toL "adora2a"], false),
   -- pattern: \b(adenosine\s*[- ]\s*a3a\s*[- ]\s*receptor|a3a\s*[- ]\s*receptor|a3\s*[- ]\s*receptor)\b
   (⟨cats [RE.bnd, RE.grp 1 (cats [RE.ch 'a', alts [cats [lit "denosine", wsS, RE.cls false [CI.ch '-', CI.ch ' '], wsS, lit "a3a", wsS, RE.cls false [CI.ch '-', CI.ch ' '], wsS, lit "receptor"], cats [lit "3a", wsS, RE.cls false [CI.ch '-', CI.ch ' '], wsS, lit "receptor"], cats [RE.ch '3', wsS, RE.cls false [CI.ch '-', CI.ch ' '], wsS, lit "receptor"]]]), RE.bnd], false, 1⟩,
    RuleVal.fixed [toL "a3", toL "adora3"], false),
   -- pattern: \b(adenosine\s*[- ]\s*a\s*[- ]\s*receptor|adenosine\s*[- ]\s*receptor)\b
   (⟨cats [RE.bnd, RE.grp 1 (cats [lit "adenosine", alts [cats [wsS, RE.cls false [CI.ch '-', CI.ch ' '], wsS, RE.ch 'a', wsS, RE.cls false [CI.ch '-', CI.ch ' '], wsS, lit "receptor"], cats [wsS, RE.cls false [CI.ch '-', CI.ch ' '], wsS, lit "receptor"]]]), RE.bnd], false, 1⟩,
    RuleVal.fixed [toL "adora1", toL "adora2a", toL "adora2b", toL "adora3"], true),
   -- pattern: \b(mt2(\s|$)|mt2\s*[- ]\s*melatonin\s*[- ]\s*receptor|melatonin\s*[- ]\s*receptor(\b|\s*[- ]\s*)-?\s*[- ]\s*2|melatonin\s*[- ]\s*receptor\s*[- ]\s*type\s*[- ]\s*2|melatonin\s*[- ]\s*receptor\s*[- ]\s*type\s*[- ]\s*1b|melatonin\s*[- ]\s*mt2\s*[- ]\s*receptor)\b
   (⟨cats [RE.bnd, RE.grp 1 (cats [RE.ch 'm', alts [cats [lit "t2", RE.grp 2 (alts [wsC, RE.eos])], cats [lit "t2", wsS, RE.cls false [CI.ch '-', CI.ch ' '], wsS, lit "melatonin", wsS, RE.cls false [CI.ch '-', CI.ch ' '], wsS, lit "receptor"], cats [lit "elatonin", wsS, RE.cls false [CI.ch '-', CI.ch ' '], wsS, lit "receptor", RE.grp 3 (alts [RE.bnd, cats [wsS, RE.cls false [CI.ch '-', CI.ch ' '], wsS]]), opt (RE.ch '-'), wsS, RE.cls false [CI.ch '-', CI.ch ' '], wsS, RE.ch '2'], cats [lit "elatonin", wsS, RE.cls false [CI.ch '-', CI.ch ' '], wsS, lit "receptor", wsS, RE.cls false [CI.ch '-', CI.ch ' '], wsS, lit "type", wsS, RE.cls false [CI.ch '-', CI.ch ' '], wsS, RE.ch '2'], cats [lit "elatonin", wsS, RE.cls false [CI.ch '-', CI.ch ' '], wsS, lit "receptor", wsS, RE.cls false [CI.ch '-', CI.ch ' '], wsS, lit "type", wsS, RE.cls false [CI.ch '-', CI.ch ' '], wsS, lit "1b"], cats [lit "elatonin", wsS, RE.cls false [CI.ch '-', CI.ch ' '], wsS, lit "mt2", wsS, RE.cls false [CI.ch '-', CI.ch ' '], wsS, lit "receptor"]]]), RE.bnd], false, 3⟩,
    RuleVal.fixed [toL "mt2", toL "mtnr1b"], false),
   -- pattern: \b(mt1(\s|$)|mt1a\s*[- ]\s*receptor|ml1a\s*[- ]\s*receptor|mt1\s*[- ]\s*melatonin\s*[- ]\s*receptor|melatonin\s*[- ]\s*receptor(\b|\s*[- ]\s*)-?\s*[- ]\s*1|melatonin\s*[- ]\s*receptor\s*[- ]\s*type\s*[- ]\s*1a)\b
   (⟨cats [RE.bnd, RE.grp 1 (cats [RE.ch 'm', alts [cats [lit "t1", RE.grp 2 (alts [wsC, RE.eos])], cats [lit "t1a", wsS, RE.cls false [CI.ch '-', CI.ch ' '], wsS, lit "receptor"], cats [lit "l1a", wsS, RE.cls false [CI.ch '-', CI.ch ' '], wsS, lit "receptor"], cats [lit "t1", wsS, RE.cls false [CI.ch '-', CI.ch ' '], wsS, lit "melatonin", wsS, RE.cls false [CI.ch '-', CI.ch ' '], wsS, lit "receptor"], cats [lit "elatonin", wsS, RE.cls false [CI.ch '-', CI.ch ' '], wsS, lit "receptor", RE.grp 3 (alts [RE.bnd, cats [wsS, RE.cls false [CI.ch '-', CI.ch ' '], wsS]]), opt (RE.ch '-'), wsS, RE.cls false [CI.ch '-', CI.ch ' '], wsS, RE.ch '1'], cats [lit "elatonin", wsS, RE.cls false [CI.ch '-', CI.ch ' '], wsS, lit "receptor", wsS, RE.cls false [CI.ch '-', CI.ch ' '], wsS, lit "type", wsS, RE.cls false [CI.ch '-', CI.ch ' '], wsS, lit "1a"]]]), RE.bnd], false, 3⟩,
    RuleVal.fixed [toL "mt1", toL "mtnr1a"], false),
   -- pattern: \btrmp8\s*[- ]\s*receptor\b
   (⟨cats [RE.bnd, lit "trmp8", wsS, RE.cls false [CI.ch '-', CI.ch ' '], wsS, lit "receptor", RE.bnd], false, 0⟩,
    RuleVal.fixed [toL "trpm8"], false),
   -- pattern: \b(transient\s*[- ]\s*receptor\s*[- ]\s*potential\s*[- ]\s*vanilloid(\s*type)?\s*[- ]\s*1|vanilloid\s*[- ]\s*receptor(\s*subtype)?\s*[- ]\s*vr?1|vr1\s*[- ]\s*receptor|trpv1\s*[- ]\s*receptor)\b
   (⟨cats [RE.bnd, RE.grp 1 (alts [cats [lit "transient", wsS, RE.cls false [CI.ch '-', CI.ch ' '], wsS, lit "receptor", wsS, RE.cls false [CI.ch '-', CI.ch ' '], wsS, lit "potential", wsS, RE.cls false [CI.ch '-', CI.ch ' '], wsS, lit "vanilloid", opt (RE.grp 2 (cats [wsS, lit "type"])), wsS, RE.cls false [CI.ch '-', CI.ch ' '], wsS, RE.ch '1'], cats [lit "vanilloid", wsS, RE.cls false [CI.ch '-', CI.ch ' '], wsS, lit "receptor", opt (RE.grp 3 (cats [wsS, lit "subtype"])), wsS, RE.cls false [CI.ch '-', CI.ch ' '], wsS, RE.ch 'v', opt (RE.ch 'r'), RE.ch '1'], cats [lit "vr1", wsS, RE.cls false [CI.ch '-', CI.ch ' '], wsS, lit "receptor"], cats [lit "trpv1", wsS, RE.cls false [CI.ch '-', CI.ch ' '], wsS, lit "receptor"]]), RE.bnd], false, 3⟩,
    RuleVal.fixed [toL "trpv1", toL "vr1"], false)
  ]

/-- Entries 61.. of `RULES_CUSTOM` (table split for compilation). -/
def RULES_CUSTOM_c7 : List (PyPattern × RuleVal × Bool) :=
  [
   -- pattern: \b(smo\s*[- ]\s*receptor|smoothened\s*[- ]\s*receptor)\b
   (⟨cats [RE.bnd, RE.grp 1 (cats [lit "smo", alts [cats [wsS, RE.cls false [CI.ch '-', CI.ch ' '], wsS, lit "receptor"], cats [lit "othened", wsS, RE.cls false [CI.ch '-', CI.ch ' '], wsS, lit "receptor"]]]), RE.bnd], false, 1⟩,
    RuleVal.fixed [toL "smo"], false),
   -- pattern: \bmglu1(\b|\s*[- ]\s*receptor|\s*[- ]\s*receptors)\b
   (⟨cats [RE.bnd, lit "mglu1", RE.grp 1 (alts [RE.bnd, cats [wsS, RE.cls false [CI.ch '-', CI.ch ' '], wsS, lit "receptor"], cats [wsS, RE.cls false [CI.ch '-', CI.ch ' '], wsS, lit "receptors"]]), RE.bnd], false, 1⟩,
    RuleVal.fixed [toL "grm1"], false),
   -- pattern: \bmglu2(\b|\s*[- ]\s*receptor|\s*[- ]\s*receptors)\b
   (⟨cats [RE.bnd, lit "mglu2", RE.grp 1 (alts [RE.bnd, cats [wsS, RE.cls false [CI.ch '-', CI.ch ' '], wsS, lit "receptor"], cats [wsS, RE.cls false [CI.ch '-', CI.ch ' '], wsS, lit "receptors"]]), RE.bnd], false, 1⟩,
    RuleVal.fixed [toL "grm2"], false),
   -- pattern: \bmglu3(\b|\s*[- ]\s*receptor|\s*[- ]\s*receptors)\b
   (⟨cats [RE.bnd, lit "mglu3", RE.grp 1 (alts [RE.bnd, cats [wsS, RE.cls false [CI.ch '-', CI.ch ' '], wsS, lit "receptor"], cats [wsS, RE.cls false [CI.ch '-', CI.ch ' '], wsS, lit "receptors"]]), RE.bnd], false, 1⟩,
    RuleVal.fixed [toL "grm3"], false),
   -- pattern: \bmglu5a\s*[- ]\s*receptor\b|\bmglu5\s*[- ]\s*receptor\b|\bglutamate\s*[- ]\s*receptor\s*[- ]\s*5\b
   (⟨cats [RE.bnd, alts [cats [lit "mglu5a", wsS, RE.cls false [CI.ch '-', CI.ch ' '], wsS, lit "receptor", RE.bnd], cats [lit "mglu5", wsS, RE.cls false [CI.ch '-', CI.ch ' '], wsS, lit "receptor", RE.bnd], cats [lit "glutamate", wsS, RE.cls false [CI.ch '-', CI.ch ' '], wsS, lit "receptor", wsS, RE.cls false [CI.ch '-', CI.ch ' '], wsS, RE.ch '5', RE.bnd]]], false, 0⟩,
    RuleVal.fixed [toL "grm5"], false),
   -- pattern: \bmglu7\s*[- ]\s*receptor\b
   (⟨cats [RE.bnd, lit "mglu7", wsS, RE.cls false [CI.ch '-', CI.ch ' '], wsS, lit "receptor", RE.bnd], false, 0⟩,
    RuleVal.fixed [toL "grm7"], false),
   -- pattern: \biglur5\s*[- ]\s*receptor\b
   (⟨cats [RE.bnd, lit "iglur5", wsS, RE.cls false [CI.ch '-', CI.ch ' '], wsS, lit "receptor", RE.bnd], false, 0⟩,
    RuleVal.fixed [toL "grik1"], false),
   -- pattern: \biglur6\s*[- ]\s*receptor|iontropic\s*[- ]\s*glutamate\s*[- ]\s*receptor\s*[- ]\s*6\b
   (⟨alts [cats [RE.bnd, lit "iglur6", wsS, RE.cls false [CI.ch '-', CI.ch ' '], wsS, lit "receptor"], cats [lit "iontropic", wsS, RE.cls false [CI.ch '-', CI.ch ' '], wsS, lit "glutamate", wsS, RE.cls false [CI.ch '-', CI.ch ' '], wsS, lit "receptor", wsS, RE.cls false [CI.ch '-', CI.ch ' '], wsS, RE.ch '6', RE.bnd]], false, 0⟩,
    RuleVal.fixed [toL "grik2"], false),
   -- pattern: \biglur7\s*[- ]\s*receptor\b
   (⟨cats [RE.bnd, lit "iglur7", wsS, RE.cls false [CI.ch '-', CI.ch ' '], wsS, lit "receptor", RE.bnd], false, 0⟩,
    RuleVal.fixed [toL "grik3"], false),
   -- pattern: \bglun2a\s*[- ]\s*receptor\b
   (⟨cats [RE.bnd, lit "glun2a", wsS, RE.cls false [CI.ch '-', CI.ch ' '], wsS, lit "receptor", RE.bnd], false, 0⟩,
    RuleVal.fixed [toL "grin2a"], false)
  ]

/-- Entries 71.. of `RULES_CUSTOM` (table split for compilation). -/
def RULES_CUSTOM_c8 : List (PyPattern × RuleVal × Bool) :=
  [
   -- pattern: \bglun2b\s*[- ]\s*receptor\b
   (⟨cats [RE.bnd, lit "glun2b", wsS, RE.cls false [CI.ch '-', CI.ch ' '], wsS, lit "receptor", RE.bnd], false, 0⟩,
    RuleVal.fixed [toL "grin2b"], false),
   -- pattern: \beaat1\s*[- ]\s*receptor\b
   (⟨cats [RE.bnd, lit "eaat1", wsS, RE.cls false [CI.ch '-', CI.ch ' '], wsS, lit "receptor", RE.bnd], false, 0⟩,
    RuleVal.fixed [toL "slc1a3"], false),
   -- pattern: \b(5\s*[- ]\s*hydroxy\s*[- ]\s*?tryptamine|5\s*[- ]\s*?-?ht)\s*[- ]\s*6\s*[- ]\s*receptor|ht6\s*[- ]\s*receptor\b
   (⟨alts [cats [RE.bnd, RE.grp 1 (cats [RE.ch '5', alts [cats [wsS, RE.cls false [CI.ch '-', CI.ch ' '], wsS, lit "hydroxy", wsS, RE.cls false [CI.ch '-', CI.ch ' '], RE.lstar wsC, lit "tryptamine"], cats [wsS, RE.cls false [CI.ch '-', CI.ch ' '], RE.lstar wsC, opt (RE.ch '-'), lit "ht"]]]), wsS, RE.cls false [CI.ch '-', CI.ch ' '], wsS, RE.ch '6', wsS, RE.cls false [CI.ch '-', CI.ch ' '], wsS, lit "receptor"], cats [lit "ht6", wsS, RE.cls false [CI.ch '-', CI.ch ' '], wsS, lit "receptor", RE.bnd]], false, 1⟩,
    RuleVal.fixed [toL "htr6"], false),
   -- pattern: \b(5\s*[- ]\s*?-?ht|5\s*[- ]\s*hydroxy\s*[- ]\s*?tryptamine)\s*[- ]\s*5a\s*[- ]\s*receptor\b
   (⟨cats [RE.bnd, RE.grp 1 (cats [RE.ch '5', alts [cats [wsS, RE.cls false [CI.ch '-', CI.ch ' '], RE.lstar wsC, opt (RE.ch '-'), lit "ht"], cats [wsS, RE.cls false [CI.ch '-', CI.ch ' '], wsS, lit "hydroxy", wsS, RE.cls false [CI.ch '-', CI.ch ' '], RE.lstar wsC, lit "tryptamine"]]]), wsS, RE.cls false [CI.ch '-', CI.ch ' '], wsS, lit "5a", wsS, RE.cls false [CI.ch '-', CI.ch ' '], wsS, lit "receptor", RE.bnd], false, 1⟩,
    RuleVal.fixed [toL "htr5a"], false),
   -- pattern: \b(5\s*[- ]\s*?-?ht|5\s*[- ]\s*hydroxy\s*[- ]\s*?tryptamine)\s*[- ]\s*2a\s*[- ]\s*receptor\b
   (⟨cats [RE.bnd, RE.grp 1 (cats [RE.ch '5', alts [cats [wsS, RE.cls false [CI.ch '-', CI.ch ' '], RE.lstar wsC, opt (RE.ch '-'), lit "ht"], cats [wsS, RE.cls false [CI.ch '-', CI.ch ' '], wsS, lit "hydroxy", wsS, RE.cls false [CI.ch '-', CI.ch ' '], RE.lstar wsC, lit "tryptamine"]]]), wsS, RE.cls false [CI.ch '-', CI.ch ' '], wsS, lit "2a", wsS, RE.cls false [CI.ch '-', CI.ch ' '], wsS, lit "receptor", RE.bnd], false, 1⟩,
    RuleVal.fixed [toL "htr2a"], false),
   -- pattern: \b(5\s*[- ]\s*?-?ht|5\s*[- ]\s*hydroxy\s*[- ]\s*?tryptamine)\s*[- ]\s*2b\s*[- ]\s*receptor\b
   (⟨cats [RE.bnd, RE.grp 1 (cats [RE.ch '5', alts [cats [wsS, RE.cls false [CI.ch '-', CI.ch ' '], RE.lstar wsC, opt (RE.ch '-'), lit "ht"], cats [wsS, RE.cls false [CI.ch '-', CI.ch ' '], wsS, lit "hydroxy", wsS, RE.cls false [CI.ch '-', CI.ch ' '], RE.lstar wsC, lit "tryptamine"]]]), wsS, RE.cls false [CI.ch '-', CI.ch ' '], wsS, lit "2b", wsS, RE.cls false [CI.ch '-', CI.ch ' '], wsS, lit "receptor", RE.bnd], false, 1⟩,
    RuleVal.fixed [toL "htr2b"], false),
   -- pattern: \b(5\s*[- ]\s*?-?ht|5\s*[- ]\s*hydroxy\s*[- ]\s*?tryptamine)\s*[- ]\s*1a\s*[- ]\s*receptor\b|hydroxytryptamine\s*[- ]\s*1a\s*[- ]\s*receptor\b
   (⟨alts [cats [RE.bnd, RE.grp 1 (cats [RE.ch '5', alts [cats [wsS, RE.cls false [CI.ch '-', CI.ch ' '], RE.lstar wsC, opt (RE.ch '-'), lit "ht"], cats [wsS, RE.cls false [CI.ch '-', CI.ch ' '], wsS, lit "hydroxy", wsS, RE.cls false [CI.ch '-', CI.ch ' '], RE.lstar wsC, lit "tryptamine"]]]), wsS, RE.cls false [CI.ch '-', CI.ch ' '], wsS, lit "1a", wsS, RE.cls false [CI.ch '-', CI.ch ' '], wsS, lit "receptor", RE.bnd], cats [lit "hydroxytryptamine", wsS, RE.cls false [CI.ch '-', CI.ch ' '], wsS, lit "1a", wsS, RE.cls false [CI.ch '-', CI.ch ' '], wsS, lit "receptor", RE.bnd]], false, 1⟩,
    RuleVal.fixed [toL "htr1a"], false),
   -- pattern: \b(5\s*[- ]\s*?-?ht|5\s*[- ]\s*hydroxy\s*[- ]\s*?tryptamine)\s*[- ]\s*1b\s*[- ]\s*receptor\b
   (⟨cats [RE.bnd, RE.grp 1 (cats [RE.ch '5', alts [cats [wsS, RE.cls false [CI.ch '-', CI.ch ' '], RE.lstar wsC, opt (RE.ch '-'), lit "ht"], cats [wsS, RE.cls false [CI.ch '-', CI.ch ' '], wsS, lit "hydroxy", wsS, RE.cls false [CI.ch '-', CI.ch ' '], RE.lstar wsC, lit "tryptamine"]]]), wsS, RE.cls false [CI.ch '-', CI.ch ' '], wsS, lit "1b", wsS, RE.cls false [CI.ch '-', CI.ch ' '], wsS, lit "receptor", RE.bnd], false, 1⟩,
    RuleVal.fixed [toL "htr1b"], false),
   -- pattern: \b(5\s*[- ]\s*?-?ht|5\s*[- ]\s*hydroxy\s*[- ]\s*?tryptamine)\s*[- ]\s*1d\s*[- ]\s*receptor\b
   (⟨cats [RE.bnd, RE.grp 1 (cats [RE.ch '5', alts [cats [wsS, RE.cls false [CI.ch '-', CI.ch ' '], RE.lstar wsC, opt (RE.ch '-'), lit "ht"], cats [wsS, RE.cls false [CI.ch '-', CI.ch ' '], wsS, lit "hydroxy", wsS, RE.cls false [CI.ch '-', CI.ch ' '], RE.lstar wsC, lit "tryptamine"]]]), wsS, RE.cls false [CI.ch '-', CI.ch ' '], wsS, lit "1d", wsS, RE.cls false [CI.ch '-', CI.ch ' '], wsS, lit "receptor", RE.bnd], false, 1⟩,
    RuleVal.fixed [toL "htr1d"], false),
   -- pattern: \b(5\s*[- ]\s*?-?ht|5\s*[- ]\s*hydroxy\s*[- ]\s*?tryptamine)\s*[- ]\s*1f\s*[- ]\s*receptor\b
   (⟨cats [RE.bnd, RE.grp 1 (cats [RE.ch '5', alts [cats [wsS, RE.cls false [CI.ch '-', CI.ch ' '], RE.lstar wsC, opt (RE.ch '-'), lit "ht"], cats [wsS, RE.cls false [CI.ch '-', CI.ch ' '], wsS, lit "hydroxy", wsS, RE.cls false [CI.ch '-', CI.ch ' '], RE.lstar wsC, lit "tryptamine"]]]), wsS, RE.cls false [CI.ch '-', CI.ch ' '], wsS, lit "1f", wsS, RE.cls false [CI.ch '-', CI.ch ' '], wsS, lit "receptor", RE.bnd], false, 1⟩,
    RuleVal.fixed [toL "htr1f"], false)
  ]

/-- Entries 81.. of `RULES_CUSTOM` (table split for compilation). -/
def RULES_CUSTOM_c9 : List (PyPattern × RuleVal × Bool) :=
  [
   -- pattern: \b(5\s*[- ]\s*?-?ht|5\s*[- ]\s*hydroxy\s*[- ]\s*?tryptamine)\s*[- ]\s*7\s*[- ]\s*receptor\b
   (⟨cats [RE.bnd, RE.grp 1 (cats [RE.ch '5', alts [cats [wsS, RE.cls false [CI.ch '-', CI.ch ' '], RE.lstar wsC, opt (RE.ch '-'), lit "ht"], cats [wsS, RE.cls false [CI.ch '-', CI.ch ' '], wsS, lit "hydroxy", wsS, RE.cls false [CI.ch '-', CI.ch ' '], RE.lstar wsC, lit "tryptamine"]]]), wsS, RE.cls false [CI.ch '-', CI.ch ' '], wsS, RE.ch '7', wsS, RE.cls false [CI.ch '-', CI.ch ' '], wsS, lit "receptor", RE.bnd], false, 1⟩,
    RuleVal.fixed [toL "htr7"], false),
   -- pattern: \b(ht3a\s*[- ]\s*receptor)\b
   (⟨cats [RE.bnd, RE.grp 1 (cats [lit "ht3a", wsS, RE.cls false [CI.ch '-', CI.ch ' '], wsS, lit "receptor"]), RE.bnd], false, 1⟩,
    RuleVal.fixed [toL "htr3a"], false),
   -- pattern: \bnpyy5\s*[- ]\s*receptor\b
   (⟨cats [RE.bnd, lit "npyy5", wsS, RE.cls false [CI.ch '-', CI.ch ' '], wsS, lit "receptor", RE.bnd], false, 0⟩,
    RuleVal.fixed [toL "npy5r"], false),
   -- pattern: \bnpyy2\s*[- ]\s*receptor\b
   (⟨cats [RE.bnd, lit "npyy2", wsS, RE.cls false [CI.ch '-', CI.ch ' '], wsS, lit "receptor", RE.bnd], false, 0⟩,
    RuleVal.fixed [toL "npy2r"], false),
   -- pattern: \bny4\s*[- ]\s*receptor\b
   (⟨cats [RE.bnd, lit "ny4", wsS, RE.cls false [CI.ch '-', CI.ch ' '], wsS, lit "receptor", RE.bnd], false, 0⟩,
    RuleVal.fixed [toL "npy4r"], false),
   -- pattern: \bvasopressin\s*[- ]\s*receptor\b
   (⟨cats [RE.bnd, lit "vasopressin", wsS, RE.cls false [CI.ch '-', CI.ch ' '], wsS, lit "receptor", RE.bnd], false, 0⟩,
    RuleVal.fixed [toL "avpr1a", toL "avpr1b", toL "avpr2"], true),
   -- pattern: \bvasopressin\s*[- ]\s*v1a\s*[- ]\s*receptor|v1a\s*[- ]\s*receptor\b
   (⟨alts [cats [RE.bnd, lit "vasopressin", wsS, RE.cls false [CI.ch '-', CI.ch ' '], wsS, lit "v1a", wsS, RE.cls false [CI.ch '-', CI.ch ' '], wsS, lit "receptor"], cats [lit "v1a", wsS, RE.cls false [CI.ch '-', CI.ch ' '], wsS, lit "receptor", RE.bnd]], false, 0⟩,
    RuleVal.fixed [toL "avpr1a"], false),
   -- pattern: \bvasopressin\s*[- ]\s*v1b\s*[- ]\s*receptor|v1b\s*[- ]\s*receptor\b
   (⟨alts [cats [RE.bnd, lit "vasopressin", wsS, RE.cls false [CI.ch '-', CI.ch ' '], wsS, lit "v1b", wsS, RE.cls false [CI.ch '-', CI.ch ' '], wsS, lit "receptor"], cats [lit "v1b", wsS, RE.cls false [CI.ch '-', CI.ch ' '], wsS, lit "receptor", RE.bnd]], false, 0⟩,
    RuleVal.fixed [toL "avpr1b"], false),
   -- pattern: \bvasopressin\s*[- ]\s*v2\s*[- ]\s*receptor|v2\s*[- ]\s*receptor|v2\s*[- ]\s*vasopressin\s*[- ]\s*receptor\b
   (⟨alts [cats [RE.bnd, lit "vasopressin", wsS, RE.cls false [CI.ch '-', CI.ch ' '], wsS, lit "v2", wsS, RE.cls false [CI.ch '-', CI.ch ' '], wsS, lit "receptor"], cats [lit "v2", wsS, RE.cls false [CI.ch '-', CI.ch ' '], wsS, lit "receptor"], cats [lit "v2", wsS, RE.cls false [CI.ch '-', CI.ch ' '], wsS, lit "vasopressin", wsS, RE.cls false [CI.ch '-', CI.ch ' '], wsS, lit "receptor", RE.bnd]], false, 0⟩,
    RuleVal.fixed [toL "avpr2"], false),
   -- pattern: \boxytocin\s*[- ]\s*receptor|ot(r|\s*[- ]\s*receptor)|oxr\s*[- ]\s*receptor\b
   (⟨alts [cats [RE.bnd, lit "oxytocin", wsS, RE.cls false [CI.ch '-', CI.ch ' '], wsS, lit "receptor"], cats [lit "ot", RE.grp 1 (alts [RE.ch 'r', cats [wsS, RE.cls false [CI.ch '-', CI.ch ' '], wsS, lit "receptor"]])], cats [lit "oxr", wsS, RE.cls false [CI.ch '-', CI.ch ' '], wsS, lit "receptor", RE.bnd]], false, 1⟩,
    RuleVal.fixed [toL "oxtr"], false)
  ]

/-- Entries 91.. of `RULES_CUSTOM` (table split for compilation). -/
def RULES_CUSTOM_c10 : List (PyPattern × RuleVal × Bool) :=
  [
   -- pattern: \b(angiotensin\s*[- ]\s*ii\s*[- ]\s*receptor(\s*,)?(\s*type)?\s*[- ]\s*1|at-?1\s*[- ]\s*receptor|angiotensin\s*[- ]\s*2\s*[- ]\s*type\s*[- ]\s*-?\s*[- ]\s*1\s*[- ]\s*receptor|angiotensin\s*[- ]\s*2\s*[- ]\s*receptor\s*[- ]\s*type\s*[- ]\s*1|angiotensin\s*[- ]\s*2\s*[- ]\s*at1\s*[- ]\s*receptor|angiotensin\s*[- ]\s*1\s*[- ]\s*receptor)\b
   (⟨cats [RE.bnd, RE.grp 1 (cats [RE.ch 'a', alts [cats [lit "ngiotensin", wsS, RE.cls false [CI.ch '-', CI.ch ' '], wsS, lit "ii", wsS, RE.cls false [CI.ch '-', CI.ch ' '], wsS, lit "receptor", opt (RE.grp 2 (cats [wsS, RE.ch ','])), opt (RE.grp 3 (cats [wsS, lit "type"])), wsS, RE.cls false [CI.ch '-', CI.ch ' '], wsS, RE.ch '1'], cats [RE.ch 't', opt (RE.ch '-'), RE.ch '1', wsS, RE.cls false [CI.ch '-', CI.ch ' '], wsS, lit "receptor"], cats [lit "ngiotensin", wsS, RE.cls false [CI.ch '-', CI.ch ' '], wsS, RE.ch '2', wsS, RE.cls false [CI.ch '-', CI.ch ' '], wsS, lit "type", wsS, RE.cls false [CI.ch '-', CI.ch ' '], wsS, opt (RE.ch '-'), wsS, RE.cls false [CI.ch '-', CI.ch ' '], wsS, RE.ch '1', wsS, RE.cls false [CI.ch '-', CI.ch ' '], wsS, lit "receptor"], cats [lit "ngiotensin", wsS, RE.cls false [CI.ch '-', CI.ch ' '], wsS, RE.ch '2', wsS, RE.cls false [CI.ch '-', CI.ch ' '], wsS, lit "receptor", wsS, RE.cls false [CI.ch '-', CI.ch ' '], wsS, lit "type", wsS, RE.cls false [CI.ch '-', CI.ch ' '], wsS, RE.ch '1'], cats [lit "ngiotensin", wsS, RE.cls false [CI.ch '-', CI.ch ' '], wsS, RE.ch '2', wsS, RE.cls false [CI.ch '-', CI.ch ' '], wsS, lit "at1", wsS, RE.cls false [CI.ch '-', CI.ch ' '], wsS, lit "receptor"], cats [lit "ngiotensin", wsS, RE.cls false [CI.ch '-', CI.ch ' '], wsS, RE.ch '1', wsS, RE.cls false [CI.ch '-', CI.ch ' '], wsS, lit "receptor"]]]), RE.bnd], false, 3⟩,
    RuleVal.fixed [toL "agtr1"], false),
   -- pattern: \b(type\s*[- ]\s*-?\s*[- ]\s*2\s*[- ]\s*angiotensin\s*[- ]\s*-?\s*[- ]\s*2\s*[- ]\s*receptor|at2\s*[- ]\s*receptor|angiotensin\s*[- ]\s*ii\s*[- ]\s*receptor(\s*,)?(\s*type)?\s*[- ]\s*2)\b
   (⟨cats [RE.bnd, RE.grp 1 (alts [cats [lit "type", wsS, RE.cls false [CI.ch '-', CI.ch ' '], wsS, opt (RE.ch '-'), wsS, RE.cls false [CI.ch '-', CI.ch ' '], wsS, RE.ch '2', wsS, RE.cls false [CI.ch '-', CI.ch ' '], wsS, lit "angiotensin", wsS, RE.cls false [CI.ch '-', CI.ch ' '], wsS, opt (RE.ch '-'), wsS, RE.cls false [CI.ch '-', CI.ch ' '], wsS, RE.ch '2', wsS, RE.cls false [CI.ch '-', CI.ch ' '], wsS, lit "receptor"], cats [lit "at2", wsS, RE.cls false [CI.ch '-', CI.ch ' '], wsS, lit "receptor"], cats [lit "angiotensin", wsS, RE.cls false [CI.ch '-', CI.ch ' '], wsS, lit "ii", wsS, RE.cls false [CI.ch '-', CI.ch ' '], wsS, lit "receptor", opt (RE.grp 2 (cats [wsS, RE.ch ','])), opt (RE.grp 3 (cats [wsS, lit "type"])), wsS, RE.cls false [CI.ch '-', CI.ch ' '], wsS, RE.ch '2']]), RE.bnd], false, 3⟩,
    RuleVal.fixed [toL "agtr2"], false),
   -- pattern: \bchemokine\s*[- ]\s*receptor\s*[- ]\s*5\b|\bc-?c\s*[- ]\s*chemokine\s*[- ]\s*receptor\s*[- ]\s*type\s*[- ]\s*5\b
   (⟨cats [RE.bnd, RE.ch 'c', alts [cats [lit "hemokine", wsS, RE.cls false [CI.ch '-', CI.ch ' '], wsS, lit "receptor", wsS, RE.cls false [CI.ch '-', CI.ch ' '], wsS, RE.ch '5', RE.bnd], cats [opt (RE.ch '-'), RE.ch 'c', wsS, RE.cls false [CI.ch '-', CI.ch ' '], wsS, lit "chemokine", wsS, RE.cls false [CI.ch '-', CI.ch ' '], wsS, lit "receptor", wsS, RE.cls false [CI.ch '-', CI.ch ' '], wsS, lit "type", wsS, RE.cls false [CI.ch '-', CI.ch ' '], wsS, RE.ch '5', RE.bnd]]], false, 0⟩,
    RuleVal.fixed [toL "ccr5"], false),
   -- pattern: \bc-?c\s*[- ]\s*chemokine\s*[- ]\s*receptor\s*[- ]\s*type\s*[- ]\s*4\b
   (⟨cats [RE.bnd, RE.ch 'c', opt (RE.ch '-'), RE.ch 'c', wsS, RE.cls false [CI.ch '-', CI.ch ' '], wsS, lit "chemokine", wsS, RE.cls false [CI.ch '-', CI.ch ' '], wsS, lit "receptor", wsS, RE.cls false [CI.ch '-', CI.ch ' '], wsS, lit "type", wsS, RE.cls false [CI.ch '-', CI.ch ' '], wsS, RE.ch '4', RE.bnd], false, 0⟩,
    RuleVal.fixed [toL "ccr4"], false),
   -- pattern: \bc-?c\s*[- ]\s*chemokine\s*[- ]\s*receptor\s*[- ]\s*type\s*[- ]\s*3\b
   (⟨cats [RE.bnd, RE.ch 'c', opt (RE.ch '-'), RE.ch 'c', wsS, RE.cls false [CI.ch '-', CI.ch ' '], wsS, lit "chemokine", wsS, RE.cls false [CI.ch '-', CI.ch ' '], wsS, lit "receptor", wsS, RE.cls false [CI.ch '-', CI.ch ' '], wsS, lit "type", wsS, RE.cls false [CI.ch '-', CI.ch ' '], wsS, RE.ch '3', RE.bnd], false, 0⟩,
    RuleVal.fixed [toL "ccr3"], false),
   -- pattern: \bcxc\s*[- ]\s*chemokine\s*[- ]\s*receptor\s*[- ]\s*1\b|interleukin\s*[- ]\s*-?\s*[- ]\s*8\s*[- ]\s*receptor\b
   (⟨alts [cats [RE.bnd, lit "cxc", wsS, RE.cls false [CI.ch '-', CI.ch ' '], wsS, lit "chemokine", wsS, RE.cls false [CI.ch '-', CI.ch ' '], wsS, lit "receptor", wsS, RE.cls false [CI.ch '-', CI.ch ' '], wsS, RE.ch '1', RE.bnd], cats [lit "interleukin", wsS, RE.cls false [CI.ch '-', CI.ch ' '], wsS, opt (RE.ch '-'), wsS, RE.cls false [CI.ch '-', CI.ch ' '], wsS, RE.ch '8', wsS, RE.cls false [CI.ch '-', CI.ch ' '], wsS, lit "receptor", RE.bnd]], false, 0⟩,
    RuleVal.fixed [toL "cxcr1"], false),
   -- pattern: \bcxc\s*[- ]\s*chemokine\s*[- ]\s*receptor\s*[- ]\s*2\b
   (⟨cats [RE.bnd, lit "cxc", wsS, RE.cls false [CI.ch '-', CI.ch ' '], wsS, lit "chemokine", wsS, RE.cls false [CI.ch '-', CI.ch ' '], wsS, lit "receptor", wsS, RE.cls false [CI.ch '-', CI.ch ' '], wsS, RE.ch '2', RE.bnd], false, 0⟩,
    RuleVal.fixed [toL "cxcr2"], false),
   -- pattern: \bcx3c\s*[- ]\s*chemokine\s*[- ]\s*receptor\s*[- ]\s*[35]\b
   (⟨cats [RE.bnd, lit "cx3c", wsS, RE.cls false [CI.ch '-', CI.ch ' '], wsS, lit "chemokine", wsS, RE.cls false [CI.ch '-', CI.ch ' '], wsS, lit "receptor", wsS, RE.cls false [CI.ch '-', CI.ch ' '], wsS, RE.cls false [CI.ch '3', CI.ch '5'], RE.bnd], false, 0⟩,
    RuleVal.fixed [toL "cx3cr1"], true),
   -- pattern: \bmc3r(eceptor)?\b
   (⟨cats [RE.bnd, lit "mc3r", opt (RE.grp 1 (lit "eceptor")), RE.bnd], false, 1⟩,
    RuleVal.fixed [toL "mc3r"], false),
   -- pattern: \b(cb1\s*[- ]\s*receptor|cannabinoid\s*[- ]\s*-?\s*[- ]\s*1\s*[- ]\s*receptor|cannabinoid\s*[- ]\s*receptor\s*[- ]\s*1|cannabinoid\s*[- ]\s*cb1\s*[- ]\s*receptor)\b
   (⟨cats [RE.bnd, RE.grp 1 (cats [RE.ch 'c', alts [cats [lit "b1", wsS, RE.cls false [CI.ch '-', CI.ch ' '], wsS, lit "receptor"], cats [lit "annabinoid", wsS, RE.cls false [CI.ch '-', CI.ch ' '], wsS, opt (RE.ch '-'), wsS, RE.cls false [CI.ch '-', CI.ch ' '], wsS, RE.ch '1', wsS, RE.cls false [CI.ch '-', CI.ch ' '], wsS, lit "receptor"], cats [lit "annabinoid", wsS, RE.cls false [CI.ch '-', CI.ch ' '], wsS, lit "receptor", wsS, RE.cls false [CI.ch '-', CI.ch ' '], wsS, RE.ch '1'], cats [lit "annabinoid", wsS, RE.cls false [CI.ch '-', CI.ch ' '], wsS, lit "cb1", wsS, RE.cls false [CI.ch '-', CI.ch ' '], wsS, lit "receptor"]]]), RE.bnd], false, 1⟩,
    RuleVal.fixed [toL "cb1", toL "cnr1"], false)
  ]

/-- Entries 101.. of `RULES_CUSTOM` (table split for compilation). -/
def RULES_CUSTOM_c11 : List (PyPattern × RuleVal × Bool) :=
  [
   -- pattern: \b(cb2\s*[- ]\s*receptor|cannabinoid\s*[- ]\s*receptors?\s*[- ]\s*2|cannabinoid\s*[- ]\s*cb2\s*[- ]\s*receptor|cannabinoid\s*[- ]\s*receptor\s*[- ]\s*2)\b
   (⟨cats [RE.bnd, RE.grp 1 (cats [RE.ch 'c', alts [cats [lit "b2", wsS, RE.cls false [CI.ch '-', CI.ch ' '], wsS, lit "receptor"], cats [lit "annabinoid", wsS, RE.cls false [CI.ch '-', CI.ch ' '], wsS, lit "receptor", opt (RE.ch 's'), wsS, RE.cls false [CI.ch '-', CI.ch ' '], wsS, RE.ch '2'], cats [lit "annabinoid", wsS, RE.cls false [CI.ch '-', CI.ch ' '], wsS, lit "cb2", wsS, RE.cls false [CI.ch '-', CI.ch ' '], wsS, lit "receptor"], cats [lit "annabinoid", wsS, RE.cls false [CI.ch '-', CI.ch ' '], wsS, lit "receptor", wsS, RE.cls false [CI.ch '-', CI.ch ' '], wsS, RE.ch '2']]]), RE.bnd], false, 1⟩,
    RuleVal.fixed [toL "cb2", toL "cnr2"], false),
   -- pattern: \bprostaglandin\s*[- ]\s*i2\s*[- ]\s*receptor|pgi2\s*[- ]\s*receptor\b
   (⟨alts [cats [RE.bnd, lit "prostaglandin", wsS, RE.cls false [CI.ch '-', CI.ch ' '], wsS, lit "i2", wsS, RE.cls false [CI.ch '-', CI.ch ' '], wsS, lit "receptor"], cats [lit "pgi2", wsS, RE.cls false [CI.ch '-', CI.ch ' '], wsS, lit "receptor", RE.bnd]], false, 0⟩,
    RuleVal.fixed [toL "ip", toL "ptgir"], false),
   -- pattern: \bprostaglandin\s*[- ]\s*e\s*[- ]\s*receptor\b
   (⟨cats [RE.bnd, lit "prostaglandin", wsS, RE.cls false [CI.ch '-', CI.ch ' '], wsS, RE.ch 'e', wsS, RE.cls false [CI.ch '-', CI.ch ' '], wsS, lit "receptor", RE.bnd], false, 0⟩,
    RuleVal.fixed [toL "ptger1", toL "ptger2", toL "ptger3", toL "ptger4"], true),
   -- pattern: \bep3(alpha|c)?\s*[- ]\s*receptor|prostaglandin\s*[- ]\s*ep3alpha\s*[- ]\s*receptor\b
   (⟨alts [cats [RE.bnd, lit "ep3", opt (RE.grp 1 (alts [lit "alpha", RE.ch 'c'])), wsS, RE.cls false [CI.ch '-', CI.ch ' '], wsS, lit "receptor"], cats [lit "prostaglandin", wsS, RE.cls false [CI.ch '-', CI.ch ' '], wsS, lit "ep3alpha", wsS, RE.cls false [CI.ch '-', CI.ch ' '], wsS, lit "receptor", RE.bnd]], false, 1⟩,
    RuleVal.fixed [toL "ep3", toL "ptger3"], false),
   -- pattern: \bbeta2(\s*adrenoreceptor|\s*receptor|\s*-?\s*[- ]\s*adrenergic\s*[- ]\s*receptor|\s*[- ]\s*-?receptor)\b
   (⟨cats [RE.bnd, lit "beta2", RE.grp 1 (alts [cats [wsS, lit "adrenoreceptor"], cats [wsS, lit "receptor"], cats [wsS, opt (RE.ch '-'), wsS, RE.cls false [CI.ch '-', CI.ch ' '], wsS, lit "adrenergic", wsS, RE.cls false [CI.ch '-', CI.ch ' '], wsS, lit "receptor"], cats [wsS, RE.cls false [CI.ch '-', CI.ch ' '], wsS, opt (RE.ch '-'), lit "receptor"]]), RE.bnd], false, 1⟩,
    RuleVal.fixed [toL "adrb2"], false),
   -- pattern: \bbeta1\s*[- ]\s*adrenergic\s*[- ]\s*receptor|beta-?\s*[- ]\s*1\s*[- ]\s*adrenergic\s*[- ]\s*receptor|beta1\s*[- ]\s*receptor\b
   (⟨alts [cats [RE.bnd, lit "beta1", wsS, RE.cls false [CI.ch '-', CI.ch ' '], wsS, lit "adrenergic", wsS, RE.cls false [CI.ch '-', CI.ch ' '], wsS, lit "receptor"], cats [lit "beta", opt (RE.ch '-'), wsS, RE.cls false [CI.ch '-', CI.ch ' '], wsS, RE.ch '1', wsS, RE.cls false [CI.ch '-', CI.ch ' '], wsS, lit "adrenergic", wsS, RE.cls false [CI.ch '-', CI.ch ' '], wsS, lit "receptor"], cats [lit "beta1", wsS, RE.cls false [CI.ch '-', CI.ch ' '], wsS, lit "receptor", RE.bnd]], false, 0⟩,
    RuleVal.fixed [toL "adrb1"], false),
   -- pattern: \balpha1a(\s*-?\s*[- ]\s*adrenergic\s*[- ]\s*receptor|\s*receptor|\s*[- ]\s*-?adrenoreceptor)\b
   (⟨cats [RE.bnd, lit "alpha1a", RE.grp 1 (alts [cats [wsS, opt (RE.ch '-'), wsS, RE.cls false [CI.ch '-', CI.ch ' '], wsS, lit "adrenergic", wsS, RE.cls false [CI.ch '-', CI.ch ' '], wsS, lit "receptor"], cats [wsS, lit "receptor"], cats [wsS, RE.cls false [CI.ch '-', CI.ch ' '], wsS, opt (RE.ch '-'), lit "adrenoreceptor"]]), RE.bnd], false, 1⟩,
    RuleVal.fixed [toL "adra1a"], false),
   -- pattern: \balpha1b(\s*-?\s*[- ]\s*adrenergic\s*[- ]\s*receptor|\s*receptor|\s*[- ]\s*-?adrenoreceptor)\b
   (⟨cats [RE.bnd, lit "alpha1b", RE.grp 1 (alts [cats [wsS, opt (RE.ch '-'), wsS, RE.cls false [CI.ch '-', CI.ch ' '], wsS, lit "adrenergic", wsS, RE.cls false [CI.ch '-', CI.ch ' '], wsS, lit "receptor"], cats [wsS, lit "receptor"], cats [wsS, RE.cls false [CI.ch '-', CI.ch ' '], wsS, opt (RE.ch '-'), lit "adrenoreceptor"]]), RE.bnd], false, 1⟩,
    RuleVal.fixed [toL "adra1b"], false),
   -- pattern: \balpha1d(\s*-?\s*[- ]\s*adrenergic\s*[- ]\s*receptor|\s*receptor|\s*[- ]\s*-?adrenoreceptor)\b|\balpha1c\s*[- ]\s*receptor\b
   (⟨cats [RE.bnd, lit "alpha1", alts [cats [RE.ch 'd', RE.grp 1 (alts [cats [wsS, opt (RE.ch '-'), wsS, RE.cls false [CI.ch '-', CI.ch ' '], wsS, lit "adrenergic", wsS, RE.cls false [CI.ch '-', CI.ch ' '], wsS, lit "receptor"], cats [wsS, lit "receptor"], cats [wsS, RE.cls false [CI.ch '-', CI.ch ' '], wsS, opt (RE.ch '-'), lit "adrenoreceptor"]]), RE.bnd], cats [RE.ch 'c', wsS, RE.cls false [CI.ch '-', CI.ch ' '], wsS, lit "receptor", RE.bnd]]], false, 1⟩,
    RuleVal.fixed [toL "adra1d", toL "adra1a"], false),
   -- pattern: \balpha2a(\s*-?\s*[- ]\s*adrenergic\s*[- ]\s*receptor|\s*receptor)\b
   (⟨cats [RE.bnd, lit "alpha2a", RE.grp 1 (alts [cats [wsS, opt (RE.ch '-'), wsS, RE.cls false [CI.ch '-', CI.ch ' '], wsS, lit "adrenergic", wsS, RE.cls false [CI.ch '-', CI.ch ' '], wsS, lit "receptor"], cats [wsS, lit "receptor"]]), RE.bnd], false, 1⟩,
    RuleVal.fixed [toL "adra2a"], false)
  ]

/-- Entries 111.. of `RULES_CUSTOM` (table split for compilation). -/
def RULES_CUSTOM_c12 : List (PyPattern × RuleVal × Bool) :=
  [
   -- pattern: \balpha2b(\s*-?\s*[- ]\s*adrenergic\s*[- ]\s*receptor|\s*receptor)\b
   (⟨cats [RE.bnd, lit "alpha2b", RE.grp 1 (alts [cats [wsS, opt (RE.ch '-'), wsS, RE.cls false [CI.ch '-', CI.ch ' '], wsS, lit "adrenergic", wsS, RE.cls false [CI.ch '-', CI.ch ' '], wsS, lit "receptor"], cats [wsS, lit "receptor"]]), RE.bnd], false, 1⟩,
    RuleVal.fixed [toL "adra2b"], false),
   -- pattern: \balpha2c(\s*-?\s*[- ]\s*adrenergic\s*[- ]\s*receptor|\s*receptor)\b
   (⟨cats [RE.bnd, lit "alpha2c", RE.grp 1 (alts [cats [wsS, opt (RE.ch '-'), wsS, RE.cls false [CI.ch '-', CI.ch ' '], wsS, lit "adrenergic", wsS, RE.cls false [CI.ch '-', CI.ch ' '], wsS, lit "receptor"], cats [wsS, lit "receptor"]]), RE.bnd], false, 1⟩,
    RuleVal.fixed [toL "adra2c"], false),
   -- pattern: \bdopaminergic\s*[- ]\s*d2\s*[- ]\s*receptor|drd2(\s|\b)|dopamine\s*[- ]\s*receptor\s*[- ]\s*d2(l|s)?|dopamine\s*[- ]\s*d2(l|s)?\s*[- ]\s*receptor|d2(l|s)?\s*[- ]\s*receptor\b
   (⟨alts [cats [RE.bnd, lit "dopaminergic", wsS, RE.cls false [CI.ch '-', CI.ch ' '], wsS, lit "d2", wsS, RE.cls false [CI.ch '-', CI.ch ' '], wsS, lit "receptor"], cats [lit "drd2", RE.grp 1 (alts [wsC, RE.bnd])], cats [lit "dopamine", wsS, RE.cls false [CI.ch '-', CI.ch ' '], wsS, lit "receptor", wsS, RE.cls false [CI.ch '-', CI.ch ' '], wsS, lit "d2", opt (RE.grp 2 (RE.cls false [CI.ch 'l', CI.ch 's']))], cats [lit "dopamine", wsS, RE.cls false [CI.ch '-', CI.ch ' '], wsS, lit "d2", opt (RE.grp 3 (RE.cls false [CI.ch 'l', CI.ch 's'])), wsS, RE.cls false [CI.ch '-', CI.ch ' '], wsS, lit "receptor"], cats [lit "d2", opt (RE.grp 4 (RE.cls false [CI.ch 'l', CI.ch 's'])), wsS, RE.cls false [CI.ch '-', CI.ch ' '], wsS, lit "receptor", RE.bnd]], false, 4⟩,
    RuleVal.fixed [toL "drd2"], false),
   -- pattern: \bdopamine\s*[- ]\s*d3\s*[- ]\s*receptor|drd3\s*[- ]\s*receptor|d3\s*[- ]\s*receptor\b
   (⟨alts [cats [RE.bnd, lit "dopamine", wsS, RE.cls false [CI.ch '-', CI.ch ' '], wsS, lit "d3", wsS, RE.cls false [CI.ch '-', CI.ch ' '], wsS, lit "receptor"], cats [lit "drd3", wsS, RE.cls false [CI.ch '-', CI.ch ' '], wsS, lit "receptor"], cats [lit "d3", wsS, RE.cls false [CI.ch '-', CI.ch ' '], wsS, lit "receptor", RE.bnd]], false, 0⟩,
    RuleVal.fixed [toL "drd3"], false),
   -- pattern: \bd5\s*[- ]\s*dopamine\s*[- ]\s*receptor|d5\s*[- ]\s*receptor\b
   (⟨alts [cats [RE.bnd, lit "d5", wsS, RE.cls false [CI.ch '-', CI.ch ' '], wsS, lit "dopamine", wsS, RE.cls false [CI.ch '-', CI.ch ' '], wsS, lit "receptor"], cats [lit "d5", wsS, RE.cls false [CI.ch '-', CI.ch ' '], wsS, lit "receptor", RE.bnd]], false, 0⟩,
    RuleVal.fixed [toL "drd5"], false),
   -- pattern: \bd4(\.4)?\s*[- ]\s*receptor|dopamine\s*[- ]\s*receptor\s*[- ]\s*4(\.4)?|d4\s*[- ]\s*dopamine\s*[- ]\s*receptor\b
   (⟨alts [cats [RE.bnd, lit "d4", opt (RE.grp 1 (lit ".4")), wsS, RE.cls false [CI.ch '-', CI.ch ' '], wsS, lit "receptor"], cats [lit "dopamine", wsS, RE.cls false [CI.ch '-', CI.ch ' '], wsS, lit "receptor", wsS, RE.cls false [CI.ch '-', CI.ch ' '], wsS, RE.ch '4', opt (RE.grp 2 (lit ".4"))], cats [lit "d4", wsS, RE.cls false [CI.ch '-', CI.ch ' '], wsS, lit "dopamine", wsS, RE.cls false [CI.ch '-', CI.ch ' '], wsS, lit "receptor", RE.bnd]], false, 2⟩,
    RuleVal.fixed [toL "drd4"], false),
   -- pattern: \bd1\s*[- ]\s*dopamine\s*[- ]\s*receptor|d1\s*[- ]\s*receptor\b
   (⟨alts [cats [RE.bnd, lit "d1", wsS, RE.cls false [CI.ch '-', CI.ch ' '], wsS, lit "dopamine", wsS, RE.cls false [CI.ch '-', CI.ch ' '], wsS, lit "receptor"], cats [lit "d1", wsS, RE.cls false [CI.ch '-', CI.ch ' '], wsS, lit "receptor", RE.bnd]], false, 0⟩,
    RuleVal.fixed [toL "drd1"], false),
   -- pattern: \bdopamine\s*[- ]\s*receptor(s)?\b
   (⟨cats [RE.bnd, lit "dopamine", wsS, RE.cls false [CI.ch '-', CI.ch ' '], wsS, lit "receptor", opt (RE.grp 1 (RE.ch 's')), RE.bnd], false, 1⟩,
    RuleVal.fixed [toL "drd1", toL "drd2", toL "drd3", toL "drd4", toL "drd5"], true),
   -- pattern: \bliver\s*[- ]\s*x\s*[- ]\s*receptor(\b|\s*[- ]\s*)-?\s*[- ]\s*alpha|lxr\s*[- ]\s*alpha\s*[- ]\s*receptor\b
   (⟨alts [cats [RE.bnd, lit "liver", wsS, RE.cls false [CI.ch '-', CI.ch ' '], wsS, RE.ch 'x', wsS, RE.cls false [CI.ch '-', CI.ch ' '], wsS, lit "receptor", RE.grp 1 (alts [RE.bnd, cats [wsS, RE.cls false [CI.ch '-', CI.ch ' '], wsS]]), opt (RE.ch '-'), wsS, RE.cls false [CI.ch '-', CI.ch ' '], wsS, lit "alpha"], cats [lit "lxr", wsS, RE.cls false [CI.ch '-', CI.ch ' '], wsS, lit "alpha", wsS, RE.cls false [CI.ch '-', CI.ch ' '], wsS, lit "receptor", RE.bnd]], false, 1⟩,
    RuleVal.fixed [toL "nr1h3"], false),
   -- pattern: \bliver\s*[- ]\s*x\s*[- ]\s*receptor(\b|\s*[- ]\s*)-?\s*[- ]\s*beta|lxr\s*[- ]\s*beta\s*[- ]\s*receptor\b
   (⟨alts [cats [RE.bnd, lit "liver", wsS, RE.cls false [CI.ch '-', CI.ch ' '], wsS, RE.ch 'x', wsS, RE.cls false [CI.ch '-', CI.ch ' '], wsS, lit "receptor", RE.grp 1 (alts [RE.bnd, cats [wsS, RE.cls false [CI.ch '-', CI.ch ' '], wsS]]), opt (RE.ch '-'), wsS, RE.cls false [CI.ch '-', CI.ch ' '], wsS, lit "beta"], cats [lit "lxr", wsS, RE.cls false [CI.ch '-', CI.ch ' '], wsS, lit "beta", wsS, RE.cls false [CI.ch '-', CI.ch ' '], wsS, lit "receptor", RE.bnd]], false, 1⟩,
    RuleVal.fixed [toL "nr1h2"], false)
  ]

/-- Entries 121.. of `RULES_CUSTOM` (table split for compilation). -/
def RULES_CUSTOM_c13 : List (PyPattern × RuleVal × Bool) :=
  [
   -- pattern: \bppar(alpha|\s*[- ]\s*alpha)\s*[- ]\s*receptor|peroxisome\s*[- ]\s*proliferator\s*[- ]\s*activated\s*[- ]\s*receptor\s*[- ]\s*alpha\b
   (⟨alts [cats [RE.bnd, lit "ppar", RE.grp 1 (alts [lit "alpha", cats [wsS, RE.cls false [CI.ch '-', CI.ch ' '], wsS, lit "alpha"]]), wsS, RE.cls false [CI.ch '-', CI.ch ' '], wsS, lit "receptor"], cats [lit "peroxisome", wsS, RE.cls false [CI.ch '-', CI.ch ' '], wsS, lit "proliferator", wsS, RE.cls false [CI.ch '-', CI.ch ' '], wsS, lit "activated", wsS, RE.cls false [CI.ch '-', CI.ch ' '], wsS, lit "receptor", wsS, RE.cls false [CI.ch '-', CI.ch ' '], wsS, lit "alpha", RE.bnd]], false, 1⟩,
    RuleVal.fixed [toL "ppara"], false),
   -- pattern: \bppar(gamma|\s*[- ]\s*-?\s*[- ]\s*gamma)\s*[- ]\s*receptor|peroxisome\s*[- ]\s*proliferator\s*[- ]\s*-?\s*[- ]\s*activated\s*[- ]\s*receptor\s*[- ]\s*gamma\b
   (⟨alts [cats [RE.bnd, lit "ppar", RE.grp 1 (alts [lit "gamma", cats [wsS, RE.cls false [CI.ch '-', CI.ch ' '], wsS, opt (RE.ch '-'), wsS, RE.cls false [CI.ch '-', CI.ch ' '], wsS, lit "gamma"]]), wsS, RE.cls false [CI.ch '-', CI.ch ' '], wsS, lit "receptor"], cats [lit "peroxisome", wsS, RE.cls false [CI.ch '-', CI.ch ' '], wsS, lit "proliferator", wsS, RE.cls false [CI.ch '-', CI.ch ' '], wsS, opt (RE.ch '-'), wsS, RE.cls false [CI.ch '-', CI.ch ' '], wsS, lit "activated", wsS, RE.cls false [CI.ch '-', CI.ch ' '], wsS, lit "receptor", wsS, RE.cls false [CI.ch '-', CI.ch ' '], wsS, lit "gamma", RE.bnd]], false, 1⟩,
    RuleVal.fixed [toL "pparg"], false),
   -- pattern: \bppar\s*[- ]\s*delta\s*[- ]\s*receptor|ppardelta\s*[- ]\s*receptor\b
   (⟨alts [cats [RE.bnd, lit "ppar", wsS, RE.cls false [CI.ch '-', CI.ch ' '], wsS, lit "delta", wsS, RE.cls false [CI.ch '-', CI.ch ' '], wsS, lit "receptor"], cats [lit "ppardelta", wsS, RE.cls false [CI.ch '-', CI.ch ' '], wsS, lit "receptor", RE.bnd]], false, 0⟩,
    RuleVal.fixed [toL "ppard"], false),
   -- pattern: \bretinoid\s*[- ]\s*x\s*[- ]\s*receptor(\b|\s*[- ]\s*)-?\s*[- ]\s*alpha|rxr\s*[- ]\s*alpha\b
   (⟨alts [cats [RE.bnd, lit "retinoid", wsS, RE.cls false [CI.ch '-', CI.ch ' '], wsS, RE.ch 'x', wsS, RE.cls false [CI.ch '-', CI.ch ' '], wsS, lit "receptor", RE.grp 1 (alts [RE.bnd, cats [wsS, RE.cls false [CI.ch '-', CI.ch ' '], wsS]]), opt (RE.ch '-'), wsS, RE.cls false [CI.ch '-', CI.ch ' '], wsS, lit "alpha"], cats [lit "rxr", wsS, RE.cls false [CI.ch '-', CI.ch ' '], wsS, lit "alpha", RE.bnd]], false, 1⟩,
    RuleVal.fixed [toL "rxra"], false),
   -- pattern: \bretinoid\s*[- ]\s*x\s*[- ]\s*receptor(\b|\s*[- ]\s*)-?\s*[- ]\s*beta|rxr\s*[- ]\s*beta\b
   (⟨alts [cats [RE.bnd, lit "retinoid", wsS, RE.cls false [CI.ch '-', CI.ch ' '], wsS, RE.ch 'x', wsS, RE.cls false [CI.ch '-', CI.ch ' '], wsS, lit "receptor", RE.grp 1 (alts [RE.bnd, cats [wsS, RE.cls false [CI.ch '-', CI.ch ' '], wsS]]), opt (RE.ch '-'), wsS, RE.cls false [CI.ch '-', CI.ch ' '], wsS, lit "beta"], cats [lit "rxr", wsS, RE.cls false [CI.ch '-', CI.ch ' '], wsS, lit "beta", RE.bnd]], false, 1⟩,
    RuleVal.fixed [toL "rxrb"], false),
   -- pattern: \bretinoid\s*[- ]\s*x\s*[- ]\s*receptor(\b|\s*[- ]\s*)-?\s*[- ]\s*gamma|rxr\s*[- ]\s*gamma\b
   (⟨alts [cats [RE.bnd, lit "retinoid", wsS, RE.cls false [CI.ch '-', CI.ch ' '], wsS, RE.ch 'x', wsS, RE.cls false [CI.ch '-', CI.ch ' '], wsS, lit "receptor", RE.grp 1 (alts [RE.bnd, cats [wsS, RE.cls false [CI.ch '-', CI.ch ' '], wsS]]), opt (RE.ch '-'), wsS, RE.cls false [CI.ch '-', CI.ch ' '], wsS, lit "gamma"], cats [lit "rxr", wsS, RE.cls false [CI.ch '-', CI.ch ' '], wsS, lit "gamma", RE.bnd]], false, 1⟩,
    RuleVal.fixed [toL "rxrg"], false),
   -- pattern: \bretinoic\s*[- ]\s*acid\s*[- ]\s*receptor(\b|\s*[- ]\s*)-?\s*[- ]\s*gamma\b
   (⟨cats [RE.bnd, lit "retinoic", wsS, RE.cls false [CI.ch '-', CI.ch ' '], wsS, lit "acid", wsS, RE.cls false [CI.ch '-', CI.ch ' '], wsS, lit "receptor", RE.grp 1 (alts [RE.bnd, cats [wsS, RE.cls false [CI.ch '-', CI.ch ' '], wsS]]), opt (RE.ch '-'), wsS, RE.cls false [CI.ch '-', CI.ch ' '], wsS, lit "gamma", RE.bnd], false, 1⟩,
    RuleVal.fixed [toL "rarg"], false),
   -- pattern: \bestrogen\s*[- ]\s*related\s*[- ]\s*receptor\s*[- ]\s*gamma\b
   (⟨cats [RE.bnd, lit "estrogen", wsS, RE.cls false [CI.ch '-', CI.ch ' '], wsS, lit "related", wsS, RE.cls false [CI.ch '-', CI.ch ' '], wsS, lit "receptor", wsS, RE.cls false [CI.ch '-', CI.ch ' '], wsS, lit "gamma", RE.bnd], false, 0⟩,
    RuleVal.fixed [toL "esrrg"], false),
   -- pattern: \bthyroid\s*[- ]\s*hormone\s*[- ]\s*receptor\s*[- ]\s*beta(\s*-?\s*1)?\b
   (⟨cats [RE.bnd, lit "thyroid", wsS, RE.cls false [CI.ch '-', CI.ch ' '], wsS, lit "hormone", wsS, RE.cls false [CI.ch '-', CI.ch ' '], wsS, lit "receptor", wsS, RE.cls false [CI.ch '-', CI.ch ' '], wsS, lit "beta", opt (RE.grp 1 (cats [wsS, opt (RE.ch '-'), wsS, RE.ch '1'])), RE.bnd], false, 1⟩,
    RuleVal.fixed [toL "thrb"], false),
   -- pattern: \bthyroid\s*[- ]\s*hormone\s*[- ]\s*receptor\s*[- ]\s*alpha(\s*-?\s*1)?\b
   (⟨cats [RE.bnd, lit "thyroid", wsS, RE.cls false [CI.ch '-', CI.ch ' '], wsS, lit "hormone", wsS, RE.cls false [CI.ch '-', CI.ch ' '], wsS, lit "receptor", wsS, RE.cls false [CI.ch '-', CI.ch ' '], wsS, lit "alpha", opt (RE.grp 1 (cats [wsS, opt (RE.ch '-'), wsS, RE.ch '1'])), RE.bnd], false, 1⟩,
    RuleVal.fixed [toL "thra"], false)
  ]

/-- Entries 131.. of `RULES_CUSTOM` (table split for compilation). -/
def RULES_CUSTOM_c14 : List (PyPattern × RuleVal × Bool) :=
  [
   -- pattern: \bglucagon\s*[- ]\s*receptor\b
   (⟨cats [RE.bnd, lit "glucagon", wsS, RE.cls false [CI.ch '-', CI.ch ' '], wsS, lit "receptor", RE.bnd], false, 0⟩,
    RuleVal.fixed [toL "gcgr"], false),
   -- pattern: \bglp1\s*[- ]\s*receptor\b
   (⟨cats [RE.bnd, lit "glp1", wsS, RE.cls false [CI.ch '-', CI.ch ' '], wsS, lit "receptor", RE.bnd], false, 0⟩,
    RuleVal.fixed [toL "glp1r"], false),
   -- pattern: \bgipr\s*[- ]\s*receptor\b
   (⟨cats [RE.bnd, lit "gipr", wsS, RE.cls false [CI.ch '-', CI.ch ' '], wsS, lit "receptor", RE.bnd], false, 0⟩,
    RuleVal.fixed [toL "gipr"], false),
   -- pattern: \bcd69\s*[- ]\s*receptor\b
   (⟨cats [RE.bnd, lit "cd69", wsS, RE.cls false [CI.ch '-', CI.ch ' '], wsS, lit "receptor", RE.bnd], false, 0⟩,
    RuleVal.fixed [toL "cd69"], false),
   -- pattern: \b(alpha|nicotinic)\s*[- ]\s*(\-?\s*)7\s*[- ]\s*(nicotinic\s*[- ]\s*)?acetylcholine\s*[- ]\s*receptor|chrna7\b
   (⟨alts [cats [RE.bnd, RE.grp 1 (alts [lit "alpha", lit "nicotinic"]), wsS, RE.cls false [CI.ch '-', CI.ch ' '], wsS, RE.grp 2 (cats [opt (RE.ch '-'), wsS]), RE.ch '7', wsS, RE.cls false [CI.ch '-', CI.ch ' '], wsS, opt (RE.grp 3 (cats [lit "nicotinic", wsS, RE.cls false [CI.ch '-', CI.ch ' '], wsS])), lit "acetylcholine", wsS, RE.cls false [CI.ch '-', CI.ch ' '], wsS, lit "receptor"], cats [lit "chrna7", RE.bnd]], false, 3⟩,
    RuleVal.fixed [toL "chrna7", toL "nachr alpha7"], false),
   -- pattern: \bc3a\s*[- ]\s*receptor\b
   (⟨cats [RE.bnd, lit "c3a", wsS, RE.cls false [CI.ch '-', CI.ch ' '], wsS, lit "receptor", RE.bnd], false, 0⟩,
    RuleVal.fixed [toL "c3ar1"], false),
   -- pattern: \bgp6\s*[- ]\s*receptor\b
   (⟨cats [RE.bnd, lit "gp6", wsS, RE.cls false [CI.ch '-', CI.ch ' '], wsS, lit "receptor", RE.bnd], false, 0⟩,
    RuleVal.fixed [toL "gp6"], false),
   -- pattern: \bppar(gamma|\s*[- ]\s*-?\s*[- ]\s*gamma)\s*[- ]\s*receptor\b
   (⟨cats [RE.bnd, lit "ppar", RE.grp 1 (alts [lit "gamma", cats [wsS, RE.cls false [CI.ch '-', CI.ch ' '], wsS, opt (RE.ch '-'), wsS, RE.cls false [CI.ch '-', CI.ch ' '], wsS, lit "gamma"]]), wsS, RE.cls false [CI.ch '-', CI.ch ' '], wsS, lit "receptor", RE.bnd], false, 1⟩,
    RuleVal.fixed [toL "pparg"], false),
   -- pattern: \bcalcium\s*[- ]\s*sensing\s*[- ]\s*receptor\b
   (⟨cats [RE.bnd, lit "calcium", wsS, RE.cls false [CI.ch '-', CI.ch ' '], wsS, lit "sensing", wsS, RE.cls false [CI.ch '-', CI.ch ' '], wsS, lit "receptor", RE.bnd], false, 0⟩,
    RuleVal.fixed [toL "casr"], false),
   -- pattern: \bip3\s*[- ]\s*receptor\b
   (⟨cats [RE.bnd, lit "ip3", wsS, RE.cls false [CI.ch '-', CI.ch ' '], wsS, lit "receptor", RE.bnd], false, 0⟩,
    RuleVal.fixed [toL "itpr1", toL "itpr2", toL "itpr3"], true)
  ]

/-- Entries 141.. of `RULES_CUSTOM` (table split for compilation). -/
def RULES_CUSTOM_c15 : List (PyPattern × RuleVal × Bool) :=
  [
   -- pattern: \bthromboxane\s*[- ]\s*a2\s*[- ]\s*receptor(\s*alpha|\s*beta)?|tp(alpha|beta)?\s*[- ]\s*receptor\b
   (⟨alts [cats [RE.bnd, lit "thromboxane", wsS, RE.cls false [CI.ch '-', CI.ch ' '], wsS, lit "a2", wsS, RE.cls false [CI.ch '-', CI.ch ' '], wsS, lit "receptor", opt (RE.grp 1 (alts [cats [wsS, lit "alpha"], cats [wsS, lit "beta"]]))], cats [lit "tp", opt (RE.grp 2 (alts [lit "alpha", lit "beta"])), wsS, RE.cls false [CI.ch '-', CI.ch ' '], wsS, lit "receptor", RE.bnd]], false, 2⟩,
    RuleVal.fixed [toL "tbxa2r", toL "tpalpha", toL "tpbeta"], false),
   -- pattern: \bc5a\s*[- ]\s*receptor\b
   (⟨cats [RE.bnd, lit "c5a", wsS, RE.cls false [CI.ch '-', CI.ch ' '], wsS, lit "receptor", RE.bnd], false, 0⟩,
    RuleVal.fixed [toL "c5ar1", toL "c5ar2"], true),
   -- pattern: \bebi2\s*[- ]\s*receptor\b
   (⟨cats [RE.bnd, lit "ebi2", wsS, RE.cls false [CI.ch '-', CI.ch ' '], wsS, lit "receptor", RE.bnd], false, 0⟩,
    RuleVal.fixed [toL "gpr183", toL "ebi2"], false),
   -- pattern: \bapj\s*[- ]\s*receptor\b
   (⟨cats [RE.bnd, lit "apj", wsS, RE.cls false [CI.ch '-', CI.ch ' '], wsS, lit "receptor", RE.bnd], false, 0⟩,
    RuleVal.fixed [toL "aplnr"], false),
   -- pattern: \bpar2\s*[- ]\s*receptor|protease\s*[- ]\s*activated\s*[- ]\s*receptor\s*[- ]\s*1\b
   (⟨alts [cats [RE.bnd, lit "par2", wsS, RE.cls false [CI.ch '-', CI.ch ' '], wsS, lit "receptor"], cats [lit "protease", wsS, RE.cls false [CI.ch '-', CI.ch ' '], wsS, lit "activated", wsS, RE.cls false [CI.ch '-', CI.ch ' '], wsS, lit "receptor", wsS, RE.cls false [CI.ch '-', CI.ch ' '], wsS, RE.ch '1', RE.bnd]], false, 0⟩,
    RuleVal.fixed [toL "f2rl1", toL "f2r"], false),
   -- pattern: \bpar1\s*[- ]\s*receptor|protease\s*[- ]\s*activated\s*[- ]\s*receptor\s*[- ]\s*1\b
   (⟨alts [cats [RE.bnd, lit "par1", wsS, RE.cls false [CI.ch '-', CI.ch ' '], wsS, lit "receptor"], cats [lit "protease", wsS, RE.cls false [CI.ch '-', CI.ch ' '], wsS, lit "activated", wsS, RE.cls false [CI.ch '-', CI.ch ' '], wsS, lit "receptor", wsS, RE.cls false [CI.ch '-', CI.ch ' '], wsS, RE.ch '1', RE.bnd]], false, 0⟩,
    RuleVal.fixed [toL "f2r"], false),
   -- pattern: \bendothelin\s*[- ]\s*receptor\s*[- ]\s*type\s*[- ]\s*a|et-?a\s*[- ]\s*receptor|eta\s*[- ]\s*receptor\b
   (⟨alts [cats [RE.bnd, lit "endothelin", wsS, RE.cls false [CI.ch '-', CI.ch ' '], wsS, lit "receptor", wsS, RE.cls false [CI.ch '-', CI.ch ' '], wsS, lit "type", wsS, RE.cls false [CI.ch '-', CI.ch ' '], wsS, RE.ch 'a'], cats [lit "et", opt (RE.ch '-'), RE.ch 'a', wsS, RE.cls false [CI.ch '-', CI.ch ' '], wsS, lit "receptor"], cats [lit "eta", wsS, RE.cls false [CI.ch '-', CI.ch ' '], wsS, lit "receptor", RE.bnd]], false, 0⟩,
    RuleVal.fixed [toL "ednra"], false),
   -- pattern: \bendothelin\s*[- ]\s*b\s*[- ]\s*receptor|et-?b\s*[- ]\s*receptor|ednrb\b
   (⟨alts [cats [RE.bnd, lit "endothelin", wsS, RE.cls false [CI.ch '-', CI.ch ' '], wsS, RE.ch 'b', wsS, RE.cls false [CI.ch '-', CI.ch ' '], wsS, lit "receptor"], cats [lit "et", opt (RE.ch '-'), RE.ch 'b', wsS, RE.cls false [CI.ch '-', CI.ch ' '], wsS, lit "receptor"], cats [lit "ednrb", RE.bnd]], false, 0⟩,
    RuleVal.fixed [toL "ednrb"], false),
   -- pattern: \bepha2(\s*-?\s*[- ]\s*fc)?\s*[- ]\s*receptor\b
   (⟨cats [RE.bnd, lit "epha2", opt (RE.grp 1 (cats [wsS, opt (RE.ch '-'), wsS, RE.cls false [CI.ch '-', CI.ch ' '], wsS, lit "fc"])), wsS, RE.cls false [CI.ch '-', CI.ch ' '], wsS, lit "receptor", RE.bnd], false, 1⟩,
    RuleVal.fixed [toL "epha2"], false),
   -- pattern: \bvegf(\s*receptor\s*2|\s*receptor\s*2\s*\(kdr\))|kdr\b
   (⟨alts [cats [RE.bnd, lit "vegf", RE.grp 1 (alts [cats [wsS, lit "receptor", wsS, RE.ch '2'], cats [wsS, lit "receptor", wsS, RE.ch '2', wsS, lit "(kdr)"]])], cats [lit "kdr", RE.bnd]], false, 1⟩,
    RuleVal.fixed [toL "kdr"], false)
  ]

/-- Entries 151.. of `RULES_CUSTOM` (table split for compilation). -/
def RULES_CUSTOM_c16 : List (PyPattern × RuleVal × Bool) :=
  [
   -- pattern: \begf\s*[- ]\s*receptor|epidermal\s*[- ]\s*growth\s*[- ]\s*factor\s*[- ]\s*receptor\b
   (⟨alts [cats [RE.bnd, lit "egf", wsS, RE.cls false [CI.ch '-', CI.ch ' '], wsS, lit "receptor"], cats [lit "epidermal", wsS, RE.cls false [CI.ch '-', CI.ch ' '], wsS, lit "growth", wsS, RE.cls false [CI.ch '-', CI.ch ' '], wsS, lit "factor", wsS, RE.cls false [CI.ch '-', CI.ch ' '], wsS, lit "receptor", RE.bnd]], false, 0⟩,
    RuleVal.fixed [toL "egfr"], false),
   -- pattern: \bpdgf\s*[- ]\s*receptor\b|platelet\s*[- ]\s*derived\s*[- ]\s*growth\s*[- ]\s*factor\s*[- ]\s*receptor\s*[- ]\s*beta\b
   (⟨alts [cats [RE.bnd, lit "pdgf", wsS, RE.cls false [CI.ch '-', CI.ch ' '], wsS, lit "receptor", RE.bnd], cats [lit "platelet", wsS, RE.cls false [CI.ch '-', CI.ch ' '], wsS, lit "derived", wsS, RE.cls false [CI.ch '-', CI.ch ' '], wsS, lit "growth", wsS, RE.cls false [CI.ch '-', CI.ch ' '], wsS, lit "factor", wsS, RE.cls false [CI.ch '-', CI.ch ' '], wsS, lit "receptor", wsS, RE.cls false [CI.ch '-', CI.ch ' '], wsS, lit "beta", RE.bnd]], false, 0⟩,
    RuleVal.fixed [toL "pdgfrb"], false),
   -- pattern: \binsulin\s*[- ]\s*receptor\b
   (⟨cats [RE.bnd, lit "insulin", wsS, RE.cls false [CI.ch '-', CI.ch ' '], wsS, lit "receptor", RE.bnd], false, 0⟩,
    RuleVal.fixed [toL "insr"], false),
   -- pattern: \bigf-?1\s*[- ]\s*receptor\b
   (⟨cats [RE.bnd, lit "igf", opt (RE.ch '-'), RE.ch '1', wsS, RE.cls false [CI.ch '-', CI.ch ' '], wsS, lit "receptor", RE.bnd], false, 0⟩,
    RuleVal.fixed [toL "igf1r"], false),
   -- pattern: \bdat\s*[- ]\s*receptor\b
   (⟨cats [RE.bnd, lit "dat", wsS, RE.cls false [CI.ch '-', CI.ch ' '], wsS, lit "receptor", RE.bnd], false, 0⟩,
    RuleVal.fixed [toL "slc6a3"], false),
   -- pattern: \bcocaine\s*[- ]\s*receptor\b
   (⟨cats [RE.bnd, lit "cocaine", wsS, RE.cls false [CI.ch '-', CI.ch ' '], wsS, lit "receptor", RE.bnd], false, 0⟩,
    RuleVal.fixed [toL "slc6a3", toL "sigmar1"], true),
   -- pattern: \bnet\s*[- ]\s*receptor\b
   (⟨cats [RE.bnd, lit "net", wsS, RE.cls false [CI.ch '-', CI.ch ' '], wsS, lit "receptor", RE.bnd], false, 0⟩,
    RuleVal.fixed [toL "slc6a2"], false),
   -- pattern: \b5htt\s*[- ]\s*receptor|sert\s*[- ]\s*receptor\b
   (⟨alts [cats [RE.bnd, lit "5htt", wsS, RE.cls false [CI.ch '-', CI.ch ' '], wsS, lit "receptor"], cats [lit "sert", wsS, RE.cls false [CI.ch '-', CI.ch ' '], wsS, lit "receptor", RE.bnd]], false, 0⟩,
    RuleVal.fixed [toL "slc6a4"], false),
   -- pattern: \bgat1\s*[- ]\s*receptor\b
   (⟨cats [RE.bnd, lit "gat1", wsS, RE.cls false [CI.ch '-', CI.ch ' '], wsS, lit "receptor", RE.bnd], false, 0⟩,
    RuleVal.fixed [toL "slc6a1"], false),
   -- pattern: \bherg\s*[- ]\s*receptor|erg\s*[- ]\s*receptor\b
   (⟨alts [cats [RE.bnd, lit "herg", wsS, RE.cls false [CI.ch '-', CI.ch ' '], wsS, lit "receptor"], cats [lit "erg", wsS, RE.cls false [CI.ch '-', CI.ch ' '], wsS, lit "receptor", RE.bnd]], false, 0⟩,
    RuleVal.fixed [toL "kcnh2"], false)
  ]

/-- Entries 161.. of `RULES_CUSTOM` (table split for compilation). -/
def RULES_CUSTOM_c17 : List (PyPattern × RuleVal × Bool) :=
  [
   -- pattern: \bgabac\s*[- ]\s*rho(\s*-?\s*)1\s*[- ]\s*receptor\b
   (⟨cats [RE.bnd, lit "gabac", wsS, RE.cls false [CI.ch '-', CI.ch ' '], wsS, lit "rho", RE.grp 1 (cats [wsS, opt (RE.ch '-'), wsS]), RE.ch '1', wsS, RE.cls false [CI.ch '-', CI.ch ' '], wsS, lit "receptor", RE.bnd], false, 1⟩,
    RuleVal.fixed [toL "gabrr1"], false),
   -- pattern: \bgabaalpha2\s*[- ]\s*receptor\b|alpha\s*[- ]\s*5\s*[- ]\s*gaba\s*[- ]\s*-?\s*[- ]\s*a\s*[- ]\s*receptor\b
   (⟨alts [cats [RE.bnd, lit "gabaalpha2", wsS, RE.cls false [CI.ch '-', CI.ch ' '], wsS, lit "receptor", RE.bnd], cats [lit "alpha", wsS, RE.cls false [CI.ch '-', CI.ch ' '], wsS, RE.ch '5', wsS, RE.cls false [CI.ch '-', CI.ch ' '], wsS, lit "gaba", wsS, RE.cls false [CI.ch '-', CI.ch ' '], wsS, opt (RE.ch '-'), wsS, RE.cls false [CI.ch '-', CI.ch ' '], wsS, RE.ch 'a', wsS, RE.cls false [CI.ch '-', CI.ch ' '], wsS, lit "receptor", RE.bnd]], false, 0⟩,
    RuleVal.fixed [toL "gabra2", toL "gabra5"], true),
   -- pattern: \bglycine\s*[- ]\s*receptor\s*[- ]\s*subunit\s*[- ]\s*alpha\s*[- ]\s*-?\s*1|glycine\s*[- ]\s*receptor\s*[- ]\s*alpha\s*[- ]\s*1\b
   (⟨alts [cats [RE.bnd, lit "glycine", wsS, RE.cls false [CI.ch '-', CI.ch ' '], wsS, lit "receptor", wsS, RE.cls false [CI.ch '-', CI.ch ' '], wsS, lit "subunit", wsS, RE.cls false [CI.ch '-', CI.ch ' '], wsS, lit "alpha", wsS, RE.cls false [CI.ch '-', CI.ch ' '], wsS, opt (RE.ch '-'), wsS, RE.ch '1'], cats [lit "glycine", wsS, RE.cls false [CI.ch '-', CI.ch ' '], wsS, lit "receptor", wsS, RE.cls false [CI.ch '-', CI.ch ' '], wsS, lit "alpha", wsS, RE.cls false [CI.ch '-', CI.ch ' '], wsS, RE.ch '1', RE.bnd]], false, 0⟩,
    RuleVal.fixed [toL "glra1"], false)
  ]

/-- Full `RULES_CUSTOM` table of the source, in order. -/
def RULES_CUSTOM : List (PyPattern × RuleVal × Bool) :=
  RULES_CUSTOM_c1 ++ RULES_CUSTOM_c2 ++ RULES_CUSTOM_c3 ++ RULES_CUSTOM_c4 ++ RULES_CUSTOM_c5 ++ RULES_CUSTOM_c6 ++ RULES_CUSTOM_c7 ++ RULES_CUSTOM_c8 ++ RULES_CUSTOM_c9 ++ RULES_CUSTOM_c10 ++ RULES_CUSTOM_c11 ++ RULES_CUSTOM_c12 ++ RULES_CUSTOM_c13 ++ RULES_CUSTOM_c14 ++ RULES_CUSTOM_c15 ++ RULES_CUSTOM_c16 ++ RULES_CUSTOM_c17

/-- Entries 1.. of `RULES_ION_CHANNELS` (table split for compilation). -/
def RULES_ION_CHANNELS_c1 : List (PyPattern × RuleVal × Bool) :=
  [
   -- pattern: \b(?:na\s*v|nav)\s*1\s*\.\s*7\b|\bnav\s*(?:-|\s|/)\s*1\s*\.\s*7(?:\s*(?:-|\s|/)\s*(?:sodium|ion)\s*(?:-|\s|/)\s*channel)?\b
   (⟨cats [RE.bnd, lit "na", alts [cats [alts [cats [wsS, RE.ch 'v'], RE.ch 'v'], wsS, RE.ch '1', wsS, RE.ch '.', wsS, RE.ch '7', RE.bnd], cats [RE.ch 'v', wsS, RE.cls false [CI.ch '-', CI.space, CI.ch '/'], wsS, RE.ch '1', wsS, RE.ch '.', wsS, RE.ch '7', opt (cats [wsS, RE.cls false [CI.ch '-', CI.space, CI.ch '/'], wsS, alts [lit "sodium", lit "ion"], wsS, RE.cls false [CI.ch '-', CI.space, CI.ch '/'], wsS, lit "channel"]), RE.bnd]]], false, 0⟩,
    RuleVal.fixed [toL "scn9a", toL "nav1.7"], false),
   -- pattern: \b(?:na\s*v|nav)\s*1\s*\.\s*8\b|\bvoltage\s*(?:-|\s|/)\s*gated\s*(?:-|\s|/)\s*na\s*(?:-|\s|/)\s*channel\s*(?:-|\s|/)\s*1\s*\.\s*8\b
   (⟨cats [RE.bnd, alts [cats [lit "na", alts [cats [wsS, RE.ch 'v'], RE.ch 'v'], wsS, RE.ch '1', wsS, RE.ch '.', wsS, RE.ch '8', RE.bnd], cats [lit "voltage", wsS, RE.cls false [CI.ch '-', CI.space, CI.ch '/'], wsS, lit "gated", wsS, RE.cls false [CI.ch '-', CI.space, CI.ch '/'], wsS, lit "na", wsS, RE.cls false [CI.ch '-', CI.space, CI.ch '/'], wsS, lit "channel", wsS, RE.cls false [CI.ch '-', CI.space, CI.ch '/'], wsS, RE.ch '1', wsS, RE.ch '.', wsS, RE.ch '8', RE.bnd]]], false, 0⟩,
    RuleVal.fixed [toL "scn10a", toL "nav1.8"], false),
   -- pattern: \b(?:na\s*v|nav)\s*1\s*\.\s*5\b
   (⟨cats [RE.bnd, lit "na", alts [cats [wsS, RE.ch 'v'], RE.ch 'v'], wsS, RE.ch '1', wsS, RE.ch '.', wsS, RE.ch '5', RE.bnd], false, 0⟩,
    RuleVal.fixed [toL "scn5a", toL "nav1.5"], false),
   -- pattern: \b(?:na\s*v|nav)\s*1\s*\.\s*3\b|\bnav\s*(?:-|\s|/)\s*1\s*\.\s*3\s*(?:-|\s|/)\s*sodium\s*(?:-|\s|/)\s*channel\b
   (⟨cats [RE.bnd, lit "na", alts [cats [alts [cats [wsS, RE.ch 'v'], RE.ch 'v'], wsS, RE.ch '1', wsS, RE.ch '.', wsS, RE.ch '3', RE.bnd], cats [RE.ch 'v', wsS, RE.cls false [CI.ch '-', CI.space, CI.ch '/'], wsS, RE.ch '1', wsS, RE.ch '.', wsS, RE.ch '3', wsS, RE.cls false [CI.ch '-', CI.space, CI.ch '/'], wsS, lit "sodium", wsS, RE.cls false [CI.ch '-', CI.space, CI.ch '/'], wsS, lit "channel", RE.bnd]]], false, 0⟩,
    RuleVal.fixed [toL "scn3a", toL "nav1.3"], false),
   -- pattern: \b(?:na\s*v|nav)\s*1\s*\.\s*2\b|\bsodium\s*(?:-|\s|/)\s*channel\s*(?:-|\s|/)\s*type\s*(?:-|\s|/)\s*ii?a\b
   (⟨cats [RE.bnd, alts [cats [lit "na", alts [cats [wsS, RE.ch 'v'], RE.ch 'v'], wsS, RE.ch '1', wsS, RE.ch '.', wsS, RE.ch '2', RE.bnd], cats [lit "sodium", wsS, RE.cls false [CI.ch '-', CI.space, CI.ch '/'], wsS, lit "channel", wsS, RE.cls false [CI.ch '-', CI.space, CI.ch '/'], wsS, lit "type", wsS, RE.cls false [CI.ch '-', CI.space, CI.ch '/'], wsS, RE.ch 'i', opt (RE.ch 'i'), RE.ch 'a', RE.bnd]]], false, 0⟩,
    RuleVal.fixed [toL "scn2a", toL "nav1.2"], false),
   -- pattern: \bcav\s*(?:-|\s|/)\s*1\s*\.\s*2\s*(?:-|\s|/)\s*channel\b
   (⟨cats [RE.bnd, lit "cav", wsS, RE.cls false [CI.ch '-', CI.space, CI.ch '/'], wsS, RE.ch '1', wsS, RE.ch '.', wsS, RE.ch '2', wsS, RE.cls false [CI.ch '-', CI.space, CI.ch '/'], wsS, lit "channel", RE.bnd], false, 0⟩,
    RuleVal.fixed [toL "cacna1c", toL "cav1.2"], false),
   -- pattern: \bl\s*(?:-|\s|/)\s*type\s*(?:-|\s|/)\s*(?:\[?\s*ca2\+\s*\]?\s*(?:-|\s|/)\s*)?calcium\s*(?:-|\s|/)\s*channel(?:\s*(?:-|\s|/)\s*receptor)?\b
   (⟨cats [RE.bnd, RE.ch 'l', wsS, RE.cls false [CI.ch '-', CI.space, CI.ch '/'], wsS, lit "type", wsS, RE.cls false [CI.ch '-', CI.space, CI.ch '/'], wsS, opt (cats [opt (RE.ch '['), wsS, lit "ca2+", wsS, opt (RE.ch ']'), wsS, RE.cls false [CI.ch '-', CI.space, CI.ch '/'], wsS]), lit "calcium", wsS, RE.cls false [CI.ch '-', CI.space, CI.ch '/'], wsS, lit "channel", opt (cats [wsS, RE.cls false [CI.ch '-', CI.space, CI.ch '/'], wsS, lit "receptor"]), RE.bnd], false, 0⟩,
    RuleVal.fixed [toL "cacna1c", toL "cacna1d"], true),
   -- pattern: \bcav\s*(?:-|\s|/)\s*2\s*\.\s*2\s*(?:-|\s|/)\s*channel\b|\bn\s*(?:-|\s|/)\s*type\s*(?:-|\s|/)\s*calcium\s*(?:-|\s|/)\s*channels?\b
   (⟨cats [RE.bnd, alts [cats [lit "cav", wsS, RE.cls false [CI.ch '-', CI.space, CI.ch '/'], wsS, RE.ch '2', wsS, RE.ch '.', wsS, RE.ch '2', wsS, RE.cls false [CI.ch '-', CI.space, CI.ch '/'], wsS, lit "channel", RE.bnd], cats [RE.ch 'n', wsS, RE.cls false [CI.ch '-', CI.space, CI.ch '/'], wsS, lit "type", wsS, RE.cls false [CI.ch '-', CI.space, CI.ch '/'], wsS, lit "calcium", wsS, RE.cls false [CI.ch '-', CI.space, CI.ch '/'], wsS, lit "channel", opt (RE.ch 's'), RE.bnd]]], false, 0⟩,
    RuleVal.fixed [toL "cacna1b", toL "cav2.2"], false),
   -- pattern: \bcav\s*(?:-|\s|/)\s*3\s*\.\s*1\s*(?:-|\s|/)\s*channel\b|\balpha\s*(?:-|\s|/)\s*-?1g\s*(?:-|\s|/)\s*t\s*(?:-|\s|/)\s*type\s*(?:-|\s|/)\s*calcium\s*(?:-|\s|/)\s*channel\b|\bcav\s*(?:-|\s|/)\s*3\s*\.\s*1\b
   (⟨cats [RE.bnd, alts [cats [lit "cav", wsS, RE.cls false [CI.ch '-', CI.space, CI.ch '/'], wsS, RE.ch '3', wsS, RE.ch '.', wsS, RE.ch '1', wsS, RE.cls false [CI.ch '-', CI.space, CI.ch '/'], wsS, lit "channel", RE.bnd], cats [lit "alpha", wsS, RE.cls false [CI.ch '-', CI.space, CI.ch '/'], wsS, opt (RE.ch '-'), lit "1g", wsS, RE.cls false [CI.ch '-', CI.space, CI.ch '/'], wsS, RE.ch 't', wsS, RE.cls false [CI.ch '-', CI.space, CI.ch '/'], wsS, lit "type", wsS, RE.cls false [CI.ch '-', CI.space, CI.ch '/'], wsS, lit "calcium", wsS, RE.cls false [CI.ch '-', CI.space, CI.ch '/'], wsS, lit "channel", RE.bnd], cats [lit "cav", wsS, RE.cls false [CI.ch '-', CI.space, CI.ch '/'], wsS, RE.ch '3', wsS, RE.ch '.', wsS, RE.ch '1', RE.bnd]]], false, 0⟩,
    RuleVal.fixed [toL "cacna1g", toL "cav3.1"], false),
   -- pattern: \bcav\s*(?:-|\s|/)\s*3\s*\.\s*2\s*(?:-|\s|/)\s*channel\b|\balpha\s*(?:-|\s|/)\s*-?1h\s*(?:-|\s|/)\s*t\s*(?:-|\s|/)\s*type\s*(?:-|\s|/)\s*calcium\s*(?:-|\s|/)\s*channel\b|\bcav\s*(?:-|\s|/)\s*3\s*\.\s*2\b
   (⟨cats [RE.bnd, alts [cats [lit "cav", wsS, RE.cls false [CI.ch '-', CI.space, CI.ch '/'], wsS, RE.ch '3', wsS, RE.ch '.', wsS, RE.ch '2', wsS, RE.cls false [CI.ch '-', CI.space, CI.ch '/'], wsS, lit "channel", RE.bnd], cats [lit "alpha", wsS, RE.cls false [CI.ch '-', CI.space, CI.ch '/'], wsS, opt (RE.ch '-'), lit "1h", wsS, RE.cls false [CI.ch '-', CI.space, CI.ch '/'], wsS, RE.ch 't', wsS, RE.cls false [CI.ch '-', CI.space, CI.ch '/'], wsS, lit "type", wsS, RE.cls false [CI.ch '-', CI.space, CI.ch '/'], wsS, lit "calcium", wsS, RE.cls false [CI.ch '-', CI.space, CI.ch '/'], wsS, lit "channel", RE.bnd], cats [lit "cav", wsS, RE.cls false [CI.ch '-', CI.space, CI.ch '/'], wsS, RE.ch '3', wsS, RE.ch '.', wsS, RE.ch '2', RE.bnd]]], false, 0⟩,
    RuleVal.fixed [toL "cacna1h", toL "cav3.2"], false)
  ]

/-- Entries 11.. of `RULES_ION_CHANNELS` (table split for compilation). -/
def RULES_ION_CHANNELS_c2 : List (PyPattern × RuleVal × Bool) :=
  [
   -- pattern: \bcav\s*(?:-|\s|/)\s*3\s*\.\s*3\s*(?:-|\s|/)\s*channel\b
   (⟨cats [RE.bnd, lit "cav", wsS, RE.cls false [CI.ch '-', CI.space, CI.ch '/'], wsS, RE.ch '3', wsS, RE.ch '.', wsS, RE.ch '3', wsS, RE.cls false [CI.ch '-', CI.space, CI.ch '/'], wsS, lit "channel", RE.bnd], false, 0⟩,
    RuleVal.fixed [toL "cacna1i", toL "cav3.3"], false),
   -- pattern: \bt\s*(?:-|\s|/)\s*type\s*(?:-|\s|/)\s*(?:\[?\s*ca2\+\s*\]?\s*(?:-|\s|/)\s*)?channel\b
   (⟨cats [RE.bnd, RE.ch 't', wsS, RE.cls false [CI.ch '-', CI.space, CI.ch '/'], wsS, lit "type", wsS, RE.cls false [CI.ch '-', CI.space, CI.ch '/'], wsS, opt (cats [opt (RE.ch '['), wsS, lit "ca2+", wsS, opt (RE.ch ']'), wsS, RE.cls false [CI.ch '-', CI.space, CI.ch '/'], wsS]), lit "channel", RE.bnd], false, 0⟩,
    RuleVal.fixed [toL "cacna1g", toL "cacna1h", toL "cacna1i"], true),
   -- pattern: \balpha\s*(?:-|\s|/)\s*-?1g\s*(?:-|\s|/)\s*calcium\s*(?:-|\s|/)\s*channel\b|\bt\s*(?:-|\s|/)\s*type\s*(?:-|\s|/)\s*calcium\s*(?:-|\s|/)\s*channel\s*(?:-|\s|/)\s*alpha1g\b
   (⟨cats [RE.bnd, alts [cats [lit "alpha", wsS, RE.cls false [CI.ch '-', CI.space, CI.ch '/'], wsS, opt (RE.ch '-'), lit "1g", wsS, RE.cls false [CI.ch '-', CI.space, CI.ch '/'], wsS, lit "calcium", wsS, RE.cls false [CI.ch '-', CI.space, CI.ch '/'], wsS, lit "channel", RE.bnd], cats [RE.ch 't', wsS, RE.cls false [CI.ch '-', CI.space, CI.ch '/'], wsS, lit "type", wsS, RE.cls false [CI.ch '-', CI.space, CI.ch '/'], wsS, lit "calcium", wsS, RE.cls false [CI.ch '-', CI.space, CI.ch '/'], wsS, lit "channel", wsS, RE.cls false [CI.ch '-', CI.space, CI.ch '/'], wsS, lit "alpha1g", RE.bnd]]], false, 0⟩,
    RuleVal.fixed [toL "cacna1g"], false),
   -- pattern: \bcav\s*(?:-|\s|/)\s*3\s*\.\s*2\b
   (⟨cats [RE.bnd, lit "cav", wsS, RE.cls false [CI.ch '-', CI.space, CI.ch '/'], wsS, RE.ch '3', wsS, RE.ch '.', wsS, RE.ch '2', RE.bnd], false, 0⟩,
    RuleVal.fixed [toL "cacna1h", toL "cav3.2"], false),
   -- pattern: \bcav\s*(?:-|\s|/)\s*3\s*\.\s*1\b
   (⟨cats [RE.bnd, lit "cav", wsS, RE.cls false [CI.ch '-', CI.space, CI.ch '/'], wsS, RE.ch '3', wsS, RE.ch '.', wsS, RE.ch '1', RE.bnd], false, 0⟩,
    RuleVal.fixed [toL "cacna1g", toL "cav3.1"], false),
   -- pattern: \bcalcium\s*(?:-|\s|/)\s*channel\s*(?:-|\s|/)\s*alpha2delta\b|\balpha\s*(?:-|\s|/)\s*-?2delta\s*(?:-|\s|/)\s*calcium\s*(?:-|\s|/)\s*channel\b|\balpha\s*(?:-|\s|/)\s*-?2delta\s*(?:-|\s|/)\s*containing\s*(?:-|\s|/)\s*calcium\s*(?:-|\s|/)\s*channel\b
   (⟨cats [RE.bnd, alts [cats [lit "calcium", wsS, RE.cls false [CI.ch '-', CI.space, CI.ch '/'], wsS, lit "channel", wsS, RE.cls false [CI.ch '-', CI.space, CI.ch '/'], wsS, lit "alpha2delta", RE.bnd], cats [lit "alpha", wsS, RE.cls false [CI.ch '-', CI.space, CI.ch '/'], wsS, opt (RE.ch '-'), lit "2delta", wsS, RE.cls false [CI.ch '-', CI.space, CI.ch '/'], wsS, lit "calcium", wsS, RE.cls false [CI.ch '-', CI.space, CI.ch '/'], wsS, lit "channel", RE.bnd], cats [lit "alpha", wsS, RE.cls false [CI.ch '-', CI.space, CI.ch '/'], wsS, opt (RE.ch '-'), lit "2delta", wsS, RE.cls false [CI.ch '-', CI.space, CI.ch '/'], wsS, lit "containing", wsS, RE.cls false [CI.ch '-', CI.space, CI.ch '/'], wsS, lit "calcium", wsS, RE.cls false [CI.ch '-', CI.space, CI.ch '/'], wsS, lit "channel", RE.bnd]]], false, 0⟩,
    RuleVal.fixed [toL "cacna2d1", toL "cacna2d2", toL "cacna2d3", toL "cacna2d4"], false),
   -- pattern: \bherg\s*(?:-|\s|/)\s*channel\b|\berg\s*(?:-|\s|/)\s*channel\b|\berg\s*(?:-|\s|/)\s*potassium\s*(?:-|\s|/)\s*channel\b|\bkv11\s*\.\s*1\b|\bikr\s*(?:-|\s|/)\s*channel\b|\berg\s*(?:-|\s|/)\s*k\+\s*channel\b
   (⟨cats [RE.bnd, alts [cats [lit "herg", wsS, RE.cls false [CI.ch '-', CI.space, CI.ch '/'], wsS, lit "channel", RE.bnd], cats [lit "erg", wsS, RE.cls false [CI.ch '-', CI.space, CI.ch '/'], wsS, lit "channel", RE.bnd], cats [lit "erg", wsS, RE.cls false [CI.ch '-', CI.space, CI.ch '/'], wsS, lit "potassium", wsS, RE.cls false [CI.ch '-', CI.space, CI.ch '/'], wsS, lit "channel", RE.bnd], cats [lit "kv11", wsS, RE.ch '.', wsS, RE.ch '1', RE.bnd], cats [lit "ikr", wsS, RE.cls false [CI.ch '-', CI.space, CI.ch '/'], wsS, lit "channel", RE.bnd], cats [lit "erg", wsS, RE.cls false [CI.ch '-', CI.space, CI.ch '/'], wsS, lit "k+", wsS, lit "channel", RE.bnd]]], false, 0⟩,
    RuleVal.fixed [toL "kcnh2", toL "kv11.1", toL "herg"], false),
   -- pattern: \biks\s*(?:-|\s|/)\s*potassium\s*(?:-|\s|/)\s*channel\b
   (⟨cats [RE.bnd, lit "iks", wsS, RE.cls false [CI.ch '-', CI.space, CI.ch '/'], wsS, lit "potassium", wsS, RE.cls false [CI.ch '-', CI.space, CI.ch '/'], wsS, lit "channel", RE.bnd], false, 0⟩,
    RuleVal.fixed [toL "kcnq1", toL "kcne1"], false),
   -- pattern: \bkv1\s*\.\s*3(?:\s*(?:-|\s|/)\s*ion)?\s*(?:-|\s|/)\s*channel\b
   (⟨cats [RE.bnd, lit "kv1", wsS, RE.ch '.', wsS, RE.ch '3', opt (cats [wsS, RE.cls false [CI.ch '-', CI.space, CI.ch '/'], wsS, lit "ion"]), wsS, RE.cls false [CI.ch '-', CI.space, CI.ch '/'], wsS, lit "channel", RE.bnd], false, 0⟩,
    RuleVal.fixed [toL "kcna3", toL "kv1.3"], false),
   -- pattern: \bkv1\s*\.\s*5(?:\s*(?:-|\s|/)\s*ion)?\s*(?:-|\s|/)\s*channel\b
   (⟨cats [RE.bnd, lit "kv1", wsS, RE.ch '.', wsS, RE.ch '5', opt (cats [wsS, RE.cls false [CI.ch '-', CI.space, CI.ch '/'], wsS, lit "ion"]), wsS, RE.cls false [CI.ch '-', CI.space, CI.ch '/'], wsS, lit "channel", RE.bnd], false, 0⟩,
    RuleVal.fixed [toL "kcna5", toL "kv1.5"], false)
  ]

/-- Entries 21.. of `RULES_ION_CHANNELS` (table split for compilation). -/
def RULES_ION_CHANNELS_c3 : List (PyPattern × RuleVal × Bool) :=
  [
   -- pattern: \bromk1?\s*(?:-|\s|/)\s*channel\b
   (⟨cats [RE.bnd, lit "romk", opt (RE.ch '1'), wsS, RE.cls false [CI.ch '-', CI.space, CI.ch '/'], wsS, lit "channel", RE.bnd], false, 0⟩,
    RuleVal.fixed [toL "kcnj1", toL "romk"], false),
   -- pattern: \bano1\s*(?:-|\s|/)\s*channel\b
   (⟨cats [RE.bnd, lit "ano1", wsS, RE.cls false [CI.ch '-', CI.space, CI.ch '/'], wsS, lit "channel", RE.bnd], false, 0⟩,
    RuleVal.fixed [toL "tmem16a", toL "ano1"], false),
   -- pattern: \bna\+\s*\s*(?:-|\s|/)\s*h\+\s*exchanger\s*(?:-|\s|/)\s*1\b|\bsodium\s*(?:-|\s|/)\s*\/?hydrogen\s*(?:-|\s|/)\s*exchanger\s*(?:-|\s|/)\s*1\b
   (⟨cats [RE.bnd, alts [cats [lit "na+", wsS, wsS, RE.cls false [CI.ch '-', CI.space, CI.ch '/'], wsS, lit "h+", wsS, lit "exchanger", wsS, RE.cls false [CI.ch '-', CI.space, CI.ch '/'], wsS, RE.ch '1', RE.bnd], cats [lit "sodium", wsS, RE.cls false [CI.ch '-', CI.space, CI.ch '/'], wsS, opt (RE.ch '/'), lit "hydrogen", wsS, RE.cls false [CI.ch '-', CI.space, CI.ch '/'], wsS, lit "exchanger", wsS, RE.cls false [CI.ch '-', CI.space, CI.ch '/'], wsS, RE.ch '1', RE.bnd]]], false, 0⟩,
    RuleVal.fixed [toL "slc9a1", toL "nhe1"], false),
   -- pattern: \bsodium\s*(?:-|\s|/)\s*\/?hydrogen\s*(?:-|\s|/)\s*exchanger\b
   (⟨cats [RE.bnd, lit "sodium", wsS, RE.cls false [CI.ch '-', CI.space, CI.ch '/'], wsS, opt (RE.ch '/'), lit "hydrogen", wsS, RE.cls false [CI.ch '-', CI.space, CI.ch '/'], wsS, lit "exchanger", RE.bnd], false, 0⟩,
    RuleVal.fixed [toL "slc9a1"], true),
   -- pattern: \bgardos\s*(?:-|\s|/)\s*channel\b
   (⟨cats [RE.bnd, lit "gardos", wsS, RE.cls false [CI.ch '-', CI.space, CI.ch '/'], wsS, lit "channel", RE.bnd], false, 0⟩,
    RuleVal.fixed [toL "kcnn4", toL "kca3.1"], false)
  ]

/-- Full `RULES_ION_CHANNELS` table of the source, in order. -/
def RULES_ION_CHANNELS : List (PyPattern × RuleVal × Bool) :=
  RULES_ION_CHANNELS_c1 ++ RULES_ION_CHANNELS_c2 ++ RULES_ION_CHANNELS_c3
/-- Combined rule list assembled inside `gen_candidates` (GPCR and extra GPCR
rules enter as non-soft). -/
def genRules : List (PyPattern × RuleVal × Bool) :=
  (RULES_GPCR ++ RULES_GPCR_EXTRA).map (fun pv => (pv.1, pv.2, false)) ++
  RULES_CUSTOM ++ RULES_ION_CHANNELS

/-- Dedup step of `gen_candidates` (`if x and x not in seen`): drops empty
strings and duplicates, keeping the first occurrence. -/
def genDedup (seen : List Str) : List Str → List Str
  | [] => []
  | x :: t =>
    if x ≠ [] ∧ ¬ seen.contains x then x :: genDedup (x :: seen) t
    else genDedup seen t

/-- Model of `gen_candidates`: evaluate every table rule against the lowered
text, accumulating non-soft and soft results separately, then dedup with the
soft block trailing. -/
def gen_candidates (clean_text : Str) : List Str :=
  let s := pyLower clean_text
  let os := genRules.foldl
    (fun (acc : List Str × List Str) rule =>
      match pySearch rule.1 s with
      | some m =>
        let adds := rule.2.1.eval m
        if rule.2.2 then (acc.1, acc.2 ++ adds) else (acc.1 ++ adds, acc.2)
      | none => acc) ([], [])
  genDedup [] (os.1 ++ os.2)

/-- Insert-if-absent accumulation
(the `if cand not in candidates: candidates.append(cand)` idiom). -/
def insAbsent (acc : List Str) (x : Str) : List Str :=
  if acc.contains x then acc else acc ++ [x]

/-- The four family-level inference blocks of `generate_regex_candidates`
(source lines 1834–1865), accumulating onto `candidates`. -/
def famAdd (tokens : List Str) (candidates : List Str) : List Str :=
  let candidates :=
    if tokens.contains (toL "ampa") ∧
       ¬ tokens.any (fun t => strStartsWith t (toL "glua")) then
      [toL "gria1", toL "gria2", toL "gria3", toL "gria4"].foldl insAbsent candidates
    else candidates
  let candidates :=
    if tokens.contains (toL "nmda") ∧
       ¬ tokens.any (fun t => strStartsWith t (toL "nr")) then
      [toL "grin1", toL "grin2a", toL "grin2b", toL "grin2c", toL "grin2d",
       toL "grin3a", toL "grin3b"].foldl insAbsent candidates
    else candidates
  let candidates :=
    if tokens.contains (toL "kainate") ∧
       ¬ tokens.any (fun t => strStartsWith t (toL "gluk")) then
      [toL "grik1", toL "grik2", toL "grik3", toL "grik4",
       toL "grik5"].foldl insAbsent candidates
    else candidates
  if tokens.contains (toL "metabotropic") ∧ tokens.contains (toL "glutamate") ∧
     ¬ tokens.any (fun t => strStartsWith t (toL "mglur")) then
    [toL "grm1", toL "grm2", toL "grm3", toL "grm4", toL "grm5", toL "grm6",
     toL "grm7", toL "grm8"].foldl insAbsent candidates
  else candidates

/-- Model of `generate_regex_candidates`: capture-expansion rules, then the
four family-fallback blocks, then alias rules, all with insert-if-absent
accumulation. -/
def generate_regex_candidates (text : Str) : List Str :=
  let tokens := wsSplit text
  let candidates : List Str := GENE_CANDIDATE_RULES.foldl
    (fun cands pr =>
      (pyFinditer pr.1 text).foldl
        (fun cands m => insAbsent cands (pyLower (m.expand pr.2))) cands) []
  let candidates := famAdd tokens candidates
  ALIAS_CANDIDATE_RULES.foldl
    (fun cands pr =>
      (pyFinditer pr.1 text).foldl
        (fun cands _m => pr.2.foldl (fun cs c => insAbsent cs (pyLower c)) cands)
        cands)
    candidates

/-- Model of `final_cleanup` (remove duplicate tokens preserving order). -/
def final_cleanup (tokens : List Str) : List Str := tokens.foldl insAbsent []

/-- Keyword options of `normalize_target_name`. -/
structure Options where
  strip_mutations : Bool
  mutation_whitelist : List Str
  detect_mutations : Bool
  taxon : Int
  deriving Repr, DecidableEq

/-- Default option values of the source signature. -/
def defaultOptions : Options := ⟨true, [], true, 9606⟩

/-- The `hints` dictionary of the result; `mutations_only` is `some true`
exactly when the source sets the key. -/
structure Hints where
  parenthetical : List Str
  dropped : List Str
  mutations : List Str
  mutations_only : Option Bool
  deriving Repr, DecidableEq

/-- The `NormalizationResult` dataclass of the source. -/
structure NormalizationResult where
  raw : Str
  clean_text : Str
  clean_text_alt : Str
  query_tokens : List Str
  gene_like_candidates : List Str
  hint_taxon : Int
  hints : Hints
  rules_applied : List Str
  deriving Repr, DecidableEq

/-- Intermediate state of `normalize_target_name` after the token streams are
built (source lines 1925–1954). -/
structure PreState where
  raw : Str
  whitelist : List Str
  mutations : List Str
  parenthetical : List Str
  paren_tokens : List Str
  rule_candidates : List Str
  rules_applied : List Str
  substitutions : List (Str × Str)
  dropped : List Str
  tokens_base_no_stop : List Str
  tokens_base_alt : List Str
  tokens_no_stop : List Str
  tokens_alt : List Str
  mutation_tokens : List Str

/-- Sequential first part of `normalize_target_name` (source lines
1925–1954): sanitize, detect mutations, fold, translate, roman numerals,
parenthetical extraction with re-injection, hyphen cleanup, receptor rules,
variant detection, tokenization, stop-word split, stream assembly, mutation
token set. -/
def pre (name : Str) (o : Options) : PreState :=
  let whitelist := MUTATION_WHITELIST ++ o.mutation_whitelist.map pyLower
  let stage := sanitize_text name
  let mutations := if o.detect_mutations then find_mutations stage whitelist else []
  let stage := normalize_unicode stage
  let stage := replace_specials stage
  let stage := replace_roman_numerals stage
  let ep := extract_parenthetical stage
  let parenthetical := ep.2.1
  let paren_tokens := ep.2.2
  let stage :=
    if paren_tokens ≠ [] then pyStrip (ep.1 ++ ' ' :: joinSep ' ' paren_tokens)
    else ep.1
  let stage := pretoken_cleanup stage
  let ar := apply_receptor_rules stage
  let stage := ar.1
  let hyphen_subs := detect_hyphen_variants stage
  let tokens_base := tokenize stage
  let letter_digit_subs := generate_letter_digit_variants tokens_base
  let substitutions := hyphen_subs ++ letter_digit_subs
  let rw := remove_weak_words tokens_base
  let tokens_base_alt := final_cleanup tokens_base
  let tokens_no_stop := rw.1 ++ substitutions.map (fun v => v.1)
  let tokens_alt := tokens_base_alt ++ substitutions.map (fun v => v.1)
  let mutation_tokens :=
    if o.detect_mutations then mutation_token_set mutations else []
  ⟨name, whitelist, mutations, parenthetical, paren_tokens, ar.2.1, ar.2.2,
   substitutions, rw.2, rw.1, tokens_base_alt, tokens_no_stop, tokens_alt,
   mutation_tokens⟩

/-- Keep-predicate of the mutation-stripping filters
(`t not in mutation_tokens or t in whitelist`). -/
def keepTok (st : PreState) (t : Str) : Bool :=
  ¬ st.mutation_tokens.contains t ∨ st.whitelist.contains t

/-- Stripped `tokens_no_stop` stream (source lines 1956–1959). -/
def strippedNoStop (st : PreState) (o : Options) : List Str :=
  if o.detect_mutations ∧ o.strip_mutations then st.tokens_no_stop.filter (keepTok st)
  else st.tokens_no_stop

/-- Stripped `tokens_alt` stream (source lines 1960–1962). -/
def strippedAlt (st : PreState) (o : Options) : List Str :=
  if o.detect_mutations ∧ o.strip_mutations then st.tokens_alt.filter (keepTok st)
  else st.tokens_alt

/-- Stripped `tokens_base_no_stop` stream (source lines 1963–1965). -/
def strippedBaseNoStop (st : PreState) (o : Options) : List Str :=
  if o.detect_mutations ∧ o.strip_mutations then
    st.tokens_base_no_stop.filter (keepTok st)
  else st.tokens_base_no_stop

/-- Stripped `tokens_base_alt` stream (source lines 1966–1968). -/
def strippedBaseAlt (st : PreState) (o : Options) : List Str :=
  if o.detect_mutations ∧ o.strip_mutations then st.tokens_base_alt.filter (keepTok st)
  else st.tokens_base_alt

/-- Pattern `[a-z]$|\d+$` used through `re.fullmatch` by the rollback check. -/
def smallTokPat : PyPattern :=
  mkPat (alts [cats [lcC, RE.eos], cats [dP, RE.eos]])

/-- The token is a bare single letter or all digits
(`re.fullmatch(r"[a-z]$|\d+$", t)` succeeds). -/
def isSmallTok (t : Str) : Bool := (pyFullmatch smallTokPat t).isSome

/-- The list `clean_tokens_check` (source lines 1970–1972). -/
def clean_tokens_check (st : PreState) (o : Options) : List Str :=
  (strippedNoStop st o).filter (fun t => ¬ isSmallTok t)

/-- The `hints_mutations_only` flag (source lines 1973–1979). -/
def hints_mutations_only (st : PreState) (o : Options) : Bool :=
  o.detect_mutations ∧ clean_tokens_check st o = []

/-- Final `tokens_no_stop` stream after the mutations-only rollback. -/
def finalNoStop (st : PreState) (o : Options) : List Str :=
  if hints_mutations_only st o then st.tokens_no_stop else strippedNoStop st o

/-- Final `tokens_alt` stream after the mutations-only rollback. -/
def finalAlt (st : PreState) (o : Options) : List Str :=
  if hints_mutations_only st o then st.tokens_alt else strippedAlt st o

/-- Final `tokens_base_no_stop` stream after the mutations-only rollback. -/
def finalBaseNoStop (st : PreState) (o : Options) : List Str :=
  if hints_mutations_only st o then st.tokens_base_no_stop
  else strippedBaseNoStop st o

/-- Final `tokens_base_alt` stream after the mutations-only rollback. -/
def finalBaseAlt (st : PreState) (o : Options) : List Str :=
  if hints_mutations_only st o then st.tokens_base_alt else strippedBaseAlt st o

/-- Scalar join of a variant list (`"|".join(vs) if len(vs) > 1 else
(vs[0] if vs else "")`). -/
def joinPipe : List Str → Str
  | [] => []
  | [v] => v
  | vs => joinSep '|' vs

/-- Final deduplicated `tokens_no_stop` (the `query_tokens` of the result). -/
def queryTokensOf (st : PreState) (o : Options) : List Str :=
  final_cleanup (finalNoStop st o)

/-- The `clean_text` scalar (variants of the stop-word-filtered base). -/
def cleanTextOf (st : PreState) (o : Options) : Str :=
  joinPipe (build_variant_strings (joinSep ' ' (finalBaseNoStop st o))
    st.substitutions st.paren_tokens)

/-- The `clean_text_alt` scalar (variants of the stop-word-retaining base). -/
def cleanTextAltOf (st : PreState) (o : Options) : Str :=
  joinPipe (build_variant_strings (joinSep ' ' (finalBaseAlt st o))
    st.substitutions st.paren_tokens)

/-- The text handed to `gen_candidates`
(`clean_text_alt or clean_text`, Python truthiness). -/
def candTextOf (st : PreState) (o : Options) : Str :=
  if cleanTextAltOf st o ≠ [] then cleanTextAltOf st o else cleanTextOf st o

/-- The text handed to `generate_regex_candidates`
(`" ".join(tokens_no_stop)`). -/
def tokTextOf (st : PreState) (o : Options) : Str :=
  joinSep ' ' (queryTokensOf st o)

/-- The `hints` bag of the result (source lines 2008–2014). -/
def hintsOf (st : PreState) (o : Options) : Hints :=
  ⟨st.parenthetical, st.dropped,
   if o.detect_mutations then st.mutations else [],
   if o.detect_mutations ∧ hints_mutations_only st o then some true else none⟩

/-- Model of `normalize_target_name` (source lines 1895–2024), assembled from
the stage projections above. -/
def normalize_target_name (name : Str) (o : Options) : NormalizationResult :=
  let st := pre name o
  ⟨name, cleanTextOf st o, cleanTextAltOf st o, queryTokensOf st o,
   final_cleanup (st.rule_candidates ++ gen_candidates (candTextOf st o)
     ++ generate_regex_candidates (tokTextOf st o)),
   o.taxon, hintsOf st o, st.rules_applied⟩

/-- One confidence tier of `gen_candidates` before deduplication: outputs of
the matching non-soft (or soft) rules in table order. -/
def genTier (soft : Bool) (clean_text : Str) : List Str :=
  genRules.flatMap
    (fun rule =>
      if rule.2.2 = soft then
        match pySearch rule.1 (pyLower clean_text) with
        | some m => rule.2.1.eval m
        | none => []
      else [])

/-- Capture-expansion tier of `generate_regex_candidates` before
deduplication. -/
def capTier (text : Str) : List Str :=
  GENE_CANDIDATE_RULES.flatMap
    (fun pr => (pyFinditer pr.1 text).map (fun m => pyLower (m.expand pr.2)))

/-- Family-fallback tier of `generate_regex_candidates` before
deduplication. -/
def famT (tokens : List Str) : List Str :=
  (if tokens.contains (toL "ampa") ∧
      ¬ tokens.any (fun t => strStartsWith t (toL "glua")) then
     [toL "gria1", toL "gria2", toL "gria3", toL "gria4"] else []) ++
  (if tokens.contains (toL "nmda") ∧
      ¬ tokens.any (fun t => strStartsWith t (toL "nr")) then
     [toL "grin1", toL "grin2a", toL "grin2b", toL "grin2c", toL "grin2d",
      toL "grin3a", toL "grin3b"] else []) ++
  (if tokens.contains (toL "kainate") ∧
      ¬ tokens.any (fun t => strStartsWith t (toL "gluk")) then
     [toL "grik1", toL "grik2", toL "grik3", toL "grik4", toL "grik5"]
   else []) ++
  (if tokens.contains (toL "metabotropic") ∧ tokens.contains (toL "glutamate") ∧
      ¬ tokens.any (fun t => strStartsWith t (toL "mglur")) then
     [toL "grm1", toL "grm2", toL "grm3", toL "grm4", toL "grm5", toL "grm6",
      toL "grm7", toL "grm8"] else [])

/-- Family-fallback tier of `generate_regex_candidates` before
deduplication. -/
def famTier (text : Str) : List Str := famT (wsSplit text)

/-- Alias tier of `generate_regex_candidates` before deduplication. -/
def aliasTier (text : Str) : List Str :=
  ALIAS_CANDIDATE_RULES.flatMap
    (fun pr => (pyFinditer pr.1 text).flatMap (fun _ => pr.2.map pyLower))

/-- Candidate assembly in the priority order asserted by the specification:
literal receptor-rule candidates, pattern-table candidates (non-soft, then
soft together with family fallback), alias-table candidates, and last
regex-expansion candidates, deduplicated keeping the first occurrence.  This
definition follows the specification's words, for comparison with the
program's order. -/
def specOrderCandidates (name : Str) (o : Options) : List Str :=
  let st := pre name o
  final_cleanup (st.rule_candidates
    ++ genTier false (candTextOf st o) ++ genTier true (candTextOf st o)
    ++ famTier (tokTextOf st o)
    ++ aliasTier (tokTextOf st o)
    ++ capTier (tokTextOf st o))

/-- No ASCII uppercase letter occurs in the string (the decidable reading of
"is lowercase" for gene symbols). -/
def noUpper (s : Str) : Bool := s.all (fun c => ¬ isAsciiUpper c)

/-- Whitespace-freedom of a string. -/
def noWs (s : Str) : Bool := s.all (fun c => ¬ isPySpace c)

/-- First-occurrence deduplication against a seen set, the recursive
companion of `final_cleanup` used by the proofs. -/
def dedupR (seen : List Str) : List Str → List Str
  | [] => []
  | x :: t =>
    if seen.contains x then dedupR seen t else x :: dedupR (x :: seen) t

/-- Nonempty check of a rule value's outputs: fixed symbols are nonempty and
every callback template contains a nonempty literal part. -/
def valNE : RuleVal → Bool
  | RuleVal.fixed vs => vs.all (fun v => v ≠ [])
  | RuleVal.tmpl ts =>
    ts.all (fun t => t.any (fun p => match p with
      | TP.lit s => s ≠ []
      | _ => false))

/-- Lowercase check of a rule value's literal outputs. -/
def valNoUpper : RuleVal → Bool
  | RuleVal.fixed vs => vs.all noUpper
  | RuleVal.tmpl ts =>
    ts.all (fun t => t.all (fun p => match p with
      | TP.lit s => noUpper s
      | _ => true))

/-- The character-level composite applied by `normalize_unicode`: NFKC fold,
lowercase, typographic quote, long dash. -/
def nuChar (c : Char) : Char := dashChar (quoteChar (pyLowerChar (nfkcChar c)))

theorem contains_iff (A : List Str) (x : Str) : A.contains x = true ↔ x ∈ A :=
  List.elem_iff

theorem insAbsent_pos {A : List Str} {x : Str} (h : A.contains x = true) :
    insAbsent A x = A := by
  unfold insAbsent
  rw [if_pos h]

theorem insAbsent_neg {A : List Str} {x : Str} (h : ¬ A.contains x = true) :
    insAbsent A x = A ++ [x] := by
  unfold insAbsent
  rw [if_neg h]

theorem insAbsent_mem (A : List Str) (x y : Str) :
    y ∈ insAbsent A x ↔ y ∈ A ∨ y = x := by
  by_cases h : A.contains x = true
  · rw [insAbsent_pos h]
    constructor
    · exact Or.inl
    · rintro (hy | rfl)
      · exact hy
      · exact (contains_iff ..).mp h
  · rw [insAbsent_neg h]
    simp

theorem dedupR_congr : ∀ (l : List Str) (s₁ s₂ : List Str),
    (∀ x, x ∈ s₁ ↔ x ∈ s₂) → dedupR s₁ l = dedupR s₂ l
  | [], _, _, _ => rfl
  | x :: t, s₁, s₂, h => by
    simp only [dedupR]
    have hc : s₁.contains x = s₂.contains x := by
      by_cases hx : x ∈ s₂
      · rw [(contains_iff ..).mpr ((h x).mpr hx), (contains_iff ..).mpr hx]
      · have h1 : s₁.contains x = false := by
          by_contra hh
          exact hx ((h x).mp ((contains_iff ..).mp (by simpa using hh)))
        have h2 : s₂.contains x = false := by
          by_contra hh
          exact hx ((contains_iff ..).mp (by simpa using hh))
        rw [h1, h2]
    rw [hc]
    split
    · exact dedupR_congr t s₁ s₂ h
    · rw [dedupR_congr t (x :: s₁) (x :: s₂) (by intro y; simp [h y])]

theorem foldl_insAbsent_eq : ∀ (l A : List Str),
    l.foldl insAbsent A = A ++ dedupR A l
  | [], A => by simp [dedupR]
  | x :: t, A => by
    rw [List.foldl_cons]
    simp only [dedupR]
    by_cases h : A.contains x = true
    · rw [if_pos h, insAbsent_pos h, foldl_insAbsent_eq t A]
    · rw [if_neg h, insAbsent_neg h, foldl_insAbsent_eq t (A ++ [x])]
      rw [dedupR_congr t (A ++ [x]) (x :: A) (by intro y; simp [or_comm])]
      simp

theorem final_cleanup_eq_dedupR (l : List Str) : final_cleanup l = dedupR [] l := by
  unfold final_cleanup
  rw [foldl_insAbsent_eq]
  simp

theorem foldl_insAbsent_dedupR : ∀ (ys A t : List Str), (∀ x ∈ t, x ∈ A) →
    (dedupR t ys).foldl insAbsent A = ys.foldl insAbsent A
  | [], _, _, _ => rfl
  | y :: ys, A, t, h => by
    simp only [dedupR]
    by_cases hy : t.contains y = true
    · rw [if_pos hy, List.foldl_cons]
      have hyA : y ∈ A := h y ((contains_iff ..).mp hy)
      rw [insAbsent_pos ((contains_iff ..).mpr hyA)]
      exact foldl_insAbsent_dedupR ys A t h
    · rw [if_neg hy, List.foldl_cons, List.foldl_cons]
      refine foldl_insAbsent_dedupR ys (insAbsent A y) (y :: t) ?_
      intro x hx
      rcases List.mem_cons.mp hx with rfl | hx
      · rw [insAbsent_mem]
        exact Or.inr rfl
      · rw [insAbsent_mem]
        exact Or.inl (h x hx)

theorem final_cleanup_absorb (xs ys zs : List Str) :
    final_cleanup (xs ++ final_cleanup ys ++ zs) = final_cleanup (xs ++ ys ++ zs) := by
  unfold final_cleanup
  rw [List.foldl_append, List.foldl_append, List.foldl_append, List.foldl_append]
  congr 1
  rw [show ys.foldl insAbsent [] = dedupR [] ys from by
    rw [foldl_insAbsent_eq]; simp]
  exact foldl_insAbsent_dedupR ys _ [] (by simp)

theorem dedupR_sub : ∀ (l seen : List Str) (x : Str), x ∈ dedupR seen l → x ∈ l
  | [], _, _, h => by simp [dedupR] at h
  | y :: t, seen, x, h => by
    simp only [dedupR] at h
    split at h
    · exact List.mem_cons_of_mem y (dedupR_sub t seen x h)
    · rcases List.mem_cons.mp h with rfl | h
      · exact List.mem_cons_self ..
      · exact List.mem_cons_of_mem y (dedupR_sub t (y :: seen) x h)

theorem final_cleanup_sub (l : List Str) (x : Str) :
    x ∈ final_cleanup l → x ∈ l := by
  rw [final_cleanup_eq_dedupR]
  exact dedupR_sub l [] x

theorem dedupR_not_seen : ∀ (l seen : List Str) (x : Str),
    x ∈ dedupR seen l → x ∉ seen
  | [], _, _, h => by simp [dedupR] at h
  | y :: t, seen, x, h => by
    simp only [dedupR] at h
    split at h
    · exact dedupR_not_seen t seen x h
    · rcases List.mem_cons.mp h with rfl | h
      · rename_i hc
        intro hx
        exact hc ((contains_iff ..).mpr hx)
      · intro hx
        exact dedupR_not_seen t (y :: seen) x h (List.mem_cons_of_mem y hx)

theorem dedupR_nodup : ∀ (l seen : List Str), (dedupR seen l).Nodup
  | [], _ => by simp [dedupR]
  | y :: t, seen => by
    simp only [dedupR]
    split
    · exact dedupR_nodup t seen
    · refine List.nodup_cons.mpr ⟨?_, dedupR_nodup t (y :: seen)⟩
      intro hy
      exact dedupR_not_seen t (y :: seen) y hy (List.mem_cons_self ..)

theorem final_cleanup_nodup (l : List Str) : (final_cleanup l).Nodup := by
  rw [final_cleanup_eq_dedupR]
  exact dedupR_nodup l []

theorem genDedup_eq_dedupR : ∀ (l seen : List Str),
    genDedup seen l = dedupR seen (l.filter (fun x => x ≠ []))
  | [], _ => rfl
  | x :: t, seen => by
    simp only [genDedup]
    by_cases hx : x = []
    · subst hx
      rw [if_neg (by simp)]
      rw [genDedup_eq_dedupR t seen]
      simp
    · rw [show (x :: t).filter (fun x => x ≠ []) = x :: t.filter (fun x => x ≠ []) from by
        simp [List.filter_cons, hx]]
      simp only [dedupR]
      by_cases hc : seen.contains x = true
      · rw [if_neg (by
          intro hand
          exact hand.2 hc), if_pos hc]
        exact genDedup_eq_dedupR t seen
      · rw [if_pos ⟨hx, hc⟩, if_neg hc]
        rw [genDedup_eq_dedupR t (x :: seen)]

theorem foldl_insAbsent_flat {α : Type} (g : α → List Str) :
    ∀ (rs : List α) (A : List Str),
    rs.foldl (fun acc r => (g r).foldl insAbsent acc) A
      = (rs.flatMap g).foldl insAbsent A
  | [], _ => rfl
  | r :: rs, A => by
    rw [List.foldl_cons, List.flatMap_cons, List.foldl_append]
    exact foldl_insAbsent_flat g rs ((g r).foldl insAbsent A)

theorem gen_fold (s : Str) :
    ∀ (rules : List (PyPattern × RuleVal × Bool)) (acc : List Str × List Str),
    rules.foldl
      (fun (acc : List Str × List Str) rule =>
        match pySearch rule.1 s with
        | some m =>
          if rule.2.2 then (acc.1, acc.2 ++ rule.2.1.eval m)
          else (acc.1 ++ rule.2.1.eval m, acc.2)
        | none => acc) acc
    = (acc.1 ++ rules.flatMap
         (fun rule => if rule.2.2 = false then
            (match pySearch rule.1 s with
             | some m => rule.2.1.eval m
             | none => []) else []),
       acc.2 ++ rules.flatMap
         (fun rule => if rule.2.2 = true then
            (match pySearch rule.1 s with
             | some m => rule.2.1.eval m
             | none => []) else []))
  | [], acc => by simp
  | rule :: rules, acc => by
    rw [List.foldl_cons, List.flatMap_cons, List.flatMap_cons, gen_fold s rules]
    rcases hms : pySearch rule.1 s with _ | m <;> rcases hb : rule.2.2 with _ | _ <;>
      simp [hms, hb]

theorem gen_candidates_eq (ct : Str) :
    gen_candidates ct = genDedup [] (genTier false ct ++ genTier true ct) := by
  simp only [gen_candidates, genTier]
  rw [gen_fold (pyLower ct) genRules ([], [])]
  simp

theorem foldl_ins_map {α : Type} (f : α → Str) :
    ∀ (ms : List α) (A : List Str),
    ms.foldl (fun a m => insAbsent a (f m)) A = (ms.map f).foldl insAbsent A
  | [], _ => rfl
  | m :: ms, A => by
    rw [List.foldl_cons, List.map_cons, List.foldl_cons]
    exact foldl_ins_map f ms (insAbsent A (f m))

theorem famAdd_eq (tokens A : List Str) :
    famAdd tokens A = (famT tokens).foldl insAbsent A := by
  simp only [famAdd, famT]
  by_cases h1 : tokens.contains (toL "ampa") = true ∧
      ¬ (tokens.any (fun t => strStartsWith t (toL "glua"))) = true <;>
  by_cases h2 : tokens.contains (toL "nmda") = true ∧
      ¬ (tokens.any (fun t => strStartsWith t (toL "nr"))) = true <;>
  by_cases h3 : tokens.contains (toL "kainate") = true ∧
      ¬ (tokens.any (fun t => strStartsWith t (toL "gluk"))) = true <;>
  by_cases h4 : tokens.contains (toL "metabotropic") = true ∧
      tokens.contains (toL "glutamate") = true ∧
      ¬ (tokens.any (fun t => strStartsWith t (toL "mglur"))) = true <;>
    simp only [h1, h2, h3, h4, if_true, if_false, List.foldl_append,
      if_neg, not_false_iff, List.foldl_nil] <;>
    rfl

theorem grc_eq (text : Str) :
    generate_regex_candidates text =
      final_cleanup (capTier text ++ famTier text ++ aliasTier text) := by
  simp only [generate_regex_candidates]
  simp only [foldl_ins_map, foldl_insAbsent_flat]
  rw [famAdd_eq]
  simp only [capTier, famTier, aliasTier, final_cleanup, List.foldl_append]

theorem genValsNE : genRules.all (fun r => valNE r.2.1) = true := by decide

theorem expand_ne (m : PyMatch) :
    ∀ {t : List TP}, (∃ p ∈ t, ∃ s, p = TP.lit s ∧ s ≠ []) → m.expand t ≠ []
  | [], h => by simp at h
  | p :: t, h => by
    rcases h with ⟨q, hq, s, hqs, hs⟩
    subst hqs
    simp only [PyMatch.expand, List.foldr_cons]
    intro hc
    rcases List.append_eq_nil.mp hc with ⟨hc1, hc2⟩
    rcases List.mem_cons.mp hq with hql | hql
    · rw [← hql] at hc1
      simp only [TP.eval] at hc1
      exact hs hc1
    · exact expand_ne m ⟨TP.lit s, hql, s, rfl, hs⟩ hc2

theorem valNE_eval {v : RuleVal} (hv : valNE v = true) (m : PyMatch) :
    ∀ c ∈ v.eval m, c ≠ [] := by
  intro c hc
  cases v with
  | fixed vs =>
    simp only [RuleVal.eval] at hc
    have := List.all_eq_true.mp hv c hc
    simpa using this
  | tmpl ts =>
    simp only [RuleVal.eval, List.mem_map] at hc
    rcases hc with ⟨t, ht, rfl⟩
    have hall := List.all_eq_true.mp hv t ht
    rcases List.any_eq_true.mp hall with ⟨p, hp, hpe⟩
    refine expand_ne m ⟨p, hp, ?_⟩
    cases p with
    | lit s => exact ⟨s, rfl, by simpa using hpe⟩
    | g i => simp at hpe
    | gOr i j => simp at hpe

theorem genTier_ne (b : Bool) (ct : Str) : ∀ c ∈ genTier b ct, c ≠ [] := by
  intro c hc
  simp only [genTier, List.mem_flatMap] at hc
  rcases hc with ⟨rule, hrule, hc⟩
  split at hc
  · rcases hms : pySearch rule.1 (pyLower ct) with _ | m
    · rw [hms] at hc
      simp at hc
    · rw [hms] at hc
      exact valNE_eval (List.all_eq_true.mp genValsNE rule hrule) m c hc
  · simp at hc

theorem final_cleanup_absorb2 (xs ys : List Str) :
    final_cleanup (xs ++ final_cleanup ys) = final_cleanup (xs ++ ys) := by
  have h := final_cleanup_absorb xs ys []
  simpa using h

theorem fc_combine (A Y C : List Str) :
    final_cleanup (A ++ (final_cleanup Y ++ final_cleanup C)) =
    final_cleanup (A ++ (Y ++ C)) := by
  rw [show A ++ (final_cleanup Y ++ final_cleanup C)
        = A ++ final_cleanup Y ++ final_cleanup C from (List.append_assoc ..).symm]
  rw [final_cleanup_absorb, final_cleanup_absorb2, List.append_assoc]

theorem gene_like_decomp (name : Str) (o : Options) :
    (normalize_target_name name o).gene_like_candidates =
      final_cleanup ((pre name o).rule_candidates
        ++ genTier false (candTextOf (pre name o) o)
        ++ genTier true (candTextOf (pre name o) o)
        ++ capTier (tokTextOf (pre name o) o)
        ++ famTier (tokTextOf (pre name o) o)
        ++ aliasTier (tokTextOf (pre name o) o)) := by
  have h1 : (normalize_target_name name o).gene_like_candidates =
      final_cleanup ((pre name o).rule_candidates
        ++ gen_candidates (candTextOf (pre name o) o)
        ++ generate_regex_candidates (tokTextOf (pre name o) o)) := by
    simp only [normalize_target_name]
  rw [h1, gen_candidates_eq, grc_eq, genDedup_eq_dedupR, ← final_cleanup_eq_dedupR]
  rw [List.filter_eq_self.mpr ?hne]
  case hne =>
    intro a ha
    rcases List.mem_append.mp ha with ha | ha
    · simpa using genTier_ne false _ a ha
    · simpa using genTier_ne true _ a ha
  rw [List.append_assoc, fc_combine]
  simp only [List.append_assoc]
theorem greek_lower_not_upper :
    greekUpperToLower.all (fun p => isAsciiUpper p.2 = false) = true := by decide

theorem pyLowerChar_not_upper (c : Char) : isAsciiUpper (pyLowerChar c) = false := by
  unfold pyLowerChar
  split
  · rename_i h
    have hb : 'A' ≤ c ∧ c ≤ 'Z' := by simpa [isAsciiUpper] using h
    have h1 : 65 ≤ c.toNat := hb.1
    have h2 : c.toNat ≤ 90 := hb.2
    generalize hn : c.toNat = n at h1 h2 ⊢
    interval_cases n <;> decide
  · rename_i h
    have hc : isAsciiUpper c = false := by
      by_contra hcc
      exact h (by simpa using hcc)
    unfold lookupD
    rcases hf : greekUpperToLower.find? (fun p => p.1 = c) with _ | p
    · simp only [hf]
      exact hc
    · simp only [hf]
      have hm := List.mem_of_find?_eq_some hf
      have := List.all_eq_true.mp greek_lower_not_upper p hm
      simpa using this

theorem pyLower_noUpper (s : Str) : noUpper (pyLower s) = true := by
  unfold noUpper pyLower
  rw [List.all_eq_true]
  intro c hc
  rcases List.mem_map.mp hc with ⟨d, _, rfl⟩
  simp [pyLowerChar_not_upper d]

theorem noUpper_mem {s : Str} (h : noUpper s = true) :
    ∀ c ∈ s, isAsciiUpper c = false := by
  intro c hc
  have := List.all_eq_true.mp h c hc
  simpa using this

theorem noUpper_of_mem {s : Str} (h : ∀ c ∈ s, isAsciiUpper c = false) :
    noUpper s = true := by
  unfold noUpper
  rw [List.all_eq_true]
  intro c hc
  simp [h c hc]

theorem noUpper_append {a b : Str} (ha : noUpper a = true) (hb : noUpper b = true) :
    noUpper (a ++ b) = true := by
  refine noUpper_of_mem ?_
  intro c hc
  rcases List.mem_append.mp hc with hc | hc
  · exact noUpper_mem ha c hc
  · exact noUpper_mem hb c hc

theorem strSlice_mem (s : Str) (a b : Nat) : ∀ c ∈ strSlice s a b, c ∈ s := by
  intro c hc
  unfold strSlice at hc
  exact List.mem_of_mem_drop (List.mem_of_mem_take hc)

theorem searchAux_zero (pat : PyPattern) (s : Str) (l r : Str) (p : Nat) :
    searchAux pat s 0 l r p =
      match matchAtPos pat l r p with
      | some (e, caps) => some ⟨s, p, e, caps⟩
      | none => none := rfl

theorem searchAux_succ (pat : PyPattern) (s : Str) (fuel : Nat) (l r : Str) (p : Nat) :
    searchAux pat s (fuel + 1) l r p =
      match matchAtPos pat l r p with
      | some (e, caps) => some ⟨s, p, e, caps⟩
      | none =>
        match r with
        | [] => none
        | x :: r' => searchAux pat s fuel (x :: l) r' (p + 1) := rfl

theorem searchAux_str (pat : PyPattern) (s : Str) :
    ∀ (fuel : Nat) (l r : Str) (p : Nat) (m : PyMatch),
    searchAux pat s fuel l r p = some m → m.str = s := by
  intro fuel
  induction fuel with
  | zero =>
    intro l r p m h
    rw [searchAux_zero] at h
    rcases hm : matchAtPos pat l r p with _ | ec
    · simp [hm] at h
    · rcases ec with ⟨e, caps⟩
      simp only [hm, Option.some.injEq] at h
      rw [← h]
  | succ fuel ih =>
    intro l r p m h
    rw [searchAux_succ] at h
    rcases hm : matchAtPos pat l r p with _ | ec
    · simp only [hm] at h
      rcases r with _ | ⟨x, r'⟩
      · simp at h
      · exact ih (x :: l) r' (p + 1) m h
    · rcases ec with ⟨e, caps⟩
      simp only [hm, Option.some.injEq] at h
      rw [← h]

theorem pySearch_str {pat : PyPattern} {s : Str} {m : PyMatch}
    (h : pySearch pat s = some m) : m.str = s :=
  searchAux_str pat s s.length [] s 0 m h

theorem group_mem (m : PyMatch) (i : Nat) (g : Str) (hg : m.group i = some g) :
    ∀ c ∈ g, c ∈ m.str := by
  intro c hc
  unfold PyMatch.group at hg
  split at hg
  · rename_i a b heq
    have := (Option.some.injEq _ _).mp hg
    rw [← this] at hc
    exact strSlice_mem m.str a b c hc
  · simp at hg

theorem groupD_mem (m : PyMatch) (i : Nat) : ∀ c ∈ m.groupD i, c ∈ m.str := by
  intro c hc
  unfold PyMatch.groupD at hc
  rcases hg : m.group i with _ | g
  · simp [hg] at hc
  · simp only [hg, Option.getD_some] at hc
    exact group_mem m i g hg c hc

theorem tpEval_noUpper {m : PyMatch} (hs : noUpper m.str = true) {p : TP}
    (hp : match p with | TP.lit s => noUpper s = true | _ => True) :
    noUpper (TP.eval m p) = true := by
  cases p with
  | lit s => exact hp
  | g i =>
    exact noUpper_of_mem (fun c hc => noUpper_mem hs c (groupD_mem m i c hc))
  | gOr i j =>
    simp only [TP.eval]
    rcases hg : m.group i with _ | s <;> simp only [hg]
    · exact noUpper_of_mem (fun c hc => noUpper_mem hs c (groupD_mem m j c hc))
    · split
      · exact noUpper_of_mem (fun c hc => noUpper_mem hs c (groupD_mem m j c hc))
      · exact noUpper_of_mem (fun c hc => noUpper_mem hs c (group_mem m i s hg c hc))

theorem expand_noUpper {m : PyMatch} (hs : noUpper m.str = true) {t : List TP}
    (ht : ∀ p ∈ t, (match p with | TP.lit s => noUpper s = true | _ => True)) :
    noUpper (m.expand t) = true := by
  induction t with
  | nil => rfl
  | cons p t ih =>
    simp only [PyMatch.expand, List.foldr_cons]
    refine noUpper_append (tpEval_noUpper hs (ht p (List.mem_cons_self ..))) ?_
    exact ih (fun q hq => ht q (List.mem_cons_of_mem p hq))
theorem mem_all_noUpper {l : List Str} (hl : l.all noUpper = true) {c : Str}
    (hc : c ∈ l) : noUpper c = true :=
  List.all_eq_true.mp hl c hc

theorem genValsNoUpper : genRules.all (fun r => valNoUpper r.2.1) = true := by decide

theorem valNoUpper_eval {v : RuleVal} (hv : valNoUpper v = true) {m : PyMatch}
    (hm : noUpper m.str = true) : ∀ c ∈ v.eval m, noUpper c = true := by
  intro c hc
  cases v with
  | fixed vs =>
    simp only [RuleVal.eval] at hc
    exact mem_all_noUpper hv hc
  | tmpl ts =>
    simp only [RuleVal.eval, List.mem_map] at hc
    rcases hc with ⟨t, ht, rfl⟩
    refine expand_noUpper hm ?_
    intro p hp
    have hall := List.all_eq_true.mp hv t ht
    have hpp := List.all_eq_true.mp hall p hp
    cases p with
    | lit s => simpa using hpp
    | g i => trivial
    | gOr i j => trivial

theorem genTier_noUpper (b : Bool) (ct : Str) :
    ∀ c ∈ genTier b ct, noUpper c = true := by
  intro c hc
  simp only [genTier, List.mem_flatMap] at hc
  rcases hc with ⟨rule, hrule, hc⟩
  split at hc
  · rcases hms : pySearch rule.1 (pyLower ct) with _ | m
    · rw [hms] at hc
      simp at hc
    · rw [hms] at hc
      have hstr : m.str = pyLower ct := pySearch_str hms
      have hm : noUpper m.str = true := by
        rw [hstr]
        exact pyLower_noUpper ct
      have hv : valNoUpper rule.2.1 = true := by
        simpa using List.all_eq_true.mp genValsNoUpper rule hrule
      exact valNoUpper_eval hv hm c hc
  · simp at hc

theorem capTier_noUpper (t : Str) : ∀ c ∈ capTier t, noUpper c = true := by
  intro c hc
  simp only [capTier, List.mem_flatMap, List.mem_map] at hc
  rcases hc with ⟨pr, _, m, _, rfl⟩
  exact pyLower_noUpper _

theorem famT_noUpper (tokens : List Str) : ∀ c ∈ famT tokens, noUpper c = true := by
  intro c hc
  simp only [famT] at hc
  rcases List.mem_append.mp hc with hc | hc
  · rcases List.mem_append.mp hc with hc | hc
    · rcases List.mem_append.mp hc with hc | hc
      · split at hc
        · exact mem_all_noUpper (by decide) hc
        · simp at hc
      · split at hc
        · exact mem_all_noUpper (by decide) hc
        · simp at hc
    · split at hc
      · exact mem_all_noUpper (by decide) hc
      · simp at hc
  · split at hc
    · exact mem_all_noUpper (by decide) hc
    · simp at hc

theorem aliasTier_noUpper (t : Str) : ∀ c ∈ aliasTier t, noUpper c = true := by
  intro c hc
  simp only [aliasTier, List.mem_flatMap, List.mem_map] at hc
  rcases hc with ⟨pr, _, _, _, x, _, rfl⟩
  exact pyLower_noUpper x

theorem receptor_fold_noUpper :
    ∀ (rs : List (PyPattern × Str × Str × Str)) (acc : Str × List Str × List Str),
      (∀ r ∈ rs, noUpper r.2.2.2 = true) →
      (∀ c ∈ acc.2.1, noUpper c = true) →
      ∀ c ∈ (rs.foldl
        (fun acc rule =>
          if (pySearch rule.1 acc.1).isSome then
            (pySub rule.1 (fun _ => rule.2.2.1) acc.1,
             acc.2.1 ++ [rule.2.2.2], acc.2.2 ++ [rule.2.1])
          else acc) acc).2.1, noUpper c = true
  | [], _, _, hacc => hacc
  | r :: rs, acc, hrs, hacc => by
    simp only [List.foldl_cons]
    refine receptor_fold_noUpper rs _
      (fun q hq => hrs q (List.mem_cons_of_mem r hq)) ?_
    split
    · show ∀ c ∈ acc.2.1 ++ [r.2.2.2], noUpper c = true
      intro c hc
      rcases List.mem_append.mp hc with hc | hc
      · exact hacc c hc
      · rw [List.mem_singleton.mp hc]
        exact hrs r (List.mem_cons_self ..)
    · exact hacc

theorem apply_receptor_rules_noUpper (text : Str) :
    ∀ c ∈ (apply_receptor_rules text).2.1, noUpper c = true := by
  unfold apply_receptor_rules
  exact receptor_fold_noUpper RECEPTOR_RULES (text, [], []) (by decide) (by simp)

theorem pre_rule_noUpper (name : Str) (o : Options) :
    ∀ c ∈ (pre name o).rule_candidates, noUpper c = true := by
  intro c hc
  simp only [pre] at hc
  exact apply_receptor_rules_noUpper _ c hc

theorem dedupR_mem : ∀ (l seen : List Str) (x : Str), x ∈ l → x ∈ seen ∨ x ∈ dedupR seen l
  | [], _, x, hx => absurd hx (List.not_mem_nil x)
  | y :: t, seen, x, hx => by
    simp only [dedupR]
    by_cases hsy : seen.contains y = true
    · rw [if_pos hsy]
      rcases List.mem_cons.mp hx with rfl | hx'
      · exact Or.inl ((contains_iff seen x).mp hsy)
      · exact dedupR_mem t seen x hx'
    · rw [if_neg hsy]
      rcases List.mem_cons.mp hx with rfl | hx'
      · exact Or.inr (List.mem_cons_self ..)
      · rcases dedupR_mem t (y :: seen) x hx' with hs | hd
        · rcases List.mem_cons.mp hs with rfl | hs'
          · exact Or.inr (List.mem_cons_self ..)
          · exact Or.inl hs'
        · exact Or.inr (List.mem_cons_of_mem y hd)

theorem final_cleanup_mem {l : List Str} {x : Str} (h : x ∈ l) : x ∈ final_cleanup l := by
  rw [final_cleanup_eq_dedupR]
  rcases dedupR_mem l [] x h with hs | hd
  · exact absurd hs (List.not_mem_nil x)
  · exact hd

theorem greekLowerFix : greekUpperToLower.all (fun q => nuChar q.2 = q.2) = true := by
  decide

theorem nfkcOutFix : nfkcTable.all (fun q => nuChar q.2 = q.2) = true := by decide

theorem nuChar_idem (c : Char) : nuChar (nuChar c) = nuChar c := by
  by_cases hd : quoteChar (pyLowerChar (nfkcChar c)) = '–' ∨
      quoteChar (pyLowerChar (nfkcChar c)) = '—'
  · have h : nuChar c = '-' := by
      show dashChar (quoteChar (pyLowerChar (nfkcChar c))) = '-'
      unfold dashChar
      rw [if_pos hd]
    rw [h]
    decide
  · have h4 : nuChar c = quoteChar (pyLowerChar (nfkcChar c)) := by
      show dashChar (quoteChar (pyLowerChar (nfkcChar c))) = _
      unfold dashChar
      rw [if_neg hd]
    by_cases hq : pyLowerChar (nfkcChar c) = '“' ∨ pyLowerChar (nfkcChar c) = '”' ∨
        pyLowerChar (nfkcChar c) = '«' ∨ pyLowerChar (nfkcChar c) = '»' ∨
        pyLowerChar (nfkcChar c) = '„' ∨ pyLowerChar (nfkcChar c) = '’'
    · have h : nuChar c = '\'' := by
        rw [h4]
        unfold quoteChar
        rw [if_pos hq]
      rw [h]
      decide
    · have h3 : nuChar c = pyLowerChar (nfkcChar c) := by
        rw [h4]
        unfold quoteChar
        rw [if_neg hq]
      by_cases hl : isAsciiUpper (nfkcChar c) = true
      · have hb : 'A' ≤ nfkcChar c ∧ nfkcChar c ≤ 'Z' := by
          simpa [isAsciiUpper] using hl
        have h : nuChar c = Char.ofNat ((nfkcChar c).toNat + 32) := by
          rw [h3]
          unfold pyLowerChar
          rw [if_pos hl]
        rw [h]
        have h65 : 65 ≤ (nfkcChar c).toNat := hb.1
        have h90 : (nfkcChar c).toNat ≤ 90 := hb.2
        generalize hn : (nfkcChar c).toNat = n at h65 h90 ⊢
        interval_cases n <;> decide
      · have h2 : nuChar c = lookupD greekUpperToLower (nfkcChar c) := by
          rw [h3]
          unfold pyLowerChar
          rw [if_neg hl]
        rcases hf : greekUpperToLower.find? (fun p => p.1 = nfkcChar c) with _ | p
        · have h2' : nuChar c = nfkcChar c := by
            rw [h2]
            unfold lookupD
            rw [hf]
          rcases hg : nfkcTable.find? (fun p => p.1 = c) with _ | q
          · have h1 : nfkcChar c = c := by
              unfold nfkcChar lookupD
              rw [hg]
            rw [h2', h1]
            exact h2'.trans h1
          · have h1 : nfkcChar c = q.2 := by
              unfold nfkcChar lookupD
              rw [hg]
            rw [h2', h1]
            have := List.all_eq_true.mp nfkcOutFix q (List.mem_of_find?_eq_some hg)
            simpa using this
        · have h2' : nuChar c = p.2 := by
            rw [h2]
            unfold lookupD
            rw [hf]
          rw [h2']
          have := List.all_eq_true.mp greekLowerFix p (List.mem_of_find?_eq_some hf)
          simpa using this

theorem nuChar_map (s : Str) : normalize_unicode s = s.map nuChar := by
  simp only [normalize_unicode, pyLower, List.map_map]
  exact List.map_congr_left (fun a _ => rfl)

/-- C1: the gene-like candidate list equals the deduplicated concatenation of
the candidate tiers in the order the code emits them: literal receptor-rule
candidates, pattern-table candidates (non-soft, then soft), capture-expansion
candidates, family-fallback candidates, and alias-table candidates last
(the specification instead places the alias tier before the
capture-expansion tier; see the counterexample). -/
theorem c1_candidate_order (name : Str) (o : Options) :
    (normalize_target_name name o).gene_like_candidates =
      final_cleanup ((pre name o).rule_candidates
        ++ genTier false (candTextOf (pre name o) o)
        ++ genTier true (candTextOf (pre name o) o)
        ++ capTier (tokTextOf (pre name o) o)
        ++ famTier (tokTextOf (pre name o) o)
        ++ aliasTier (tokTextOf (pre name o) o)) :=
  gene_like_decomp name o

/-- The specification's tier order (alias tier before capture-expansion tier)
produces a different list than the program on "histamine h1 rantes":
the specification's order yields [ccr1, ccr3, ccr5, hrh1] while the program
returns [hrh1, ccr1, ccr3, ccr5]. -/
theorem c1_candidate_order_cex :
    specOrderCandidates (toL "histamine h1 rantes") defaultOptions ≠
      (normalize_target_name (toL "histamine h1 rantes") defaultOptions).gene_like_candidates := by
  decide

/-- C2: with strip_mutations disabled and detect_mutations enabled, no token
stream is filtered (query_tokens is the deduplicated unfiltered stream), but
hints.mutations still records the detected mutations rather than being left
empty (the emptiness asserted by the specification fails; see the
counterexample). -/
theorem c2_strip_disabled (name : Str) (wl : List Str) (tax : Int) :
    (normalize_target_name name ⟨false, wl, true, tax⟩).query_tokens
      = final_cleanup (pre name ⟨false, wl, true, tax⟩).tokens_no_stop ∧
    (normalize_target_name name ⟨false, wl, true, tax⟩).hints.mutations
      = find_mutations (sanitize_text name) (MUTATION_WHITELIST ++ wl.map pyLower) := by
  have hs : strippedNoStop (pre name ⟨false, wl, true, tax⟩) ⟨false, wl, true, tax⟩
      = (pre name ⟨false, wl, true, tax⟩).tokens_no_stop := by
    unfold strippedNoStop
    rw [if_neg (by simp)]
  have hf : finalNoStop (pre name ⟨false, wl, true, tax⟩) ⟨false, wl, true, tax⟩
      = (pre name ⟨false, wl, true, tax⟩).tokens_no_stop := by
    unfold finalNoStop
    rw [hs, ite_self]
  have hm : (pre name ⟨false, wl, true, tax⟩).mutations
      = find_mutations (sanitize_text name) (MUTATION_WHITELIST ++ wl.map pyLower) := by
    simp only [pre]
    rw [if_pos trivial]
  constructor
  · simp only [normalize_target_name]
    unfold queryTokensOf
    rw [hf]
  · simp only [normalize_target_name, hintsOf]
    simp only [hm]
    simp

/-- With strip_mutations disabled and detect_mutations enabled, the
hints.mutations field of "BRAF V600E" is ["V600E"], not the empty list the
specification asserts. -/
theorem c2_strip_disabled_cex :
    (normalize_target_name (toL "BRAF V600E") ⟨false, [], true, 9606⟩).hints.mutations
      = [toL "V600E"] ∧
    (normalize_target_name (toL "BRAF V600E") ⟨false, [], true, 9606⟩).hints.mutations
      ≠ [] := by
  exact ⟨by decide, by decide⟩

/-- C3: every gene-like candidate returned by normalize_target_name is free of
ASCII uppercase letters (the lowercase half of the claim; the no-whitespace
half fails, see the counterexample). -/
theorem c3_candidates_lowercase (name : Str) (o : Options) (c : Str)
    (hc : c ∈ (normalize_target_name name o).gene_like_candidates) :
    noUpper c = true := by
  rw [gene_like_decomp] at hc
  have hc' := final_cleanup_sub _ c hc
  simp only [List.append_assoc, List.mem_append] at hc'
  rcases hc' with hc' | hc' | hc' | hc' | hc' | hc'
  · exact pre_rule_noUpper name o c hc'
  · exact genTier_noUpper false _ c hc'
  · exact genTier_noUpper true _ c hc'
  · exact capTier_noUpper _ c hc'
  · simp only [famTier] at hc'
    exact famT_noUpper _ c hc'
  · exact aliasTier_noUpper _ c hc'

/-- Witness: "ccr1" is a candidate of "rantes" and has no uppercase letter. -/
theorem c3_candidates_lowercase_witness :
    toL "ccr1" ∈ (normalize_target_name (toL "rantes") defaultOptions).gene_like_candidates ∧
    noUpper (toL "ccr1") = true :=
  ⟨by decide, c3_candidates_lowercase (toL "rantes") defaultOptions (toL "ccr1") (by decide)⟩

/-- The candidate "er beta" of "estrogen receptor beta" contains a space, so
candidates are not whitespace-free as the specification asserts. -/
theorem c3_candidates_lowercase_cex :
    toL "er beta" ∈
      (normalize_target_name (toL "estrogen receptor beta") defaultOptions).gene_like_candidates ∧
    noWs (toL "er beta") = false := by
  exact ⟨by decide, by decide⟩

/-- C4: a brace-delimited segment is neither removed from the text nor
recorded as a parenthetical hint: extract_parenthetical leaves "x {y} z"
unchanged with empty hints, because the third alternative of PAREN_RE ends
with a literal closing parenthesis instead of a closing brace. -/
theorem c4_brace_segment_kept :
    extract_parenthetical (toL "x {y} z") = (toL "x {y} z", [], []) := by decide

/-- C5: when stripping the detected mutation tokens would leave only bare
single-letter or all-digit tokens (the clean_tokens_check list is empty),
normalize_target_name with default options records mutations_only = true,
rolls the stripping back (query_tokens is the deduplicated unstripped
stream), and every unstripped token is retained in query_tokens. -/
theorem c5_mutations_only_rollback (name : Str)
    (h : clean_tokens_check (pre name defaultOptions) defaultOptions = []) :
    (normalize_target_name name defaultOptions).hints.mutations_only = some true ∧
    (normalize_target_name name defaultOptions).query_tokens
      = final_cleanup (pre name defaultOptions).tokens_no_stop ∧
    ∀ t ∈ (pre name defaultOptions).tokens_no_stop,
      t ∈ (normalize_target_name name defaultOptions).query_tokens := by
  have hmo : hints_mutations_only (pre name defaultOptions) defaultOptions = true := by
    unfold hints_mutations_only
    rw [decide_eq_true_eq]
    exact ⟨rfl, h⟩
  have hq : (normalize_target_name name defaultOptions).query_tokens
      = final_cleanup (pre name defaultOptions).tokens_no_stop := by
    simp only [normalize_target_name]
    unfold queryTokensOf finalNoStop
    rw [if_pos hmo]
  have hcond : defaultOptions.detect_mutations = true ∧
      hints_mutations_only (pre name defaultOptions) defaultOptions = true := ⟨rfl, hmo⟩
  have hh : (normalize_target_name name defaultOptions).hints.mutations_only
      = some true := by
    simp only [normalize_target_name, hintsOf]
    rw [if_pos hcond]
  refine ⟨hh, hq, ?_⟩
  intro t ht
  rw [hq]
  exact final_cleanup_mem ht

/-- Witness: "K V600E" strips to bare tokens only, sets mutations_only and
keeps the mutation token v600e in query_tokens. -/
theorem c5_mutations_only_rollback_witness :
    clean_tokens_check (pre (toL "K V600E") defaultOptions) defaultOptions = [] ∧
    (normalize_target_name (toL "K V600E") defaultOptions).hints.mutations_only
      = some true ∧
    toL "v600e" ∈ (normalize_target_name (toL "K V600E") defaultOptions).query_tokens := by
  refine ⟨by decide, (c5_mutations_only_rollback (toL "K V600E") (by decide)).1, by decide⟩

/-- C6: the candidate list of "adenosine a2a receptor" starts with
[a2a, adora2a] in that order, and the candidate list of
"nociceptin receptor" is exactly [nop, orl1, oprl1]. -/
theorem c6_candidate_order_examples :
    ((normalize_target_name (toL "adenosine a2a receptor") defaultOptions).gene_like_candidates).take 2
      = [toL "a2a", toL "adora2a"] ∧
    (normalize_target_name (toL "nociceptin receptor") defaultOptions).gene_like_candidates
      = [toL "nop", toL "orl1", toL "oprl1"] := by
  exact ⟨by decide, by decide⟩

/-- C7: "BRAF V600E" cleans to "braf" with mutation V600E reported, while
"AKT1 E17E" cleans to "akt1 e17e" with no mutation reported (the two letters
of the triple are identical). -/
theorem c7_mutation_detection_examples :
    (normalize_target_name (toL "BRAF V600E") defaultOptions).clean_text = toL "braf" ∧
    (normalize_target_name (toL "BRAF V600E") defaultOptions).hints.mutations
      = [toL "V600E"] ∧
    (normalize_target_name (toL "AKT1 E17E") defaultOptions).clean_text
      = toL "akt1 e17e" ∧
    (normalize_target_name (toL "AKT1 E17E") defaultOptions).hints.mutations = [] := by
  exact ⟨by decide, by decide, by decide, by decide⟩

/-- C8: normalize_target_name is total over strings and options and its result
is well-formed: the raw field echoes the input, the taxon hint echoes the
option, and the candidate list is duplicate-free. -/
theorem c8_total_result (name : Str) (o : Options) :
    (normalize_target_name name o).raw = name ∧
    (normalize_target_name name o).hint_taxon = o.taxon ∧
    (normalize_target_name name o).gene_like_candidates.Nodup := by
  refine ⟨rfl, rfl, ?_⟩
  simp only [normalize_target_name]
  exact final_cleanup_nodup _

/-- C9: normalize_unicode is idempotent: folding a second time changes
nothing. -/
theorem c9_normalize_unicode_idempotent (s : Str) :
    normalize_unicode (normalize_unicode s) = normalize_unicode s := by
  rw [nuChar_map, nuChar_map]
  induction s with
  | nil => rfl
  | cons c t ih =>
    simp only [List.map_cons]
    rw [nuChar_idem, ih]

/-- C10: the mutations-only flag fires whenever the stop-word-filtered stream
holds only single-letter or all-digit tokens, for any options with mutation
detection enabled, independently of whether any mutation was detected or any
token stripped; the witness instantiates it at the empty string, where
mutations is empty. -/
theorem c10_mutations_only_empty (o : Options) (ho : o.detect_mutations = true)
    (name : Str) (h : clean_tokens_check (pre name o) o = []) :
    (normalize_target_name name o).hints.mutations_only = some true ∧
    (normalize_target_name name o).query_tokens
      = final_cleanup (pre name o).tokens_no_stop := by
  have hmo : hints_mutations_only (pre name o) o = true := by
    unfold hints_mutations_only
    rw [decide_eq_true_eq]
    exact ⟨ho, h⟩
  have hq : (normalize_target_name name o).query_tokens
      = final_cleanup (pre name o).tokens_no_stop := by
    simp only [normalize_target_name]
    unfold queryTokensOf finalNoStop
    rw [if_pos hmo]
  have hcond : o.detect_mutations = true ∧
      hints_mutations_only (pre name o) o = true := ⟨ho, hmo⟩
  have hh : (normalize_target_name name o).hints.mutations_only = some true := by
    simp only [normalize_target_name, hintsOf]
    rw [if_pos hcond]
  exact ⟨hh, hq⟩

/-- Witness: the empty string sets mutations_only = true with no mutation
detected and no token produced. -/
theorem c10_mutations_only_empty_witness :
    defaultOptions.detect_mutations = true ∧
    clean_tokens_check (pre (toL "") defaultOptions) defaultOptions = [] ∧
    (normalize_target_name (toL "") defaultOptions).hints.mutations_only = some true ∧
    (normalize_target_name (toL "") defaultOptions).hints.mutations = [] ∧
    (normalize_target_name (toL "") defaultOptions).query_tokens = [] := by
  refine ⟨rfl, by decide,
    (c10_mutations_only_empty defaultOptions rfl (toL "") (by decide)).1,
    by decide, by decide⟩

end Chembl
